import Mathlib

/-!
# LiveDataService: the category refresh-and-cache engine

A shallow embedding of `src/services/LiveDataService.js` (class `LiveDataService`):
the retry loop of `fetchCategoryData`, the sweep `fetchAllData`, the read accessor
`getData` and the synthesizer `generateMockData`, with the JavaScript object state
(`this.data`, `this.cache`) made explicit and every interaction with the outside
(provider calls, `Date.now()`, `Math.random()`, `setTimeout`, `console.error`,
`emit`) recorded in the state. On top of it come the HTTP handlers of
`routes/liveData.js` that use the service (`GET /:category`, `POST /multi`,
`POST /:category/refresh`, `GET /summary/overview`) and the WebSocket wiring of
`server.js` (the subscribe handler and the `dataUpdate` listener). The table generators
of `generateMockData`, the fetchers `fetchWeatherData` and `fetchStocksData`, and the
Django-style methods are embedded as functions of the random draws, the clock and the
replies of the providers.
-/

namespace LiveDataService

/-! ## Values -/

/-- One piece of a template string: literal text, an interpolated integer, or an
interpolated `q.toFixed(digits)`. -/
inductive Piece
  | lit (s : String)
  | int (n : Int)
  | fixed (q : ℚ) (digits : Nat)
  deriving DecidableEq, Repr

/-- Scalar field values of the records built by the mock generators: strings, integers,
other numbers (doubles, kept as the rationals they denote), the string `q.toFixed(digits)`, template
strings, the ISO string of the time value `ms`, the date part of the ISO string of
`new Date(year, month, day)`, booleans, lists of strings, and `undefined`. Dates are
kept as the arguments they were built from. -/
inductive Leaf
  | text (s : String)
  | int (n : Int)
  | real (q : ℚ)
  | fixed (q : ℚ) (digits : Nat)
  | template (pieces : List Piece)
  | isoTime (ms : Int)
  | isoDay (year : Int) (month : Int) (day : Int)
  | flag (b : Bool)
  | texts (items : List String)
  | undefined
  deriving DecidableEq, Repr

/-- Leaf values stored inside payloads. Provider responses of arbitrary shape are kept
in serialised form (`json`); the engine never looks inside them. The records and lists
of records built by the mock generators are kept as they are (`leaf`, `row`, `rows`). -/
inductive Atom
  | text (s : String)
  | number (n : Int)
  | instant (ms : Nat)
  | json (s : String)
  | leaf (value : Leaf)
  | row (fields : List (String × Leaf))
  | rows (items : List (List (String × Leaf)))
  deriving DecidableEq, Repr

/-- JavaScript values as the engine sees them. `member key` is the value found under
`key` on `Object.prototype` (a built-in function, or the prototype object itself for
`__proto__`). Numbers are integers here; `NaN` is not represented. -/
inductive Payload
  | undefined
  | null
  | bool (b : Bool)
  | num (n : Int)
  | str (s : String)
  | list (items : List Atom)
  | record (fields : List (String × Atom))
  | member (key : String)
  deriving DecidableEq, Repr

/-- JavaScript truthiness, as tested by `if (data)` and by `||`. -/
def truthy : Payload → Bool
  | .undefined => false
  | .null => false
  | .bool b => b
  | .num n => n != 0
  | .str s => s != ""
  | .list _ => true
  | .record _ => true
  | .member _ => true

/-- What the table generators (`generateMockGDPData`, ...) return: always an array or a
plain object, hence always truthy. -/
inductive MockObj
  | list (items : List Atom)
  | record (fields : List (String × Atom))
  deriving DecidableEq, Repr

/-- Embedding of generator results into payloads. -/
def MockObj.toPayload : MockObj → Payload
  | .list items => .list items
  | .record fields => .record fields

/-- Result of evaluating a call inside a `try` block. -/
inductive Outcome
  | threw (message : String)
  | returned (value : Payload)
  deriving DecidableEq, Repr

/-- Settlement of the promise returned by an `async` method. -/
inductive Completion
  | resolved (value : Payload)
  | rejected (message : String)
  deriving DecidableEq, Repr

/-- One invocation of a provider-backed fetcher: how long the `await` took and how it
ended. -/
structure Attempt where
  duration : Nat
  outcome : Outcome
  deriving DecidableEq, Repr

/-- The world outside the service: `fetcher c i` is what the fetcher of switch case `c`
does when it is the `i`-th fetch attempt made by the service; `generator c k` is what
the table generator of `c` returns on the `k`-th generator call (its `Math.random()`
draws). -/
structure Env where
  fetcher : String → Nat → Attempt
  generator : String → Nat → MockObj

/-! ## Service state -/

/-- Value type of `this.cache`. -/
structure CacheEntry where
  data : Payload
  timestamp : Nat
  deriving DecidableEq, Repr

/-- An emitted `'dataUpdate'` event with its two arguments. -/
structure Event where
  category : String
  data : Payload
  deriving DecidableEq, Repr

/-- One fetch attempt as it happened: the category it was made for, the clock when it
ended, and how it ended. -/
structure Call where
  category : String
  endedAt : Nat
  outcome : Outcome
  deriving DecidableEq, Repr

/-- One `setTimeout` wait of the retry loop: the number of failed attempts of the
current call when it was started (the loop variable `retries`), and its length. -/
structure Wait where
  afterFailure : Nat
  ms : Nat
  deriving DecidableEq, Repr

/-- The three effects of a successful attempt (lines 179-181), in the order in which
they happen. -/
inductive Effect
  | dataSet (category : String) (data : Payload)
  | cacheSet (category : String) (entry : CacheEntry)
  | emit (category : String) (data : Payload)
  deriving DecidableEq, Repr

/-- Lines written with `console.error`. -/
inductive LogEntry
  | attemptFailed (category : String) (attempt : Nat) (message : String)
  | sweepFailed (category : String) (message : String)
  deriving DecidableEq, Repr

/-- The instance fields of `LiveDataService` (`data`, `cache`, `updateInterval`,
`maxRetries`, `retryDelay`) together with the observable history: the clock
`Date.now()`, the fetch attempts made so far (`calls`, oldest first), the number of
generator calls made so far, the emitted events, the `setTimeout` waits and the error
log, and the writes and emissions of the successful attempts as one sequence
(`effects`). The field `apiKeys` is read only inside the provider calls, which live in
`Env`. -/
structure Service where
  data : List (String × Payload)
  cache : List (String × CacheEntry)
  updateInterval : Nat
  maxRetries : Nat
  retryDelay : Nat
  now : Nat
  calls : List Call
  draws : Nat
  emitted : List Event
  delays : List Wait
  log : List LogEntry
  effects : List Effect
  deriving DecidableEq, Repr

/-- The constructor (lines 6-23): empty `data` and `cache`, five-minute interval, three
retries, one-second base delay. `now` is the clock at construction. -/
def constructor (now : Nat) : Service :=
  { data := [], cache := [], updateInterval := 5 * 60 * 1000, maxRetries := 3,
    retryDelay := 1000, now := now, calls := [], draws := 0, emitted := [],
    delays := [], log := [], effects := [] }

/-- The fetch-call counter: how many fetch attempts the service has made so far. -/
def Service.attempts (s : Service) : Nat := s.calls.length

/-- The list returned by `getCategories()` (lines 26-43). -/
def getCategories : List String :=
  ["weather", "news", "stocks", "crypto", "sports", "movies", "tv_shows",
   "trending_topics", "covid_stats", "air_quality", "earthquakes", "currency_rates",
   "commodity_prices", "interest_rates", "inflation_data", "unemployment_data",
   "gdp_data", "trade_balance", "oil_prices", "gold_prices", "silver_prices",
   "bitcoin_price", "ethereum_price", "nft_trends", "social_media_trends",
   "youtube_trending", "twitter_trends", "reddit_trends", "github_trending",
   "hackernews", "product_hunt", "app_store_trending", "google_play_trending",
   "steam_games", "epic_games", "amazon_best_sellers", "ebay_trending",
   "flight_status", "traffic_updates", "public_transit", "parking_availability",
   "restaurant_deals", "hotel_bookings", "travel_advisories", "visa_requirements",
   "exchange_rates", "bank_interest_rates", "credit_card_offers", "loan_rates",
   "insurance_rates", "real_estate_prices", "rental_prices", "mortgage_rates",
   "job_listings", "salary_data", "skill_trends", "certification_trends",
   "online_courses", "webinars", "conferences", "research_papers", "patent_filings"]

/-- The `case` labels of the `switch` in `fetchCategoryData` (lines 77-172). -/
def switchCases : List String :=
  ["weather", "news", "stocks", "crypto", "sports", "movies", "tv_shows",
   "trending_topics", "covid_stats", "air_quality", "earthquakes", "currency_rates",
   "commodity_prices", "interest_rates", "bitcoin_price", "ethereum_price",
   "social_media_trends", "youtube_trending", "twitter_trends", "reddit_trends",
   "github_trending", "hackernews", "product_hunt", "steam_games",
   "amazon_best_sellers", "flight_status", "traffic_updates", "restaurant_deals",
   "hotel_bookings", "exchange_rates", "job_listings", "online_courses"]

/-- The own keys of the `generators` table in `generateMockData` (lines 521-548). -/
def generatorKeys : List String :=
  ["gdp_data", "trade_balance", "oil_prices", "gold_prices", "silver_prices",
   "nft_trends", "app_store_trending", "google_play_trending", "epic_games",
   "ebay_trending", "travel_advisories", "visa_requirements", "bank_interest_rates",
   "credit_card_offers", "loan_rates", "insurance_rates", "real_estate_prices",
   "rental_prices", "mortgage_rates", "salary_data", "skill_trends",
   "certification_trends", "webinars", "conferences", "research_papers",
   "patent_filings", "inflation_data", "unemployment_data"]

/-- Property names that every plain object (`{}` and object literals) inherits from
`Object.prototype`; `generators[category]` and `this.data[category]` find them although
they are not own keys. -/
def objectPrototypeKeys : List String :=
  ["constructor", "__defineGetter__", "__defineSetter__", "hasOwnProperty",
   "__lookupGetter__", "__lookupSetter__", "isPrototypeOf", "propertyIsEnumerable",
   "toString", "valueOf", "__proto__", "toLocaleString"]

/-! ## The two stores -/

/-- Lookup in an insertion-ordered association list: `Map.prototype.get`. -/
def lookup {α : Type} (k : String) : List (String × α) → Option α
  | [] => none
  | (k', v) :: rest => if k' = k then some v else lookup k rest

/-- Create or overwrite one key in place: `Map.prototype.set`. -/
def assign {α : Type} (k : String) (v : α) : List (String × α) → List (String × α)
  | [] => [(k, v)]
  | (k', v') :: rest => if k' = k then (k', v) :: rest else (k', v') :: assign k v rest

/-- Read `this.data[category]`: own property first, then `Object.prototype`. -/
def dataGet (k : String) (data : List (String × Payload)) : Payload :=
  if k = "__proto__" then .member k
  else match lookup k data with
    | some v => v
    | none => if k ∈ objectPrototypeKeys then .member k else .undefined

/-- Write `this.data[category] = v`. Assigning to `__proto__` creates no own property. -/
def dataSet (k : String) (v : Payload) (data : List (String × Payload)) :
    List (String × Payload) :=
  if k = "__proto__" then data else assign k v data

/-! ## Fallback synthesizer -/

/-- Lines 1187-1194: `generateGenericMockData`. -/
def generateGenericMockData (category : String) (now : Nat) : Payload :=
  .record [("category", .text category), ("data", .text ("Mock data for " ++ category)),
    ("timestamp", .instant now), ("status", .text "active")]

/-- Calling an inherited `Object.prototype` member as `generator()`, that is with no
receiver and no argument: `Object()` gives a fresh empty object, `toString` gives
`"[object Undefined]"`, `isPrototypeOf` gives `false`, and every other member raises a
`TypeError` (`__proto__` is not callable, the rest reject an undefined receiver). -/
def callInherited (key : String) : Outcome :=
  if key = "constructor" then .returned (.record [])
  else if key = "toString" then .returned (.str "[object Undefined]")
  else if key = "isPrototypeOf" then .returned (.bool false)
  else .threw "TypeError"

/-- Lines 519-553: `generateMockData`. A table key runs its generator (one more
generator call), an inherited key is called as it is, anything else gets the generic
record. -/
def generateMockData (env : Env) (category : String) (s : Service) : Outcome × Service :=
  if category ∈ generatorKeys then
    (.returned (env.generator category s.draws).toPayload, { s with draws := s.draws + 1 })
  else if category ∈ objectPrototypeKeys then (callInherited category, s)
  else (.returned (generateGenericMockData category s.now), s)

/-! ## Refresh engine -/

/-- The `switch` of lines 76-176: a case label awaits its fetcher (the clock advances by
the time the call took), the default branch calls `generateMockData`. Either way one
more attempt has been made and is appended to `calls`. -/
def dispatch (env : Env) (category : String) (s : Service) : Outcome × Service :=
  if category ∈ switchCases then
    let a := env.fetcher category s.attempts
    (a.outcome, { s with now := s.now + a.duration,
                         calls := s.calls ++ [Call.mk category (s.now + a.duration) a.outcome] })
  else
    let r := generateMockData env category s
    (r.1, { r.2 with calls := r.2.calls ++ [Call.mk category r.2.now r.1] })

/-- Lines 179-181: the three writes of a successful attempt. The event is recorded as
emitted; the listeners that `emit` would run belong to the callers of the service and
are taken not to raise. -/
def store (category : String) (data : Payload) (s : Service) : Service :=
  { s with data := dataSet category data s.data,
           cache := assign category { data := data, timestamp := s.now } s.cache,
           emitted := s.emitted ++ [{ category := category, data := data }],
           effects := s.effects ++
             [Effect.dataSet category data,
              Effect.cacheSet category (CacheEntry.mk data s.now),
              Effect.emit category data] }

/-- Lines 185-192: the `catch` block, with `retries` already incremented: log the
failure, then wait `retryDelay * retries` unless this was the last attempt. -/
def catchBlock (category : String) (retries : Nat) (message : String) (s : Service) :
    Service :=
  let s1 := { s with log := s.log ++ [.attemptFailed category retries message] }
  if retries < s1.maxRetries then
    { s1 with now := s1.now + s1.retryDelay * retries,
              delays := s1.delays ++ [Wait.mk retries (s1.retryDelay * retries)] }
  else s1

/-- Lines 74-193: the `while (retries < this.maxRetries)` loop. The first argument
bounds the number of iterations; `fetchCategoryData` passes `maxRetries`, which the
loop can never use up before its own condition fails. -/
def retryLoop (env : Env) (category : String) : Nat → Nat → Service → Service
  | 0, _, s => s
  | fuel + 1, retries, s =>
    if retries < s.maxRetries then
      match dispatch env category s with
      | (.returned data, s1) => if truthy data then store category data s1 else s1
      | (.threw message, s1) =>
        retryLoop env category fuel (retries + 1) (catchBlock category (retries + 1) message s1)
    else s

/-- Lines 70-194: `fetchCategoryData`. The method has no `return` and no `throw`
outside the `try`, so its promise always resolves with `undefined`. -/
def fetchCategoryData (env : Env) (category : String) (s : Service) : Completion × Service :=
  (.resolved .undefined, retryLoop env category s.maxRetries 0 s)

/-- Lines 61-67: one iteration of the sweep, with its `try`/`catch`. -/
def sweepStep (env : Env) (s : Service) (category : String) : Service :=
  match fetchCategoryData env category s with
  | (.resolved _, s1) => s1
  | (.rejected message, s1) => { s1 with log := s1.log ++ [.sweepFailed category message] }

/-- Lines 58-68: `fetchAllData`. -/
def fetchAllData (env : Env) (s : Service) : Completion × Service :=
  (.resolved .undefined, getCategories.foldl (sweepStep env) s)

/-- Line 1746: the freshness test `cached && (Date.now() - cached.timestamp) <
this.updateInterval`. -/
def isFresh (category : String) (s : Service) : Bool :=
  match lookup category s.cache with
  | some cached => decide ((s.now : Int) - (cached.timestamp : Int) < (s.updateInterval : Int))
  | none => false

/-- Lines 1750-1756 of `getData`: what happens when the freshness test fails. -/
def getDataSlow (env : Env) (category : String) (s : Service) : Completion × Service :=
  if truthy (dataGet category s.data) then (.resolved (dataGet category s.data), s)
  else
    match fetchCategoryData env category s with
    | (.rejected message, s1) => (.rejected message, s1)
    | (.resolved _, s1) =>
      if truthy (dataGet category s1.data) then (.resolved (dataGet category s1.data), s1)
      else
        match generateMockData env category s1 with
        | (.returned v, s2) => (.resolved v, s2)
        | (.threw message, s2) => (.rejected message, s2)

/-- Lines 1743-1757: `getData`. -/
def getData (env : Env) (category : String) (s : Service) : Completion × Service :=
  match lookup category s.cache with
  | some cached =>
    if (s.now : Int) - (cached.timestamp : Int) < (s.updateInterval : Int) then
      (.resolved cached.data, s)
    else getDataSlow env category s
  | none => getDataSlow env category s


/-! ## Registry surface and snapshot -/

/-- Lines 1763-1765: `getAvailableCategories`. It reads nothing of the instance. -/
def getAvailableCategories (_s : Service) : List String := getCategories

/-- Lines 1759-1761: `getAllData` hands out the `data` object itself. -/
def getAllData (s : Service) : List (String × Payload) := s.data

/-- The value of a decimal digit, `none` for any other character. -/
def digitValue (ch : Char) : Option Nat :=
  if '0' ≤ ch ∧ ch ≤ '9' then some (ch.toNat - 48) else none

/-- The number spelled by a list of decimal digits, continuing from `acc`. -/
def decimalValue : List Char → Nat → Option Nat
  | [], acc => some acc
  | ch :: rest, acc =>
    match digitValue ch with
    | some d => decimalValue rest (acc * 10 + d)
    | none => none

/-- A canonical array index: the decimal spelling, without a leading zero, of a number
below `2^32 - 1`. Such property names are enumerated before all others, in numeric
order. -/
def arrayIndex (k : String) : Option Nat :=
  match k.data with
  | [] => none
  | first :: rest =>
    if first = '0' ∧ rest ≠ [] then none
    else
      match decimalValue (first :: rest) 0 with
      | some n => if n < 4294967295 then some n else none
      | none => none

/-- Insertion into a list of keys sorted by their numeric value. -/
def insertIndexKey (k : String × Nat) : List (String × Nat) → List (String × Nat)
  | [] => [k]
  | x :: rest => if k.2 ≤ x.2 then k :: x :: rest else x :: insertIndexKey k rest

/-- The result of `Object.keys` on an object whose own properties were created in the
order of the list: array indices first, ascending, then the other names in creation
order. -/
def objectKeys (obj : List (String × Payload)) : List String :=
  let indexed := obj.filterMap (fun kv => (arrayIndex kv.1).map (fun n => (kv.1, n)))
  let named := (obj.filter (fun kv => (arrayIndex kv.1).isNone)).map Prod.fst
  (indexed.foldr insertIndexKey []).map Prod.fst ++ named

/-! ## HTTP routes (`routes/liveData.js`), run against the router's own instance -/

/-- The expression `Array.isArray(data) ? data.length : 1`. -/
def dataCount : Payload → Nat
  | .list items => items.length
  | _ => 1

/-- Status and JSON body sent by `GET /:category` and `POST /:category/refresh`; a
field that the body does not have is `none`. -/
structure CategoryReply where
  status : Nat
  success : Bool
  error : Option String
  available_categories : Option (List String)
  message : Option String
  category : Option String
  timestamp : Option Nat
  data_count : Option Nat
  data : Option Payload
  deriving DecidableEq, Repr

/-- Lines 538-542 and 657-661: the reply to a category outside the registry. -/
def invalidCategoryReply (categories : List String) : CategoryReply :=
  { status := 400, success := false, error := some "Invalid category",
    available_categories := some categories, message := none, category := none,
    timestamp := none, data_count := none, data := none }

/-- Lines 560-563 and 676-679: the reply of the handler's `catch` block. -/
def errorReply (message : String) : CategoryReply :=
  { status := 500, success := false, error := some message,
    available_categories := none, message := none, category := none,
    timestamp := none, data_count := none, data := none }

/-- Lines 552-558 and 667-674: the reply carrying the data. -/
def dataReply (message : Option String) (category : String) (now : Nat) (data : Payload) :
    CategoryReply :=
  { status := 200, success := true, error := none, available_categories := none,
    message := message, category := some category, timestamp := some now,
    data_count := some (dataCount data), data := some data }

/-- Lines 530-565: the handler of `GET /:category`, with `refresh` the query parameter
of that name if it is present. -/
def readRoute (env : Env) (category : String) (refresh : Option String) (s : Service) :
    CategoryReply × Service :=
  let categories := getAvailableCategories s
  if category ∉ categories then (invalidCategoryReply categories, s)
  else
    let forced : Completion × Service :=
      if refresh = some "true" then fetchCategoryData env category s
      else (.resolved .undefined, s)
    match forced with
    | (.rejected message, s1) => (errorReply message, s1)
    | (.resolved _, s1) =>
      match getData env category s1 with
      | (.rejected message, s2) => (errorReply message, s2)
      | (.resolved data, s2) => (dataReply none category s2.now data, s2)

/-- Lines 650-681: the handler of `POST /:category/refresh`. -/
def refreshRoute (env : Env) (category : String) (s : Service) : CategoryReply × Service :=
  let categories := getAvailableCategories s
  if category ∉ categories then (invalidCategoryReply categories, s)
  else
    match fetchCategoryData env category s with
    | (.rejected message, s1) => (errorReply message, s1)
    | (.resolved _, s1) =>
      match getData env category s1 with
      | (.rejected message, s2) => (errorReply message, s2)
      | (.resolved data, s2) =>
        (dataReply (some ("Data refreshed for " ++ category)) category s2.now data, s2)

/-- One value of the `results` object of `POST /multi`. -/
structure MultiEntry where
  success : Bool
  data : Option Payload
  timestamp : Option Nat
  data_count : Option Nat
  error : Option String
  deriving DecidableEq, Repr

/-- Status and JSON body sent by `POST /multi`. -/
structure MultiReply where
  status : Nat
  success : Bool
  error : Option String
  invalid_categories : Option (List String)
  available_categories : Option (List String)
  categories : Option (List (String × MultiEntry))
  total_categories : Option Nat
  deriving DecidableEq, Repr

/-- Lines 593-608: one iteration of the loop of `POST /multi`, with its `try`/`catch`. -/
def multiStep (env : Env) (acc : List (String × MultiEntry) × Service) (category : String) :
    List (String × MultiEntry) × Service :=
  match getData env category acc.2 with
  | (.resolved data, s1) =>
    (assign category
      { success := true, data := some data, timestamp := some s1.now,
        data_count := some (dataCount data), error := none } acc.1, s1)
  | (.rejected message, s1) =>
    (assign category
      { success := false, data := none, timestamp := none, data_count := none,
        error := some message } acc.1, s1)

/-- Lines 568-621: the handler of `POST /multi`. The argument is `req.body.categories`
when it is an array (of strings), `none` otherwise. -/
def multiRoute (env : Env) (categories : Option (List String)) (s : Service) :
    MultiReply × Service :=
  match categories with
  | none =>
    ({ status := 400, success := false, error := some "Categories array is required",
       invalid_categories := none, available_categories := none, categories := none,
       total_categories := none }, s)
  | some [] =>
    ({ status := 400, success := false, error := some "Categories array is required",
       invalid_categories := none, available_categories := none, categories := none,
       total_categories := none }, s)
  | some (c :: cs) =>
    let availableCategories := getAvailableCategories s
    let invalidCategories := (c :: cs).filter (fun cat => cat ∉ availableCategories)
    if invalidCategories.length > 0 then
      ({ status := 400, success := false, error := some "Invalid categories",
         invalid_categories := some invalidCategories,
         available_categories := some availableCategories, categories := none,
         total_categories := none }, s)
    else
      let r := (c :: cs).foldl (multiStep env) ([], s)
      ({ status := 200, success := true, error := none, invalid_categories := none,
         available_categories := none, categories := some r.1,
         total_categories := some r.1.length }, r.2)

/-- One element of `categories_summary`. The fields `display_name` and `last_updated`,
which only reformat the name and copy a field of the payload, are left out. -/
structure SummaryItem where
  name : String
  has_data : Bool
  data_count : Nat
  deriving DecidableEq, Repr

/-- Status and JSON body sent by `GET /summary/overview`. -/
structure SummaryReply where
  status : Nat
  success : Bool
  total_categories : Nat
  active_categories : Nat
  last_updated : Nat
  categories_summary : List SummaryItem
  deriving DecidableEq, Repr

/-- Lines 693-699: the summary of one key of `allData`. -/
def summaryItem (allData : List (String × Payload)) (cat : String) : SummaryItem :=
  { name := cat, has_data := truthy (dataGet cat allData),
    data_count := if truthy (dataGet cat allData) then dataCount (dataGet cat allData) else 0 }

/-- Lines 684-712: the handler of `GET /summary/overview`. -/
def summaryRoute (s : Service) : SummaryReply :=
  let allData := getAllData s
  let categories := objectKeys allData
  { status := 200, success := true, total_categories := categories.length,
    active_categories := (categories.filter (fun cat => truthy (dataGet cat allData))).length,
    last_updated := s.now, categories_summary := categories.map (summaryItem allData) }

/-! ## WebSocket transport (`server.js`) -/

/-- The `readyState` of a socket. -/
inductive ReadyState
  | CONNECTING
  | OPEN
  | CLOSING
  | CLOSED
  deriving DecidableEq, Repr

/-- The three JSON messages the server sends on a socket. -/
inductive WsMessage
  | initial (category : String) (data : Payload)
  | update (category : String) (data : Payload)
  | error (message : String)
  deriving DecidableEq, Repr

/-- A connected socket: its state, the property `ws.category` set by a subscribe
message (`none` before that), and everything sent on it so far, oldest first. -/
structure Client where
  readyState : ReadyState
  category : Option String
  received : List WsMessage
  deriving DecidableEq, Repr

/-- The process of `server.js`: the instance created on its line 61, on which the
`dataUpdate` listener is registered and `startFetching` is called; the separate
instance created on line 5 of `routes/liveData.js`, which serves the HTTP routes; and
the connected sockets `wss.clients`. -/
structure Server where
  liveDataService : Service
  routerLiveDataService : Service
  clients : List Client
  deriving DecidableEq, Repr

/-- Lines 90-100 of `server.js`: the `dataUpdate` listener, run once per emitted event. -/
def onDataUpdate (clients : List Client) (e : Event) : List Client :=
  clients.map (fun client =>
    if client.readyState = ReadyState.OPEN ∧ client.category = some e.category then
      { client with received := client.received ++ [WsMessage.update e.category e.data] }
    else client)

/-- The listener applied to the events that a method of the server's instance emitted
while it took the instance from `before` to `after`. -/
def broadcast (before after : Service) (clients : List Client) : List Client :=
  (after.emitted.drop before.emitted.length).foldl onDataUpdate clients

/-- The call `ws.send(message)` on the socket number `i`. -/
def sendTo (i : Nat) (message : WsMessage) (clients : List Client) : List Client :=
  match clients[i]? with
  | some ws => clients.set i { ws with received := ws.received ++ [message] }
  | none => clients

/-- A refresh of one category on the server's instance, as the sweep performs it. -/
def serverRefresh (env : Env) (category : String) (sys : Server) : Server :=
  let after := (fetchCategoryData env category sys.liveDataService).2
  { sys with liveDataService := after,
             clients := broadcast sys.liveDataService after sys.clients }

/-- The scheduled job (lines 49-55 of the service, started by line 103 of `server.js`):
`fetchAllData` on the server's instance. -/
def scheduledSweep (env : Env) (sys : Server) : Server :=
  let after := (fetchAllData env sys.liveDataService).2
  { sys with liveDataService := after,
             clients := broadcast sys.liveDataService after sys.clients }

/-- Lines 66-82 of `server.js`: the message handler of socket `i`. The message is
`none` when `JSON.parse` raises, otherwise its `type` and its `category` (a string,
`none` when absent). -/
def wsOnMessage (env : Env) (i : Nat) (message : Option (String × Option String))
    (sys : Server) : Server :=
  match message with
  | none => { sys with clients := sendTo i (WsMessage.error "Unexpected token") sys.clients }
  | some (kind, category) =>
    match category with
    | none => sys
    | some cat =>
      if kind = "subscribe" ∧ cat ≠ "" then
        match sys.clients[i]? with
        | none => sys
        | some ws =>
          let subscribed := sys.clients.set i { ws with category := some cat }
          let r := getData env cat sys.liveDataService
          let notified := broadcast sys.liveDataService r.2 subscribed
          match r.1 with
          | .resolved initialData =>
            { sys with liveDataService := r.2,
                       clients := sendTo i (WsMessage.initial cat initialData) notified }
          | .rejected m =>
            { sys with liveDataService := r.2,
                       clients := sendTo i (WsMessage.error m) notified }
      else sys

/-- A request `GET /:category` served by the process. -/
def httpRead (env : Env) (category : String) (refresh : Option String) (sys : Server) :
    CategoryReply × Server :=
  let r := readRoute env category refresh sys.routerLiveDataService
  (r.1, { sys with routerLiveDataService := r.2 })

/-- A request `POST /:category/refresh` served by the process. -/
def httpRefresh (env : Env) (category : String) (sys : Server) : CategoryReply × Server :=
  let r := refreshRoute env category sys.routerLiveDataService
  (r.1, { sys with routerLiveDataService := r.2 })

/-- The process right after start-up at time `t`, before any socket has connected. -/
def Server.start (t : Nat) : Server :=
  { liveDataService := constructor t, routerLiveDataService := constructor t, clients := [] }

/-- A socket connects (line 63 of `server.js`). -/
def wsConnect (sys : Server) : Server :=
  { sys with clients := sys.clients ++ [Client.mk ReadyState.OPEN none []] }

/-! ## Numbers

JavaScript numbers are IEEE 754 doubles. A double is kept as the rational it denotes;
every product, sum and difference is rounded to the nearest double, ties to even. -/

/-- Rounding to the nearest integer, ties to the even one. -/
def roundHalfEven (y : ℚ) : Int :=
  if y - ⌊y⌋ < 1 / 2 then ⌊y⌋
  else if 1 / 2 < y - ⌊y⌋ then ⌊y⌋ + 1
  else if ⌊y⌋ % 2 = 0 then ⌊y⌋
  else ⌊y⌋ + 1

/-- The exponent `e` of the binade `[2^e, 2^(e+1))` that holds `|q|`, and `-1022` for the
subnormal range below `2^(-1022)`. -/
def binade (q : ℚ) : Int := max (Int.log 2 |q|) (-1022)

/-- The double nearest to `q`, ties to even (`roundTiesToEven`): the multiple of
`2^(e - 52)` nearest to `q`, where `e` is the binade of `q`. Overflow to `Infinity`
(magnitudes from `2^1024` on) is not represented; no value computed here comes near. -/
def roundDouble (q : ℚ) : ℚ :=
  (roundHalfEven (q / 2 ^ (binade q - 52)) : ℚ) * 2 ^ (binade q - 52)

/-- The JavaScript product `a * b` of two doubles. -/
def times (a b : ℚ) : ℚ := roundDouble (a * b)

/-- The JavaScript sum `a + b` of two doubles. -/
def plus (a b : ℚ) : ℚ := roundDouble (a + b)

/-- The JavaScript difference `a - b` of two doubles. -/
def minus (a b : ℚ) : ℚ := roundDouble (a - b)

/-- A result of `Math.random()`: a double in `[0, 1)`, that is
`mantissa * 2^(-53 - shift)` with a mantissa below `2^53`. The bound on `shift` keeps the
value a multiple of the smallest subnormal, `2^(-1074)`. Every double in `[0, 1)` has
this form: a normal one with exponent `e` has `shift = -1 - e`, a subnormal one has
`shift = 1021`. -/
structure Draw where
  mantissa : Nat
  shift : Nat
  mantissa_lt : mantissa < 2 ^ 53
  shift_le : shift ≤ 1021

/-- The number that a draw denotes. -/
def Draw.value (r : Draw) : ℚ := (r.mantissa : ℚ) / 2 ^ (53 + r.shift)

/-! ## The table generators

The generators of lines 899-1185, with `Math.random()` and `Date.now()` made explicit:
`random k` is the result of the `k`-th call of `Math.random()` made by the generator
(property values are evaluated in source order, rows one after the other) and `now` is
the clock. The numeric literals of the source are doubles as they stand (integers
below `2^53`, `0.5`, `2.5`), and `Math.floor` of a double is exact. -/

/-- Indexing `options[i]`: the element at index `i`, `undefined` outside the list. -/
def pick (options : List String) (i : Int) : Leaf :=
  if i < 0 then Leaf.undefined
  else
    match options.get? i.toNat with
    | some s => Leaf.text s
    | none => Leaf.undefined

/-- Lines 899-908. -/
def generateMockGDPData (random : Nat → Draw) (now : Nat) : MockObj :=
  MockObj.record [("countries", Atom.rows
    (["USA", "China", "Japan", "Germany", "UK"].enum.map (fun jc =>
      [("country", Leaf.text jc.2),
       ("gdp", Leaf.int ⌊times (random (2 * jc.1)).value 20000000000000⌋),
       ("growth_rate", Leaf.fixed (minus (times (random (2 * jc.1 + 1)).value 10) 5) 2),
       ("timestamp", Leaf.isoTime now)])))]

/-- Lines 910-920. -/
def generateMockTradeBalance (random : Nat → Draw) (now : Nat) : MockObj :=
  MockObj.record [("countries", Atom.rows
    (["USA", "China", "Germany", "Japan", "UK"].enum.map (fun jc =>
      [("country", Leaf.text jc.2),
       ("exports", Leaf.int ⌊times (random (3 * jc.1)).value 1000000000000⌋),
       ("imports", Leaf.int ⌊times (random (3 * jc.1 + 1)).value 1000000000000⌋),
       ("balance", Leaf.int ⌊minus (times (random (3 * jc.1 + 2)).value 100000000000) 50000000000⌋),
       ("timestamp", Leaf.isoTime now)])))]

/-- Lines 922-929. -/
def generateMockOilPrices (random : Nat → Draw) (now : Nat) : MockObj :=
  MockObj.record
    [("brent", Atom.leaf (Leaf.fixed (plus (times (random 0).value 50) 50) 2)),
     ("wti", Atom.leaf (Leaf.fixed (plus (times (random 1).value 50) 40) 2)),
     ("change", Atom.leaf (Leaf.real (times (minus (random 2).value (1 / 2)) 10))),
     ("timestamp", Atom.leaf (Leaf.isoTime now))]

/-- Lines 931-938. -/
def generateMockGoldPrices (random : Nat → Draw) (now : Nat) : MockObj :=
  MockObj.record
    [("price", Atom.leaf (Leaf.fixed (plus (times (random 0).value 500) 1500) 2)),
     ("change", Atom.leaf (Leaf.real (times (minus (random 1).value (1 / 2)) 50))),
     ("currency", Atom.leaf (Leaf.text "USD")),
     ("timestamp", Atom.leaf (Leaf.isoTime now))]

/-- Lines 940-947. -/
def generateMockSilverPrices (random : Nat → Draw) (now : Nat) : MockObj :=
  MockObj.record
    [("price", Atom.leaf (Leaf.fixed (plus (times (random 0).value 10) 15) 2)),
     ("change", Atom.leaf (Leaf.real (times (minus (random 1).value (1 / 2)) 2))),
     ("currency", Atom.leaf (Leaf.text "USD")),
     ("timestamp", Atom.leaf (Leaf.isoTime now))]

/-- Lines 949-957. -/
def generateMockNFTTrends (random : Nat → Draw) (now : Nat) : MockObj :=
  MockObj.list ((List.range 10).map (fun (i : Nat) => Atom.row
    [("name", Leaf.text ("NFT Collection " ++ toString (i + 1))),
     ("floor_price", Leaf.int ⌊plus (times (random (3 * i)).value 10) 1⌋),
     ("volume_24h", Leaf.int ⌊times (random (3 * i + 1)).value 1000000⌋),
     ("owners", Leaf.int ⌊times (random (3 * i + 2)).value 10000⌋),
     ("timestamp", Leaf.isoTime now)]))

/-- Lines 959-967. -/
def generateMockAppStoreTrending (random : Nat → Draw) (_now : Nat) : MockObj :=
  MockObj.list ((List.range 10).map (fun (i : Nat) => Atom.row
    [("name", Leaf.text ("App " ++ toString (i + 1))),
     ("category", pick ["Games", "Productivity", "Social", "Education", "Entertainment"]
        ⌊times (random (3 * i)).value 5⌋),
     ("rating", Leaf.fixed (times (random (3 * i + 1)).value 5) 1),
     ("downloads", Leaf.int ⌊times (random (3 * i + 2)).value 10000000⌋),
     ("rank", Leaf.int (i + 1))]))

/-- Lines 969-971. -/
def generateMockGooglePlayTrending (random : Nat → Draw) (now : Nat) : MockObj :=
  generateMockAppStoreTrending random now

/-- Lines 973-981. -/
def generateMockEpicGames (random : Nat → Draw) (_now : Nat) : MockObj :=
  MockObj.list ((List.range 10).map (fun (i : Nat) => Atom.row
    [("name", Leaf.text ("Game " ++ toString (i + 1))),
     ("price", Leaf.template
        [Piece.lit "$", Piece.fixed (plus (times (random (5 * i)).value 60) 10) 2]),
     ("discount", Leaf.int ⌊times (random (5 * i + 1)).value 75⌋),
     ("rating", Leaf.fixed (times (random (5 * i + 2)).value 5) 1),
     ("release_date", Leaf.isoDay (2020 - (i : Int)) ⌊times (random (5 * i + 3)).value 12⌋
        ⌊times (random (5 * i + 4)).value 28⌋)]))

/-- Lines 983-991. -/
def generateMockEbayTrending (random : Nat → Draw) (_now : Nat) : MockObj :=
  MockObj.list ((List.range 10).map (fun (i : Nat) => Atom.row
    [("name", Leaf.text ("Item " ++ toString (i + 1))),
     ("category", pick ["Electronics", "Collectibles", "Fashion", "Home", "Sports"]
        ⌊times (random (5 * i)).value 5⌋),
     ("price", Leaf.template
        [Piece.lit "$", Piece.fixed (plus (times (random (5 * i + 1)).value 500) 20) 2]),
     ("bids", Leaf.int ⌊times (random (5 * i + 2)).value 50⌋),
     ("time_left", Leaf.template
        [Piece.int ⌊times (random (5 * i + 3)).value 24⌋, Piece.lit "h ",
         Piece.int ⌊times (random (5 * i + 4)).value 60⌋, Piece.lit "m"])]))

/-- Lines 993-1001. -/
def generateMockTravelAdvisories (random : Nat → Draw) (now : Nat) : MockObj :=
  MockObj.list (["USA", "Canada", "UK", "France", "Japan"].enum.map (fun jc => Atom.row
    [("country", Leaf.text jc.2),
     ("advisory", pick ["Exercise normal precautions", "Exercise increased caution",
        "Reconsider travel", "Do not travel"] ⌊times (random (2 * jc.1)).value 4⌋),
     ("level", Leaf.int (⌊times (random (2 * jc.1 + 1)).value 4⌋ + 1)),
     ("updated", Leaf.isoTime now)]))

/-- Lines 1003-1012. -/
def generateMockVisaRequirements (random : Nat → Draw) (now : Nat) : MockObj :=
  MockObj.list (["USA", "Canada", "UK", "Australia", "Germany"].enum.map (fun jc => Atom.row
    [("country", Leaf.text jc.2),
     ("visa_required", Leaf.flag (decide ((random (3 * jc.1)).value > 1 / 2))),
     ("processing_time", Leaf.template
        [Piece.int ⌊plus (times (random (3 * jc.1 + 1)).value 30) 1⌋, Piece.lit " days"]),
     ("fee", Leaf.template
        [Piece.lit "$", Piece.int ⌊plus (times (random (3 * jc.1 + 2)).value 200) 50⌋]),
     ("updated", Leaf.isoTime now)]))

/-- Lines 1014-1022. -/
def generateMockBankInterestRates (random : Nat → Draw) (now : Nat) : MockObj :=
  MockObj.record
    [("savings", Atom.leaf (Leaf.fixed (times (random 0).value 5) 2)),
     ("checking", Atom.leaf (Leaf.fixed (times (random 1).value 1) 2)),
     ("cd_1year", Atom.leaf (Leaf.fixed (times (random 2).value 6) 2)),
     ("mortgage_30year", Atom.leaf (Leaf.fixed (plus (times (random 3).value 4) 3) 2)),
     ("timestamp", Atom.leaf (Leaf.isoTime now))]

/-- Lines 1024-1032. -/
def generateMockCreditCardOffers (random : Nat → Draw) (_now : Nat) : MockObj :=
  MockObj.list ((List.range 10).map (fun (i : Nat) => Atom.row
    [("name", Leaf.text ("Card " ++ toString (i + 1))),
     ("issuer", pick ["Chase", "Bank of America", "Citi", "Wells Fargo", "American Express"]
        ⌊times (random (4 * i)).value 5⌋),
     ("apr", Leaf.fixed (plus (times (random (4 * i + 1)).value 20) 10) 1),
     ("rewards", pick ["Cash Back", "Travel", "Points", "Miles"]
        ⌊times (random (4 * i + 2)).value 4⌋),
     ("annual_fee", Leaf.template
        [Piece.lit "$", Piece.int ⌊times (random (4 * i + 3)).value 500⌋])]))

/-- Lines 1034-1042. -/
def generateMockLoanRates (random : Nat → Draw) (now : Nat) : MockObj :=
  MockObj.record
    [("personal", Atom.leaf (Leaf.fixed (plus (times (random 0).value 15) 5) 2)),
     ("auto", Atom.leaf (Leaf.fixed (plus (times (random 1).value 10) 3) 2)),
     ("home_equity", Atom.leaf (Leaf.fixed (plus (times (random 2).value 8) 4) 2)),
     ("student", Atom.leaf (Leaf.fixed (plus (times (random 3).value 12) 2) 2)),
     ("timestamp", Atom.leaf (Leaf.isoTime now))]

/-- Lines 1044-1052. -/
def generateMockInsuranceRates (random : Nat → Draw) (now : Nat) : MockObj :=
  MockObj.record
    [("auto", Atom.leaf (Leaf.fixed (plus (times (random 0).value 2000) 500) 0)),
     ("home", Atom.leaf (Leaf.fixed (plus (times (random 1).value 3000) 1000) 0)),
     ("health", Atom.leaf (Leaf.fixed (plus (times (random 2).value 1000) 200) 0)),
     ("life", Atom.leaf (Leaf.fixed (plus (times (random 3).value 500) 100) 0)),
     ("timestamp", Atom.leaf (Leaf.isoTime now))]

/-- Lines 1054-1064. -/
def generateMockRealEstatePrices (random : Nat → Draw) (now : Nat) : MockObj :=
  MockObj.list (["New York", "Los Angeles", "Chicago", "Houston", "Phoenix"].enum.map
    (fun jc => Atom.row
      [("city", Leaf.text jc.2),
       ("median_price", Leaf.int ⌊plus (times (random (4 * jc.1)).value 1000000) 200000⌋),
       ("price_change", Leaf.fixed (minus (times (random (4 * jc.1 + 1)).value 20) 10) 1),
       ("inventory", Leaf.int ⌊times (random (4 * jc.1 + 2)).value 10000⌋),
       ("days_on_market", Leaf.int ⌊plus (times (random (4 * jc.1 + 3)).value 100) 10⌋),
       ("timestamp", Leaf.isoTime now)]))

/-- Lines 1066-1075. -/
def generateMockRentalPrices (random : Nat → Draw) (now : Nat) : MockObj :=
  MockObj.list (["New York", "San Francisco", "Boston", "Washington DC", "Seattle"].enum.map
    (fun jc => Atom.row
      [("city", Leaf.text jc.2),
       ("avg_rent_1br", Leaf.int ⌊plus (times (random (3 * jc.1)).value 3000) 1000⌋),
       ("avg_rent_2br", Leaf.int ⌊plus (times (random (3 * jc.1 + 1)).value 4000) 1500⌋),
       ("vacancy_rate", Leaf.fixed (times (random (3 * jc.1 + 2)).value 10) 1),
       ("timestamp", Leaf.isoTime now)]))

/-- Lines 1077-1085. -/
def generateMockMortgageRates (random : Nat → Draw) (now : Nat) : MockObj :=
  MockObj.record
    [("30_year_fixed", Atom.leaf (Leaf.fixed (plus (times (random 0).value 3) 3) 2)),
     ("15_year_fixed", Atom.leaf (Leaf.fixed (plus (times (random 1).value 2) (5 / 2)) 2)),
     ("5_1_arm", Atom.leaf (Leaf.fixed (plus (times (random 2).value 2) 2) 2)),
     ("fha_30_year", Atom.leaf (Leaf.fixed (plus (times (random 3).value 2) (5 / 2)) 2)),
     ("timestamp", Atom.leaf (Leaf.isoTime now))]

/-- Lines 1087-1097. -/
def generateMockSalaryData (random : Nat → Draw) (now : Nat) : MockObj :=
  MockObj.list (["Software Engineer", "Data Scientist", "Product Manager", "UX Designer",
      "Marketing Manager"].enum.map
    (fun jc => Atom.row
      [("role", Leaf.text jc.2),
       ("avg_salary", Leaf.int ⌊plus (times (random (4 * jc.1)).value 100000) 50000⌋),
       ("median_salary", Leaf.int ⌊plus (times (random (4 * jc.1 + 1)).value 90000) 45000⌋),
       ("entry_level", Leaf.int ⌊plus (times (random (4 * jc.1 + 2)).value 60000) 40000⌋),
       ("senior_level", Leaf.int ⌊plus (times (random (4 * jc.1 + 3)).value 150000) 80000⌋),
       ("timestamp", Leaf.isoTime now)]))

/-- Lines 1099-1108. -/
def generateMockSkillTrends (random : Nat → Draw) (now : Nat) : MockObj :=
  MockObj.list (["Python", "React", "Machine Learning", "AWS", "Docker"].enum.map
    (fun jc => Atom.row
      [("skill", Leaf.text jc.2),
       ("demand", Leaf.int ⌊times (random (3 * jc.1)).value 100⌋),
       ("growth", Leaf.fixed (times (random (3 * jc.1 + 1)).value 50) 1),
       ("avg_salary", Leaf.int ⌊plus (times (random (3 * jc.1 + 2)).value 50000) 75000⌋),
       ("timestamp", Leaf.isoTime now)]))

/-- Lines 1110-1119. -/
def generateMockCertificationTrends (random : Nat → Draw) (now : Nat) : MockObj :=
  MockObj.list (["AWS Certified", "PMP", "CISSP", "Google Cloud", "Microsoft Azure"].enum.map
    (fun jc => Atom.row
      [("certification", Leaf.text jc.2),
       ("avg_salary_increase", Leaf.int ⌊plus (times (random (3 * jc.1)).value 20000) 5000⌋),
       ("popularity", Leaf.int ⌊times (random (3 * jc.1 + 1)).value 100⌋),
       ("cost", Leaf.template
          [Piece.lit "$", Piece.int ⌊plus (times (random (3 * jc.1 + 2)).value 500) 100⌋]),
       ("timestamp", Leaf.isoTime now)]))

/-- Lines 1121-1130. -/
def generateMockWebinars (random : Nat → Draw) (now : Nat) : MockObj :=
  MockObj.list ((List.range 10).map (fun (i : Nat) => Atom.row
    [("title", Leaf.text ("Webinar " ++ toString (i + 1))),
     ("topic", pick ["Technology", "Business", "Marketing", "Design", "Finance"]
        ⌊times (random (2 * i)).value 5⌋),
     ("speaker", Leaf.text ("Speaker " ++ toString (i + 1))),
     ("date", Leaf.isoTime (now + i * 86400000)),
     ("duration", Leaf.template
        [Piece.int ⌊plus (times (random (2 * i + 1)).value 2) 1⌋, Piece.lit " hours"]),
     ("registration", Leaf.text ("https://webinar" ++ toString (i + 1) ++ ".com/register"))]))

/-- Lines 1132-1141. -/
def generateMockConferences (random : Nat → Draw) (_now : Nat) : MockObj :=
  MockObj.list ((List.range 10).map (fun (i : Nat) => Atom.row
    [("name", Leaf.text ("Conference " ++ toString (i + 1))),
     ("location", pick ["New York", "San Francisco", "London", "Berlin", "Tokyo"]
        ⌊times (random (5 * i)).value 5⌋),
     ("date", Leaf.isoDay 2024 ⌊times (random (5 * i + 1)).value 12⌋
        ⌊times (random (5 * i + 2)).value 28⌋),
     ("attendees", Leaf.int ⌊times (random (5 * i + 3)).value 10000⌋),
     ("price", Leaf.template
        [Piece.lit "$", Piece.int ⌊plus (times (random (5 * i + 4)).value 2000) 200⌋]),
     ("website", Leaf.text ("https://conference" ++ toString (i + 1) ++ ".com"))]))

/-- Lines 1143-1152. -/
def generateMockResearchPapers (random : Nat → Draw) (_now : Nat) : MockObj :=
  MockObj.list ((List.range 10).map (fun (i : Nat) => Atom.row
    [("title", Leaf.text ("Research Paper " ++ toString (i + 1))),
     ("authors", Leaf.texts
        ["Author " ++ toString (i + 1), "Co-author " ++ toString (i + 1)]),
     ("journal", pick ["Nature", "Science", "Cell", "PNAS", "PLOS ONE"]
        ⌊times (random (4 * i)).value 5⌋),
     ("citations", Leaf.int ⌊times (random (4 * i + 1)).value 1000⌋),
     ("publication_date", Leaf.isoDay (2020 - (i : Int)) ⌊times (random (4 * i + 2)).value 12⌋
        ⌊times (random (4 * i + 3)).value 28⌋),
     ("doi", Leaf.text ("10.1000/paper" ++ toString (i + 1)))]))

/-- Lines 1154-1163. -/
def generateMockPatentFilings (random : Nat → Draw) (_now : Nat) : MockObj :=
  MockObj.list ((List.range 10).map (fun (i : Nat) => Atom.row
    [("title", Leaf.text ("Patent " ++ toString (i + 1))),
     ("inventor", Leaf.text ("Inventor " ++ toString (i + 1))),
     ("assignee", Leaf.text ("Company " ++ toString (i + 1))),
     ("filing_date", Leaf.isoDay (2020 - (i : Int)) ⌊times (random (4 * i)).value 12⌋
        ⌊times (random (4 * i + 1)).value 28⌋),
     ("status", pick ["Pending", "Granted", "Published", "Abandoned"]
        ⌊times (random (4 * i + 2)).value 4⌋),
     ("classification", pick ["Technology", "Medical", "Mechanical", "Chemical", "Electrical"]
        ⌊times (random (4 * i + 3)).value 5⌋)]))

/-- Lines 1165-1174. -/
def generateMockInflationData (random : Nat → Draw) (now : Nat) : MockObj :=
  MockObj.record [("countries", Atom.rows
    (["USA", "UK", "Germany", "Japan", "Canada"].enum.map (fun jc =>
      [("country", Leaf.text jc.2),
       ("rate", Leaf.fixed (times (random (2 * jc.1)).value 10) 1),
       ("change", Leaf.real (times (minus (random (2 * jc.1 + 1)).value (1 / 2)) 2)),
       ("timestamp", Leaf.isoTime now)])))]

/-- Lines 1176-1185. -/
def generateMockUnemploymentData (random : Nat → Draw) (now : Nat) : MockObj :=
  MockObj.record [("countries", Atom.rows
    (["USA", "UK", "Germany", "Japan", "Canada"].enum.map (fun jc =>
      [("country", Leaf.text jc.2),
       ("rate", Leaf.fixed (times (random (2 * jc.1)).value 15) 1),
       ("change", Leaf.real (times (minus (random (2 * jc.1 + 1)).value (1 / 2)) 2)),
       ("timestamp", Leaf.isoTime now)])))]

/-- The `generators` object of lines 520-549: table key and generator, in source order. -/
def generators : List (String × ((Nat → Draw) → Nat → MockObj)) :=
  [("gdp_data", generateMockGDPData),
   ("trade_balance", generateMockTradeBalance),
   ("oil_prices", generateMockOilPrices),
   ("gold_prices", generateMockGoldPrices),
   ("silver_prices", generateMockSilverPrices),
   ("nft_trends", generateMockNFTTrends),
   ("app_store_trending", generateMockAppStoreTrending),
   ("google_play_trending", generateMockGooglePlayTrending),
   ("epic_games", generateMockEpicGames),
   ("ebay_trending", generateMockEbayTrending),
   ("travel_advisories", generateMockTravelAdvisories),
   ("visa_requirements", generateMockVisaRequirements),
   ("bank_interest_rates", generateMockBankInterestRates),
   ("credit_card_offers", generateMockCreditCardOffers),
   ("loan_rates", generateMockLoanRates),
   ("insurance_rates", generateMockInsuranceRates),
   ("real_estate_prices", generateMockRealEstatePrices),
   ("rental_prices", generateMockRentalPrices),
   ("mortgage_rates", generateMockMortgageRates),
   ("salary_data", generateMockSalaryData),
   ("skill_trends", generateMockSkillTrends),
   ("certification_trends", generateMockCertificationTrends),
   ("webinars", generateMockWebinars),
   ("conferences", generateMockConferences),
   ("research_papers", generateMockResearchPapers),
   ("patent_filings", generateMockPatentFilings),
   ("inflation_data", generateMockInflationData),
   ("unemployment_data", generateMockUnemploymentData)]

/-- Lines 519-553 with the table spelled out: `generateMockData(category)` as a function
of the draws of `Math.random()` and of the clock. An own key of the table runs its
generator, an inherited key is called as it is, anything else gets the generic record. -/
def generateMockDataAt (random : Nat → Draw) (now : Nat) (category : String) : Outcome :=
  match lookup category generators with
  | some generator => Outcome.returned (generator random now).toPayload
  | none =>
    if category ∈ objectPrototypeKeys then callInherited category
    else Outcome.returned (generateGenericMockData category now)

/-! ## Looking into synthesized payloads -/

/-- The value is not `undefined`. -/
def Leaf.defined : Leaf → Bool
  | Leaf.undefined => false
  | _ => true

/-- No field of the record is `undefined`. -/
def fieldsDefined (fields : List (String × Leaf)) : Bool :=
  fields.all (fun f => f.2.defined)

/-- Nothing inside the value is `undefined`. -/
def Atom.defined : Atom → Bool
  | Atom.leaf value => value.defined
  | Atom.row fields => fieldsDefined fields
  | Atom.rows items => items.all fieldsDefined
  | _ => true

/-- The payload is not `undefined` and nothing inside it is: no element of a list, no
field of a record, no field of a record nested in them. -/
def Payload.defined : Payload → Bool
  | Payload.undefined => false
  | Payload.list items => items.all Atom.defined
  | Payload.record fields => fields.all (fun f => f.2.defined)
  | _ => true

/-- The values found under the key `name` in a record. -/
def fieldValues (name : String) (fields : List (String × Leaf)) : List Leaf :=
  (fields.filter (fun f => decide (f.1 = name))).map Prod.snd

/-- The values found under the key `name` anywhere in the value. -/
def Atom.valuesAt (name : String) : Atom → List Leaf
  | Atom.row fields => fieldValues name fields
  | Atom.rows items => items.flatMap (fieldValues name)
  | _ => []

/-- The values found under the key `name` in the payload: as a field of the payload
itself (scalars and strings as leaves) or as a field of a record inside it. -/
def Payload.valuesAt (name : String) : Payload → List Atom
  | Payload.list items => (items.flatMap (Atom.valuesAt name)).map Atom.leaf
  | Payload.record fields =>
    ((fields.filter (fun f => decide (f.1 = name))).map Prod.snd) ++
      (fields.flatMap (fun f => Atom.valuesAt name f.2)).map Atom.leaf
  | _ => []

/-! ## Provider-backed fetchers

The fetchers of lines 197-283 and the Django-style methods of lines 1197-1386. What the
network does is an argument: the reply to each request, respectively the outcome of the
request together with the reading of its response. -/

/-- What one `axios.get` of a per-item fetcher leads to: the request is rejected, or a
response arrives, from which the fetcher builds a record when the response has the
content it reads (`none`: it has not). -/
inductive Reply
  | failed (message : String)
  | answered (record : Option (List (String × Leaf)))
  deriving DecidableEq, Repr

/-- The records that a loop of requests pushes, in order: one per item whose request is
answered with usable content. A rejected request, and a response whose fields cannot be
read, end in the `catch` of the iteration, which only logs. -/
def pushed (get : String → Reply) (items : List String) : List (List (String × Leaf)) :=
  items.filterMap (fun item =>
    match get item with
    | Reply.answered (some record) => some record
    | _ => none)

/-- Lines 197-225: `fetchWeatherData`. It returns `weatherData` as it is. -/
def fetchWeatherData (get : String → Reply) : Payload :=
  Payload.list ((pushed get ["New York", "London", "Tokyo", "Sydney", "Mumbai"]).map Atom.row)

/-- Lines 574-583: `generateMockStocks`. -/
def generateMockStocks (random : Nat → Draw) (now : Nat) : MockObj :=
  MockObj.list (["AAPL", "GOOGL", "MSFT", "AMZN", "TSLA"].enum.map (fun jc => Atom.row
    [("symbol", Leaf.text jc.2),
     ("price", Leaf.real (plus (times (random (3 * jc.1)).value 500) 100)),
     ("change", Leaf.real (times (minus (random (3 * jc.1 + 1)).value (1 / 2)) 20)),
     ("change_percent", Leaf.template
        [Piece.fixed (times (minus (random (3 * jc.1 + 2)).value (1 / 2)) 5) 2, Piece.lit "%"]),
     ("timestamp", Leaf.isoTime now)]))

/-- Lines 253-283: `fetchStocksData`. It returns `stocksData` when that is not empty and
the mock list otherwise. -/
def fetchStocksData (get : String → Reply) (random : Nat → Draw) (now : Nat) : Payload :=
  if (pushed get ["AAPL", "GOOGL", "MSFT", "AMZN", "TSLA"]).length > 0 then
    Payload.list ((pushed get ["AAPL", "GOOGL", "MSFT", "AMZN", "TSLA"]).map Atom.row)
  else (generateMockStocks random now).toPayload

/-- The methods defined in the body of `class LiveDataService`, in source order. -/
def classMethods : List String :=
  ["constructor", "getCategories", "startFetching", "fetchAllData",
   "fetchCategoryData", "fetchWeatherData", "fetchNewsData", "fetchStocksData",
   "fetchCryptoData", "fetchSportsData", "fetchMoviesData", "fetchTVShowsData",
   "fetchTrendingTopics", "fetchCovidStats", "fetchAirQualityData",
   "fetchEarthquakeData", "fetchCurrencyRates", "fetchCommodityPrices",
   "fetchInterestRates", "fetchBitcoinPrice", "fetchEthereumPrice",
   "fetchSocialMediaTrends", "fetchYouTubeTrending", "fetchTwitterTrends",
   "fetchRedditTrending", "fetchGitHubTrending", "fetchHackerNews",
   "fetchProductHunt", "fetchSteamGames", "fetchAmazonBestSellers",
   "fetchFlightStatus", "fetchTrafficUpdates", "fetchRestaurantDeals",
   "fetchHotelBookings", "fetchExchangeRates", "fetchJobListings",
   "fetchOnlineCourses", "generateMockData", "generateMockNews", "generateMockStocks",
   "generateMockCrypto", "generateMockSportsData", "generateMockMovies",
   "generateMockTVShows", "generateMockTrendingTopics", "generateMockCovidStats",
   "generateMockAirQuality", "generateMockEarthquakes", "generateMockCurrencyRates",
   "generateMockCommodityPrices", "generateMockInterestRates",
   "generateMockBitcoinPrice", "generateMockEthereumPrice",
   "generateMockSocialMediaTrends", "generateMockYouTubeTrending",
   "generateMockTwitterTrends", "generateMockRedditTrending",
   "generateMockGitHubTrending", "generateMockHackerNews", "generateMockProductHunt",
   "generateMockSteamGames", "generateMockAmazonBestSellers",
   "generateMockFlightStatus", "generateMockTrafficUpdates",
   "generateMockRestaurantDeals", "generateMockHotelBookings",
   "generateMockJobListings", "generateMockOnlineCourses", "generateMockGDPData",
   "generateMockTradeBalance", "generateMockOilPrices", "generateMockGoldPrices",
   "generateMockSilverPrices", "generateMockNFTTrends",
   "generateMockAppStoreTrending", "generateMockGooglePlayTrending",
   "generateMockEpicGames", "generateMockEbayTrending",
   "generateMockTravelAdvisories", "generateMockVisaRequirements",
   "generateMockBankInterestRates", "generateMockCreditCardOffers",
   "generateMockLoanRates", "generateMockInsuranceRates",
   "generateMockRealEstatePrices", "generateMockRentalPrices",
   "generateMockMortgageRates", "generateMockSalaryData", "generateMockSkillTrends",
   "generateMockCertificationTrends", "generateMockWebinars",
   "generateMockConferences", "generateMockResearchPapers",
   "generateMockPatentFilings", "generateMockInflationData",
   "generateMockUnemploymentData", "generateGenericMockData",
   "fetchDjangoWeatherData", "fetchDjangoNewsData", "fetchDjangoSportsData",
   "fetchDjangoTrendingData", "fetchDjangoCoursesData", "fetchAITrendingModels",
   "fetchAIDatasets", "fetchAIPapers", "fetchAINews", "fetchAICommunity",
   "fetchAIRepos", "fetchAIDashboard", "generateMockAIModels",
   "generateMockAIDatasets", "generateMockAIPapers", "generateMockAINews",
   "generateMockAICommunity", "generateMockAIRepos", "generateMockAIDashboard",
   "getData", "getAllData", "getAvailableCategories"]

/-- Evaluating `this.name(...)` for a method name of the class body: the method runs and
the call has the outcome `body`; for a name that the class does not define,
`this.name` is `undefined` and the call raises a `TypeError`. -/
def callMethod (name : String) (body : Outcome) : Outcome :=
  if name ∈ classMethods then body
  else Outcome.threw ("this." ++ name ++ " is not a function")

/-- The shape `try { return a } catch (error) { return b }` of an `async` method: the
promise resolves with the value returned by the `try` block; if that block raises, with
the value returned by the `catch` block; and it rejects if the `catch` block raises. -/
def tryCatch (tried : Outcome) (handler : Outcome) : Completion :=
  match tried with
  | Outcome.returned v => Completion.resolved v
  | Outcome.threw _ =>
    match handler with
    | Outcome.returned v => Completion.resolved v
    | Outcome.threw message => Completion.rejected message

/-- The test `key && key !== 'demo'` on an API key. -/
def configured (key : String) : Bool := key != "" && key != "demo"

/-- Lines 1197-1238: `fetchDjangoWeatherData`. `provider` is the outcome of the request
and of building the record from its response; `defaultCity` is
`process.env.DEFAULT_CITY`. -/
def fetchDjangoWeatherData (key : String) (defaultCity : Option String) (provider : Outcome)
    (random : Nat → Draw) (now : Nat) : Completion :=
  tryCatch
    (if configured key then provider
     else Outcome.returned (Payload.record
      [("city", Atom.text
          (match defaultCity with
           | some city => if city != "" then city else "Hyderabad"
           | none => "Hyderabad")),
       ("temperature", Atom.leaf (Leaf.int (28 + ⌊times (random 0).value 10⌋))),
       ("description", Atom.leaf
          (pick ["Sunny", "Partly Cloudy", "Cloudy", "Light Rain"] ⌊times (random 1).value 4⌋)),
       ("humidity", Atom.leaf (Leaf.int (60 + ⌊times (random 2).value 20⌋))),
       ("wind_speed", Atom.leaf (Leaf.fixed (plus (times (random 3).value 10) 5) 1)),
       ("icon", Atom.text "01d"),
       ("timestamp", Atom.leaf (Leaf.isoTime now))]))
    (callMethod "generateMockWeatherData" (Outcome.returned Payload.undefined))

/-- Lines 1240-1267: `fetchDjangoNewsData`. `provider` is the outcome of the request and
of mapping its articles. -/
def fetchDjangoNewsData (key : String) (provider : Outcome) : Completion :=
  tryCatch
    (if configured key then provider
     else callMethod "generateMockNewsData" (Outcome.returned Payload.undefined))
    (callMethod "generateMockNewsData" (Outcome.returned Payload.undefined))

/-- Lines 1269-1294: `fetchDjangoSportsData`. `scoreboard` is
`process.env.SPORTS_SCOREBOARD_URL`, `provider` the outcome of the request and of
building the record, `mockSports` what `generateMockSportsData()` returns. -/
def fetchDjangoSportsData (scoreboard : Option String) (provider : Outcome)
    (mockSports : Payload) : Completion :=
  tryCatch
    (match scoreboard with
     | some url =>
       if url != "" then provider
       else callMethod "generateMockSportsData" (Outcome.returned mockSports)
     | none => callMethod "generateMockSportsData" (Outcome.returned mockSports))
    (callMethod "generateMockSportsData" (Outcome.returned mockSports))

/-- Evaluating `this.name(...)` for a method that returns an array of records. -/
def callList (name : String) (rows : List (List (String × Leaf))) :
    Except String (List (List (String × Leaf))) :=
  if name ∈ classMethods then Except.ok rows
  else Except.error ("this." ++ name ++ " is not a function")

/-- The record of lines 1305-1310 and 1313-1318: the three sources are evaluated in
order, the first one that raises ends the block, and each list is cut to its first five
items by `slice(0, 5)`. -/
def trendingRecord (twitter youtube reddit : Except String (List (List (String × Leaf))))
    (now : Nat) : Outcome :=
  match twitter with
  | Except.error message => Outcome.threw message
  | Except.ok t =>
    match youtube with
    | Except.error message => Outcome.threw message
    | Except.ok y =>
      match reddit with
      | Except.error message => Outcome.threw message
      | Except.ok r =>
        Outcome.returned (Payload.record
          [("twitter", Atom.rows (t.take 5)), ("youtube", Atom.rows (y.take 5)),
           ("reddit", Atom.rows (r.take 5)), ("timestamp", Atom.leaf (Leaf.isoTime now))])

/-- Lines 1296-1320: `fetchDjangoTrendingData`. `twitter` and `youtube` are what
`fetchTwitterTrends()` and `fetchYouTubeTrending()` resolve with, `mockTwitter` and
`mockYoutube` what the two mock generators return in the `catch` block. The third source
is `this.fetchRedditTrends()`, respectively `this.generateMockRedditTrends()`. -/
def fetchDjangoTrendingData (twitter youtube mockTwitter mockYoutube :
    List (List (String × Leaf))) (now : Nat) : Completion :=
  tryCatch
    (trendingRecord (callList "fetchTwitterTrends" twitter)
      (callList "fetchYouTubeTrending" youtube) (callList "fetchRedditTrends" []) now)
    (trendingRecord (callList "generateMockTwitterTrends" mockTwitter)
      (callList "generateMockYouTubeTrending" mockYoutube)
      (callList "generateMockRedditTrends" []) now)

/-- The array literal of lines 1325-1380: three courses; of each curriculum the topics
are kept. A decimal literal such as `49.99` denotes the double nearest to it. -/
def coursesLiteral : Payload :=
  Payload.list
    [Atom.row
      [("id", Leaf.int 1), ("title", Leaf.text "Introduction to Web Development"),
       ("description", Leaf.text "Learn the basics of HTML, CSS, and JavaScript"),
       ("category", Leaf.text "programming"), ("level", Leaf.text "beginner"),
       ("duration", Leaf.text "4 weeks"), ("price", Leaf.real (roundDouble (4999 / 100))),
       ("rating", Leaf.real (roundDouble (9 / 2))), ("instructor", Leaf.text "John Doe"),
       ("created_at", Leaf.text "2024-01-15T10:00:00Z"),
       ("curriculum", Leaf.texts ["HTML Basics", "CSS Fundamentals",
          "JavaScript Introduction", "Building Your First Website"])],
     Atom.row
      [("id", Leaf.int 2), ("title", Leaf.text "Advanced React Development"),
       ("description", Leaf.text "Master React hooks, context, and advanced patterns"),
       ("category", Leaf.text "programming"), ("level", Leaf.text "advanced"),
       ("duration", Leaf.text "6 weeks"), ("price", Leaf.real (roundDouble (8999 / 100))),
       ("rating", Leaf.real (roundDouble (24 / 5))), ("instructor", Leaf.text "Jane Smith"),
       ("created_at", Leaf.text "2024-02-01T10:00:00Z"),
       ("curriculum", Leaf.texts ["React Hooks Deep Dive", "Context and State Management",
          "Advanced Patterns", "Performance Optimization", "Testing Strategies",
          "Deployment Best Practices"])],
     Atom.row
      [("id", Leaf.int 3), ("title", Leaf.text "Digital Marketing Fundamentals"),
       ("description", Leaf.text "Learn SEO, social media marketing, and analytics"),
       ("category", Leaf.text "marketing"), ("level", Leaf.text "beginner"),
       ("duration", Leaf.text "3 weeks"), ("price", Leaf.real (roundDouble (3999 / 100))),
       ("rating", Leaf.real (roundDouble (43 / 10))), ("instructor", Leaf.text "Mike Johnson"),
       ("created_at", Leaf.text "2024-01-20T10:00:00Z"),
       ("curriculum", Leaf.texts ["SEO Basics", "Social Media Strategy",
          "Analytics and Measurement"])]]

/-- Lines 1322-1386: `fetchDjangoCoursesData`. -/
def fetchDjangoCoursesData : Completion :=
  tryCatch (Outcome.returned coursesLiteral)
    (callMethod "generateMockCoursesData" (Outcome.returned Payload.undefined))
/-! ## Predicates used to state the properties -/

/-- The stores and the configuration are the same in both states. -/
def SameStores (s t : Service) : Prop :=
  t.data = s.data ∧ t.cache = s.cache ∧ t.emitted = s.emitted ∧
  t.updateInterval = s.updateInterval ∧ t.maxRetries = s.maxRetries ∧
  t.retryDelay = s.retryDelay


/-- The service's fetch attempt number `i` (counted over its whole life), when it is
made for `category`, raises. -/
def FailsAt (env : Env) (category : String) (i : Nat) : Prop :=
  ∀ s : Service, s.attempts = i → ∃ m, (dispatch env category s).1 = Outcome.threw m

/-- The service's fetch attempt number `i`, when it is made for `category`, does not
raise: it returns some value, truthy or not. -/
def ReturnsAt (env : Env) (category : String) (i : Nat) : Prop :=
  ∀ s : Service, s.attempts = i → ∃ p, (dispatch env category s).1 = Outcome.returned p

/-- Time passing while the service is idle: only the clock moves. -/
def advance (ms : Nat) (s : Service) : Service := { s with now := s.now + ms }

/-- The states a service can be in: constructed at some time, then any sequence of
refreshes, sweeps and reads, each in any world, with time passing in between. -/
inductive Reachable : Service → Prop
  | init (t : Nat) : Reachable (constructor t)
  | idle (ms : Nat) {s : Service} : Reachable s → Reachable (advance ms s)
  | fetch (env : Env) (c : String) {s : Service} :
      Reachable s → Reachable (fetchCategoryData env c s).2
  | sweep (env : Env) {s : Service} : Reachable s → Reachable (fetchAllData env s).2
  | read (env : Env) (c : String) {s : Service} : Reachable s → Reachable (getData env c s).2

/-- Every cache entry holds a truthy payload, and `data` holds the same payload under
the same key. -/
def StoresAgree (s : Service) : Prop :=
  ∀ c cached, lookup c s.cache = some cached →
    truthy cached.data = true ∧ dataGet c s.data = cached.data

/-! ## Concrete worlds used to exercise the statements -/

/-- A world in which the weather provider refuses every request while every other
provider answers with a one-item list after 10 ms. -/
def envWeatherDown : Env :=
  { fetcher := fun c _ =>
      if c = "weather" then ⟨10, Outcome.threw "timeout"⟩
      else ⟨10, Outcome.returned (Payload.list [Atom.json "item"])⟩,
    generator := fun _ _ => MockObj.record [] }

/-- A world in which the service's first two fetch attempts are refused when made for
weather, and every other request is answered with a one-item list after 10 ms. -/
def envWeatherFlaky : Env :=
  { fetcher := fun c i =>
      if c = "weather" ∧ i < 2 then ⟨10, Outcome.threw "timeout"⟩
      else ⟨10, Outcome.returned (Payload.list [Atom.json "item"])⟩,
    generator := fun _ _ => MockObj.record [] }

/-- Every fetch attempt made for `category` returns a truthy value, whatever the state
it is made in. -/
def AlwaysSucceeds (env : Env) (category : String) : Prop :=
  ∀ s : Service, ∃ p, (dispatch env category s).1 = Outcome.returned p ∧ truthy p = true

/-- A world in which every provider answers with a one-item list holding newer
content. -/
def envUpdated : Env :=
  { fetcher := fun _ _ => ⟨10, Outcome.returned (Payload.list [Atom.json "newer item"])⟩,
    generator := fun _ _ => MockObj.record [] }

/-- A fresh service after one successful refresh of news, which ended at time 10. -/
def newsRefreshed : Service := (fetchCategoryData envWeatherDown "news" (constructor 0)).2

/-- The service of `newsRefreshed` five minutes later: its news entry, stamped 10, is
read at time 300010. -/
def newsStale : Service := advance 300000 newsRefreshed

/-- The fetch attempts of exactly one call `fetchCategoryData(c)` under a retry budget
of `budget`: at least one and at most `budget` attempts, all for `c`, every attempt but
the last one failed, and the last one returned unless the budget is used up. -/
def OneRun (budget : Nat) (c : String) (b : List Call) : Prop :=
  b ≠ [] ∧ b.length ≤ budget ∧ (∀ x ∈ b, x.category = c) ∧
  (∀ x ∈ b.dropLast, ∃ m, x.outcome = Outcome.threw m) ∧
  (b.length < budget → ∃ x p, b.getLast? = some x ∧ x.outcome = Outcome.returned p)

/-- The process after start-up at time 0, one socket connecting and subscribing to
news, which the server's instance fetches for it (the news provider answers). -/
def subscribedServer : Server :=
  wsOnMessage envWeatherDown 0 (some ("subscribe", some "news")) (wsConnect (Server.start 0))

/-- The update messages for the events of category `c` in a list of events, in order. -/
def updatesFor (c : String) (evs : List Event) : List WsMessage :=
  (evs.filter (fun e => decide (e.category = c))).map
    (fun e => WsMessage.update e.category e.data)

/-- The `data` object has each own key once, has no own key `__proto__`, and holds only
truthy values. -/
def DataClean (s : Service) : Prop :=
  (s.data.map Prod.fst).Nodup ∧ "__proto__" ∉ s.data.map Prod.fst ∧
  ∀ kv ∈ s.data, truthy kv.2 = true

/-- A per-category result of `POST /multi` that reports success: it carries a truthy
payload, its count, and no error. -/
def Succeeded (e : MultiEntry) : Prop :=
  e.success = true ∧ e.error = none ∧
  ∃ p, e.data = some p ∧ truthy p = true ∧ e.data_count = some (dataCount p)

/-- One successful attempt as the stores see it: the category, the payload, and the
clock of the cache write. -/
structure Write where
  category : String
  data : Payload
  time : Nat
  deriving DecidableEq, Repr

/-- The effects that a sequence of successful attempts produces: for each of them the
write to `data`, the write to the cache and the notification, one after the other. -/
def effectsOf (ws : List Write) : List Effect :=
  ws.flatMap (fun w =>
    [Effect.dataSet w.category w.data,
     Effect.cacheSet w.category (CacheEntry.mk w.data w.time),
     Effect.emit w.category w.data])

/-- The events that a sequence of successful attempts emits. -/
def eventsOf (ws : List Write) : List Event :=
  ws.map (fun w => Event.mk w.category w.data)

/-- The payloads written to the cache entry of `c`, in order, in a sequence of
effects. -/
def cacheWritesFor (c : String) (effects : List Effect) : List Payload :=
  effects.filterMap (fun e =>
    match e with
    | Effect.cacheSet k entry => if k = c then some entry.data else none
    | _ => none)

/-- The payloads carried by the `dataUpdate` events for `c`, in order, in a sequence of
effects. -/
def notificationsFor (c : String) (effects : List Effect) : List Payload :=
  effects.filterMap (fun e =>
    match e with
    | Effect.emit k data => if k = c then some data else none
    | _ => none)

/-- The payloads carried by the emitted events of category `c`, in order. -/
def eventPayloadsFor (c : String) (emitted : List Event) : List Payload :=
  (emitted.filter (fun e => decide (e.category = c))).map Event.data

/-- The history of a service is a sequence of successful attempts: its effects are
those of the sequence and its emitted events are the events of the sequence. -/
def Paired (s : Service) : Prop :=
  ∃ ws, s.effects = effectsOf ws ∧ s.emitted = eventsOf ws

/-- The cache and `data` have the same own keys and hold the same payloads. -/
def StoresMatch (s : Service) : Prop :=
  ∀ c, (lookup c s.cache).map CacheEntry.data = lookup c s.data

/-- A world in which every provider answers with the value `p` after 10 ms. -/
def envAnswering (p : Payload) : Env :=
  { fetcher := fun _ _ => ⟨10, Outcome.returned p⟩,
    generator := fun _ _ => MockObj.record [] }

/-- The draw 3/4, used to exercise the generators on a concrete sequence of draws. -/
def highDraw : Draw := ⟨6755399441055744, 0, by norm_num, by norm_num⟩

/-- The largest draw, `1 - 2^(-53)`. -/
def maxDraw : Draw := ⟨9007199254740991, 0, by norm_num, by norm_num⟩

/-- The draw `0.6`, that is the double nearest to 3/5: `5404319552844595 / 2^53`. -/
def pointSixDraw : Draw := ⟨5404319552844595, 0, by norm_num, by norm_num⟩
/-! ## Basic facts about the stores and the building blocks of the loop -/

theorem lookup_assign_self {α : Type} (k : String) (v : α) (m : List (String × α)) :
    lookup k (assign k v m) = some v := by
  induction m with
  | nil => simp [assign, lookup]
  | cons x rest ih =>
    by_cases h : x.1 = k
    · simp [assign, lookup, h]
    · simp [assign, lookup, h, ih]

theorem lookup_assign_of_ne {α : Type} (k d : String) (v : α) (m : List (String × α))
    (h : d ≠ k) : lookup d (assign k v m) = lookup d m := by
  induction m with
  | nil =>
    simp only [assign, lookup]
    rw [if_neg (Ne.symm h)]
  | cons x rest ih =>
    obtain ⟨k', v'⟩ := x
    simp only [assign]
    split
    · rename_i hk
      subst hk
      simp only [lookup]
      rw [if_neg (Ne.symm h), if_neg (Ne.symm h)]
    · simp only [lookup, ih]

theorem SameStores.refl (s : Service) : SameStores s s :=
  ⟨rfl, rfl, rfl, rfl, rfl, rfl⟩

theorem SameStores.trans {s t u : Service} (h1 : SameStores s t) (h2 : SameStores t u) :
    SameStores s u := by
  obtain ⟨a1, a2, a3, a4, a5, a6⟩ := h1
  obtain ⟨b1, b2, b3, b4, b5, b6⟩ := h2
  exact ⟨b1.trans a1, b2.trans a2, b3.trans a3, b4.trans a4, b5.trans a5, b6.trans a6⟩

theorem generateMockData_same (env : Env) (c : String) (s : Service) :
    SameStores s (generateMockData env c s).2 ∧ (generateMockData env c s).2.now = s.now ∧
    (generateMockData env c s).2.calls = s.calls ∧
    (generateMockData env c s).2.delays = s.delays ∧
    (generateMockData env c s).2.log = s.log := by
  unfold generateMockData
  split
  · exact ⟨⟨rfl, rfl, rfl, rfl, rfl, rfl⟩, rfl, rfl, rfl, rfl⟩
  · split <;> exact ⟨⟨rfl, rfl, rfl, rfl, rfl, rfl⟩, rfl, rfl, rfl, rfl⟩

theorem dispatch_same (env : Env) (c : String) (s : Service) :
    SameStores s (dispatch env c s).2 := by
  unfold dispatch
  split
  · exact ⟨rfl, rfl, rfl, rfl, rfl, rfl⟩
  · exact (generateMockData_same env c s).1

theorem dispatch_calls (env : Env) (c : String) (s : Service) :
    (dispatch env c s).2.calls =
      s.calls ++ [Call.mk c (dispatch env c s).2.now (dispatch env c s).1] := by
  unfold dispatch
  split
  · rfl
  · simp [(generateMockData_same env c s).2.2.1]

theorem dispatch_attempts (env : Env) (c : String) (s : Service) :
    (dispatch env c s).2.attempts = s.attempts + 1 := by
  simp [Service.attempts, dispatch_calls]

theorem dispatch_now (env : Env) (c : String) (s : Service) :
    s.now ≤ (dispatch env c s).2.now := by
  unfold dispatch
  split
  · exact Nat.le_add_right _ _
  · exact le_of_eq (generateMockData_same env c s).2.1.symm

theorem dispatch_delays (env : Env) (c : String) (s : Service) :
    (dispatch env c s).2.delays = s.delays := by
  unfold dispatch
  split
  · rfl
  · exact (generateMockData_same env c s).2.2.2.1

theorem catchBlock_same (c : String) (r : Nat) (m : String) (s : Service) :
    SameStores s (catchBlock c r m s) := by
  unfold catchBlock
  dsimp only
  split <;> exact ⟨rfl, rfl, rfl, rfl, rfl, rfl⟩

theorem catchBlock_calls (c : String) (r : Nat) (m : String) (s : Service) :
    (catchBlock c r m s).calls = s.calls := by
  unfold catchBlock
  dsimp only
  split <;> rfl

theorem catchBlock_now (c : String) (r : Nat) (m : String) (s : Service) :
    s.now ≤ (catchBlock c r m s).now := by
  unfold catchBlock
  dsimp only
  split
  · exact Nat.le_add_right _ _
  · exact le_refl _

theorem catchBlock_delays (c : String) (r : Nat) (m : String) (s : Service) :
    (catchBlock c r m s).delays =
      if r < s.maxRetries then s.delays ++ [Wait.mk r (s.retryDelay * r)] else s.delays := by
  unfold catchBlock
  dsimp only
  split <;> rfl

/-! ## The retry loop, one iteration at a time -/

theorem retryLoop_exit (env : Env) (c : String) (fuel r : Nat) (s : Service)
    (h : ¬ r < s.maxRetries) : retryLoop env c fuel r s = s := by
  cases fuel with
  | zero => rfl
  | succ n => simp only [retryLoop, if_neg h]

theorem retryLoop_threw (env : Env) (c : String) (fuel r : Nat) (s : Service) (m : String)
    (hr : r < s.maxRetries) (h : (dispatch env c s).1 = Outcome.threw m) :
    retryLoop env c (fuel + 1) r s =
      retryLoop env c fuel (r + 1) (catchBlock c (r + 1) m (dispatch env c s).2) := by
  rcases hd : dispatch env c s with ⟨o, s1⟩
  rw [hd] at h
  simp only at h
  subst h
  simp only [retryLoop, if_pos hr, hd]

theorem retryLoop_returned (env : Env) (c : String) (fuel r : Nat) (s : Service)
    (p : Payload) (hr : r < s.maxRetries) (h : (dispatch env c s).1 = Outcome.returned p) :
    retryLoop env c (fuel + 1) r s =
      if truthy p then store c p (dispatch env c s).2 else (dispatch env c s).2 := by
  rcases hd : dispatch env c s with ⟨o, s1⟩
  rw [hd] at h
  simp only at h
  subst h
  simp only [retryLoop, if_pos hr, hd]

/-- While attempts keep failing and the budget is not used up, the loop only moves on:
after `j` failures the stores are untouched, `j` attempts were made and the waits
`retryDelay * (r+1)`, ..., `retryDelay * (r+j)` were inserted. -/
theorem retryLoop_peel (env : Env) (c : String) :
    ∀ (j fuel r : Nat) (s : Service), r + j < s.maxRetries →
      (∀ i, i < j → FailsAt env c (s.attempts + i)) →
      ∃ sj, retryLoop env c (fuel + j) r s = retryLoop env c fuel (r + j) sj ∧
        SameStores s sj ∧ sj.attempts = s.attempts + j ∧
        sj.delays = s.delays ++ (List.range' (r + 1) j).map (fun n => Wait.mk n (s.retryDelay * n)) ∧
        s.now ≤ sj.now := by
  intro j
  induction j with
  | zero =>
    intro fuel r s _ _
    exact ⟨s, rfl, SameStores.refl s, rfl, by simp, le_refl _⟩
  | succ j ih =>
    intro fuel r s hlt hfail
    have hr : r < s.maxRetries := by omega
    obtain ⟨m, hm⟩ := hfail 0 (Nat.succ_pos j) s rfl
    have hstep := retryLoop_threw env c (fuel + j) r s m hr hm
    have hsame1 : SameStores s (catchBlock c (r + 1) m (dispatch env c s).2) :=
      (dispatch_same env c s).trans (catchBlock_same c (r + 1) m _)
    have hatt1 : (catchBlock c (r + 1) m (dispatch env c s).2).attempts = s.attempts + 1 := by
      simp only [Service.attempts, catchBlock_calls]
      exact dispatch_attempts env c s
    have hmax1 : (dispatch env c s).2.maxRetries = s.maxRetries := (dispatch_same env c s).2.2.2.2.1
    have hdel1 : (dispatch env c s).2.retryDelay = s.retryDelay := (dispatch_same env c s).2.2.2.2.2
    obtain ⟨sj, hrun, hsame, hatt, hdelays, hnow⟩ :=
      ih fuel (r + 1) (catchBlock c (r + 1) m (dispatch env c s).2)
        (by rw [hsame1.2.2.2.2.1]; omega)
        (by
          intro i hi
          rw [hatt1]
          have := hfail (i + 1) (Nat.succ_lt_succ hi)
          rwa [show s.attempts + 1 + i = s.attempts + (i + 1) by omega])
    refine ⟨sj, ?_, hsame1.trans hsame, ?_, ?_, ?_⟩
    · rw [show fuel + (j + 1) = fuel + j + 1 by omega, hstep, hrun,
        show r + 1 + j = r + (j + 1) by omega]
    · rw [hatt, hatt1]; omega
    · rw [hdelays, catchBlock_delays, hmax1, if_pos (by omega), dispatch_delays,
        hsame1.2.2.2.2.2, hdel1, List.range'_succ]
      simp
    · exact le_trans (le_trans (dispatch_now env c s) (catchBlock_now c (r + 1) m _)) hnow

/-- When every attempt of the budget fails the loop ends with the stores untouched,
after exactly `maxRetries` attempts and the waits `retryDelay * 1`, ...,
`retryDelay * (maxRetries - 1)`. -/
theorem retryLoop_all_fail (env : Env) (c : String) (s : Service)
    (hfail : ∀ i, i < s.maxRetries → FailsAt env c (s.attempts + i)) :
    SameStores s (retryLoop env c s.maxRetries 0 s) ∧
    (retryLoop env c s.maxRetries 0 s).attempts = s.attempts + s.maxRetries ∧
    (retryLoop env c s.maxRetries 0 s).delays =
      s.delays ++ (List.range' 1 (s.maxRetries - 1)).map (fun n => Wait.mk n (s.retryDelay * n)) ∧
    s.now ≤ (retryLoop env c s.maxRetries 0 s).now := by
  rcases hmax : s.maxRetries with _ | n
  · exact ⟨SameStores.refl s, rfl, by simp [retryLoop], le_refl _⟩
  · obtain ⟨sj, hrun, hsame, hatt, hdelays, hnow⟩ :=
      retryLoop_peel env c n 1 0 s (by omega) (fun i hi => hfail i (by omega))
    obtain ⟨m, hm⟩ := hfail n (by omega) sj hatt
    have hmaxj : sj.maxRetries = n + 1 := by rw [hsame.2.2.2.2.1, hmax]
    have hlast := retryLoop_threw env c 0 n sj m (by omega) hm
    have hrun2 : retryLoop env c (n + 1) 0 s = retryLoop env c 1 n sj := by
      rw [Nat.add_comm n 1, hrun, Nat.zero_add]
    have hfin : retryLoop env c (n + 1) 0 s = catchBlock c (n + 1) m (dispatch env c sj).2 :=
      hrun2.trans (hlast.trans rfl)
    rw [hfin]
    have hmaxd : (dispatch env c sj).2.maxRetries = n + 1 := by
      rw [(dispatch_same env c sj).2.2.2.2.1, hmaxj]
    refine ⟨hsame.trans ((dispatch_same env c sj).trans (catchBlock_same _ _ _ _)), ?_, ?_, ?_⟩
    · simp only [Service.attempts, catchBlock_calls]
      have := dispatch_attempts env c sj
      simp only [Service.attempts] at this hatt
      omega
    · rw [catchBlock_delays, hmaxd, if_neg (by omega), dispatch_delays, hdelays]
      simp
    · exact le_trans hnow (le_trans (dispatch_now env c sj) (catchBlock_now _ _ _ _))

/-- Induction over the iterations of the loop: a relation between the state at the head
of the loop and the final state holds if it holds when the loop exits at once, when an
attempt returns, and is carried backwards over a failed attempt. -/
theorem retryLoop_induct (env : Env) (c : String) (P : Nat → Service → Service → Prop)
    (hexit : ∀ r s, P r s s)
    (hret : ∀ r s p, r < s.maxRetries → (dispatch env c s).1 = Outcome.returned p →
      P r s (if truthy p then store c p (dispatch env c s).2 else (dispatch env c s).2))
    (hthrew : ∀ r s m t, r < s.maxRetries → (dispatch env c s).1 = Outcome.threw m →
      P (r + 1) (catchBlock c (r + 1) m (dispatch env c s).2) t → P r s t) :
    ∀ fuel r s, P r s (retryLoop env c fuel r s) := by
  intro fuel
  induction fuel with
  | zero => intro r s; exact hexit r s
  | succ n ih =>
    intro r s
    by_cases hr : r < s.maxRetries
    · rcases ho : (dispatch env c s).1 with m | p
      · rw [retryLoop_threw env c n r s m hr ho]
        exact hthrew r s m _ hr ho (ih _ _)
      · rw [retryLoop_returned env c n r s p hr ho]
        exact hret r s p hr ho
    · rw [retryLoop_exit env c (n + 1) r s hr]
      exact hexit r s

theorem store_config (c : String) (p : Payload) (s : Service) :
    (store c p s).updateInterval = s.updateInterval ∧
    (store c p s).maxRetries = s.maxRetries ∧ (store c p s).retryDelay = s.retryDelay ∧
    (store c p s).calls = s.calls ∧ (store c p s).now = s.now ∧
    (store c p s).delays = s.delays :=
  ⟨rfl, rfl, rfl, rfl, rfl, rfl⟩

/-- No run of the loop changes the configuration. -/
theorem retryLoop_config (env : Env) (c : String) (fuel r : Nat) (s : Service) :
    (retryLoop env c fuel r s).updateInterval = s.updateInterval ∧
    (retryLoop env c fuel r s).maxRetries = s.maxRetries ∧
    (retryLoop env c fuel r s).retryDelay = s.retryDelay := by
  refine retryLoop_induct env c
    (fun _ s t => t.updateInterval = s.updateInterval ∧ t.maxRetries = s.maxRetries ∧
      t.retryDelay = s.retryDelay) ?_ ?_ ?_ fuel r s
  · intro _ s; exact ⟨rfl, rfl, rfl⟩
  · intro _ s p _ _
    have h := dispatch_same env c s
    split
    · exact ⟨h.2.2.2.1, h.2.2.2.2.1, h.2.2.2.2.2⟩
    · exact ⟨h.2.2.2.1, h.2.2.2.2.1, h.2.2.2.2.2⟩
  · intro r s m t _ _ ht
    have h := (dispatch_same env c s).trans (catchBlock_same c (r + 1) m _)
    exact ⟨ht.1.trans h.2.2.2.1, ht.2.1.trans h.2.2.2.2.1, ht.2.2.trans h.2.2.2.2.2⟩

/-- A run of the loop started with `r` failures behind it makes at most
`maxRetries - r` attempts. -/
theorem retryLoop_attempts_le (env : Env) (c : String) (fuel r : Nat) (s : Service) :
    (retryLoop env c fuel r s).attempts ≤ s.attempts + (s.maxRetries - r) := by
  refine retryLoop_induct env c
    (fun r s t => t.attempts ≤ s.attempts + (s.maxRetries - r)) ?_ ?_ ?_ fuel r s
  · intro r s; exact Nat.le_add_right _ _
  · intro r s p hr _
    have h := dispatch_attempts env c s
    split
    · show (store c p (dispatch env c s).2).calls.length ≤ _
      rw [(store_config c p _).2.2.2.1]
      simp only [Service.attempts] at h ⊢
      omega
    · omega
  · intro r s m t hr _ ht
    have hmax : (catchBlock c (r + 1) m (dispatch env c s).2).maxRetries = s.maxRetries :=
      ((dispatch_same env c s).trans (catchBlock_same c (r + 1) m _)).2.2.2.2.1
    have hatt : (catchBlock c (r + 1) m (dispatch env c s).2).attempts = s.attempts + 1 := by
      simp only [Service.attempts, catchBlock_calls]
      exact dispatch_attempts env c s
    simp only at ht
    rw [hmax, hatt] at ht
    omega

/-- The iteration bound passed by `fetchCategoryData` is never what ends the loop: any
larger bound gives the same run. -/
theorem retryLoop_fuel (env : Env) (c : String) :
    ∀ (fuel r : Nat) (s : Service), s.maxRetries ≤ fuel + r →
      retryLoop env c (fuel + 1) r s = retryLoop env c fuel r s := by
  intro fuel
  induction fuel with
  | zero =>
    intro r s h
    rw [retryLoop_exit env c 1 r s (by omega), retryLoop_exit env c 0 r s (by omega)]
  | succ n ih =>
    intro r s h
    by_cases hr : r < s.maxRetries
    · rcases ho : (dispatch env c s).1 with m | p
      · rw [retryLoop_threw env c (n + 1) r s m hr ho, retryLoop_threw env c n r s m hr ho]
        apply ih
        rw [((dispatch_same env c s).trans (catchBlock_same c (r + 1) m _)).2.2.2.2.1]
        omega
      · rw [retryLoop_returned env c (n + 1) r s p hr ho, retryLoop_returned env c n r s p hr ho]
    · rw [retryLoop_exit env c _ r s hr, retryLoop_exit env c _ r s hr]

/-- When the first `j` attempts fail and the next one returns, the loop ends right
there, after `j + 1` attempts and the waits `retryDelay * 1`, ..., `retryDelay * j`. -/
theorem retryLoop_fail_then_return (env : Env) (c : String) (s : Service) (j : Nat)
    (hj : j < s.maxRetries) (hfail : ∀ i, i < j → FailsAt env c (s.attempts + i))
    (hret : ReturnsAt env c (s.attempts + j)) :
    (retryLoop env c s.maxRetries 0 s).attempts = s.attempts + (j + 1) ∧
    (retryLoop env c s.maxRetries 0 s).delays =
      s.delays ++ (List.range' 1 j).map (fun n => Wait.mk n (s.retryDelay * n)) := by
  obtain ⟨sj, hrun, hsame, hatt, hdelays, _⟩ :=
    retryLoop_peel env c j (s.maxRetries - j) 0 s (by omega) hfail
  obtain ⟨p, hp⟩ := hret sj hatt
  have hmaxj : sj.maxRetries = s.maxRetries := hsame.2.2.2.2.1
  have hrun2 : retryLoop env c s.maxRetries 0 s = retryLoop env c (s.maxRetries - j - 1 + 1) j sj := by
    have e1 : s.maxRetries - j + j = s.maxRetries := by omega
    have e2 : s.maxRetries - j - 1 + 1 = s.maxRetries - j := by omega
    rw [e1, Nat.zero_add] at hrun
    rw [e2]
    exact hrun
  rw [hrun2, retryLoop_returned env c _ j sj p (by omega) hp]
  have ha := dispatch_attempts env c sj
  have hd := dispatch_delays env c sj
  simp only [Nat.zero_add] at hdelays
  split
  · refine ⟨?_, ?_⟩
    · show (store c p (dispatch env c sj).2).calls.length = _
      rw [(store_config c p _).2.2.2.1]
      simp only [Service.attempts] at ha hatt ⊢
      omega
    · rw [(store_config c p _).2.2.2.2.2, hd, hdelays]
  · exact ⟨by omega, by rw [hd, hdelays]⟩

/-! ## Facts about the concrete worlds -/

theorem envWeatherDown_fails (i : Nat) : FailsAt envWeatherDown "weather" i := by
  intro s _
  exact ⟨"timeout", by simp [dispatch, envWeatherDown, switchCases]⟩

theorem envWeatherFlaky_fails (i : Nat) (h : i < 2) : FailsAt envWeatherFlaky "weather" i := by
  intro s hs
  exact ⟨"timeout", by simp [dispatch, envWeatherFlaky, switchCases, hs, h]⟩

theorem envWeatherFlaky_returns (i : Nat) (h : 2 ≤ i) :
    ReturnsAt envWeatherFlaky "weather" i := by
  intro s hs
  exact ⟨Payload.list [Atom.json "item"], by
    simp [dispatch, envWeatherFlaky, switchCases, hs, Nat.not_lt.mpr h]⟩


/-! ## Effects of one call on the two stores -/

theorem registered_not_inherited :
    ∀ c ∈ getCategories, c ∉ objectPrototypeKeys := by decide

/-- For a registered category the synthesizer returns an object, hence a truthy
value. -/
theorem generateMockData_registered (env : Env) (c : String) (s : Service)
    (hc : c ∈ getCategories) :
    ∃ p, (generateMockData env c s).1 = Outcome.returned p ∧ truthy p = true := by
  unfold generateMockData
  split
  · refine ⟨_, rfl, ?_⟩
    cases env.generator c s.draws <;> rfl
  · rw [if_neg (registered_not_inherited c hc)]
    exact ⟨_, rfl, rfl⟩

theorem dataGet_dataSet_of_ne (c d : String) (p : Payload) (data : List (String × Payload))
    (h : d ≠ c) : dataGet d (dataSet c p data) = dataGet d data := by
  unfold dataGet dataSet
  by_cases hd : d = "__proto__"
  · simp [hd]
  · by_cases hc : c = "__proto__"
    · simp [hc]
    · simp only [if_neg hd, if_neg hc, lookup_assign_of_ne c d p data h]

/-- A call for `c` leaves the cache entry and the data value of every other category
alone. -/
theorem retryLoop_other (env : Env) (c d : String) (hd : d ≠ c) (fuel r : Nat) (s : Service) :
    lookup d (retryLoop env c fuel r s).cache = lookup d s.cache ∧
    dataGet d (retryLoop env c fuel r s).data = dataGet d s.data := by
  refine retryLoop_induct env c
    (fun _ s t => lookup d t.cache = lookup d s.cache ∧ dataGet d t.data = dataGet d s.data)
    ?_ ?_ ?_ fuel r s
  · intro _ s; exact ⟨rfl, rfl⟩
  · intro _ s p _ _
    have h := dispatch_same env c s
    split
    · refine ⟨?_, ?_⟩
      · show lookup d (assign c _ (dispatch env c s).2.cache) = _
        rw [lookup_assign_of_ne c d _ _ hd, h.2.1]
      · show dataGet d (dataSet c p (dispatch env c s).2.data) = _
        rw [dataGet_dataSet_of_ne c d p _ hd, h.1]
    · exact ⟨by rw [h.2.1], by rw [h.1]⟩
  · intro r s m t _ _ ht
    have h := (dispatch_same env c s).trans (catchBlock_same c (r + 1) m _)
    exact ⟨ht.1.trans (by rw [h.2.1]), ht.2.trans (by rw [h.1])⟩

/-- No call removes a cache entry. -/
theorem retryLoop_keeps (env : Env) (c d : String) (fuel r : Nat) (s : Service) :
    (lookup d s.cache).isSome = true → (lookup d (retryLoop env c fuel r s).cache).isSome = true := by
  refine retryLoop_induct env c
    (fun _ s t => (lookup d s.cache).isSome = true → (lookup d t.cache).isSome = true)
    ?_ ?_ ?_ fuel r s
  · intro _ s h; exact h
  · intro _ s p _ _ hs
    have h := dispatch_same env c s
    split
    · show (lookup d (assign c _ (dispatch env c s).2.cache)).isSome = true
      by_cases hd : d = c
      · rw [hd, lookup_assign_self]; rfl
      · rw [lookup_assign_of_ne c d _ _ hd, h.2.1]; exact hs
    · rw [h.2.1]; exact hs
  · intro r s m t _ _ ht hs
    have h := (dispatch_same env c s).trans (catchBlock_same c (r + 1) m _)
    apply ht
    rw [h.2.1]; exact hs

/-- A call whose first attempt returns a truthy value leaves an entry for its
category. -/
theorem fetch_succeeds_entry (env : Env) (c : String) (s : Service) (h0 : 0 < s.maxRetries)
    (hok : AlwaysSucceeds env c) :
    (lookup c (fetchCategoryData env c s).2.cache).isSome = true := by
  obtain ⟨p, hp, ht⟩ := hok s
  obtain ⟨n, hn⟩ : ∃ n, s.maxRetries = n + 1 := ⟨s.maxRetries - 1, by omega⟩
  simp only [fetchCategoryData]
  rw [hn, retryLoop_returned env c n 0 s p h0 hp, if_pos ht]
  show (lookup c (assign c _ (dispatch env c s).2.cache)).isSome = true
  rw [lookup_assign_self]; rfl

theorem sweepStep_eq (env : Env) (s : Service) (c : String) :
    sweepStep env s c = (fetchCategoryData env c s).2 := rfl

/-- The sweep over any list of categories, when the fetcher of `c0` always fails and
every other listed fetcher always succeeds. -/
theorem sweep_one_down (env : Env) (c0 : String) (hfail : ∀ i, FailsAt env c0 i) :
    ∀ (cats : List String) (s : Service), 0 < s.maxRetries →
      (∀ d ∈ cats, d ≠ c0 → AlwaysSucceeds env d) →
      (cats.foldl (sweepStep env) s).maxRetries = s.maxRetries ∧
      lookup c0 (cats.foldl (sweepStep env) s).cache = lookup c0 s.cache ∧
      (∀ d, (lookup d s.cache).isSome = true →
        (lookup d (cats.foldl (sweepStep env) s).cache).isSome = true) ∧
      (∀ d ∈ cats, d ≠ c0 → (lookup d (cats.foldl (sweepStep env) s).cache).isSome = true) := by
  intro cats
  induction cats with
  | nil => intro s _ _; exact ⟨rfl, rfl, fun _ h => h, fun _ h => by simp at h⟩
  | cons c rest ih =>
    intro s h0 hok
    have hmax : (sweepStep env s c).maxRetries = s.maxRetries :=
      (retryLoop_config env c s.maxRetries 0 s).2.1
    obtain ⟨i1, i2, i3, i4⟩ := ih (sweepStep env s c) (by rw [hmax]; exact h0)
      (fun d hd hne => hok d (List.mem_cons_of_mem _ hd) hne)
    have hc0 : lookup c0 (sweepStep env s c).cache = lookup c0 s.cache := by
      by_cases hc : c = c0
      · subst hc
        rw [sweepStep_eq]
        have := (retryLoop_all_fail env c s (fun i _ => hfail _)).1.2.1
        simp only [fetchCategoryData]
        rw [this]
      · exact (retryLoop_other env c c0 (fun e => hc e.symm) s.maxRetries 0 s).1
    refine ⟨i1.trans hmax, i2.trans hc0, ?_, ?_⟩
    · intro d hd
      exact i3 d (retryLoop_keeps env c d s.maxRetries 0 s hd)
    · intro d hd hne
      rcases List.mem_cons.mp hd with rfl | hrest
      · exact i3 d (fetch_succeeds_entry env d s h0 (hok d (List.mem_cons_self _ _) hne))
      · exact i4 d hrest hne

/-- In the world with the weather provider down every other registered fetcher
succeeds. -/
theorem envWeatherDown_others (d : String) (hd : d ∈ getCategories) (hne : d ≠ "weather") :
    AlwaysSucceeds envWeatherDown d := by
  intro s
  by_cases hs : d ∈ switchCases
  · exact ⟨Payload.list [Atom.json "item"], by simp [dispatch, hs, envWeatherDown, hne], rfl⟩
  · obtain ⟨p, hp, ht⟩ := generateMockData_registered envWeatherDown d s hd
    exact ⟨p, by simp only [dispatch, if_neg hs]; exact hp, ht⟩

/-! ## Successful attempts -/

theorem dispatch_returned_ne_proto (env : Env) (c : String) (s : Service) (p : Payload)
    (h : (dispatch env c s).1 = Outcome.returned p) : c ≠ "__proto__" := by
  intro hc
  subst hc
  revert h
  simp [dispatch, generateMockData, switchCases, generatorKeys, objectPrototypeKeys,
    callInherited]

theorem dataGet_dataSet_self (c : String) (p : Payload) (data : List (String × Payload))
    (hc : c ≠ "__proto__") : dataGet c (dataSet c p data) = p := by
  simp only [dataGet, dataSet, if_neg hc, lookup_assign_self]

/-- What a run of the loop adds to the call history, and what it has written if one of
the added calls returned a truthy value. -/
theorem retryLoop_history (env : Env) (c : String) (fuel r : Nat) (s : Service) :
    ∃ tr, (retryLoop env c fuel r s).calls = s.calls ++ tr ∧
      ∀ T p, Call.mk c T (Outcome.returned p) ∈ tr → truthy p = true →
        lookup c (retryLoop env c fuel r s).cache = some (CacheEntry.mk p T) ∧
        dataGet c (retryLoop env c fuel r s).data = p ∧
        (retryLoop env c fuel r s).emitted = s.emitted ++ [Event.mk c p] := by
  refine retryLoop_induct env c
    (fun _ s t => ∃ tr, t.calls = s.calls ++ tr ∧
      ∀ T p, Call.mk c T (Outcome.returned p) ∈ tr → truthy p = true →
        lookup c t.cache = some (CacheEntry.mk p T) ∧ dataGet c t.data = p ∧
        t.emitted = s.emitted ++ [Event.mk c p]) ?_ ?_ ?_ fuel r s
  · intro _ s
    exact ⟨[], by simp, fun _ _ h => by simp at h⟩
  · intro _ s q _ hq
    have hsame := dispatch_same env c s
    have hcalls := dispatch_calls env c s
    rw [hq] at hcalls
    refine ⟨[Call.mk c (dispatch env c s).2.now (Outcome.returned q)], ?_, ?_⟩
    · split
      · exact hcalls
      · exact hcalls
    · intro T p hmem hp
      simp only [List.mem_singleton, Call.mk.injEq, Outcome.returned.injEq, true_and] at hmem
      obtain ⟨hT, hpq⟩ := hmem
      subst hT
      subst hpq
      rw [if_pos hp]
      refine ⟨?_, ?_, ?_⟩
      · show lookup c (assign c _ _) = _
        rw [lookup_assign_self]
      · show dataGet c (dataSet c p _) = p
        exact dataGet_dataSet_self c p _ (dispatch_returned_ne_proto env c s p hq)
      · show (dispatch env c s).2.emitted ++ _ = _
        rw [hsame.2.2.1]
  · intro r s m t _ hm ht
    obtain ⟨tr, htr, hprop⟩ := ht
    have hsame := (dispatch_same env c s).trans (catchBlock_same c (r + 1) m _)
    have hcalls := dispatch_calls env c s
    rw [hm] at hcalls
    refine ⟨Call.mk c (dispatch env c s).2.now (Outcome.threw m) :: tr, ?_, ?_⟩
    · rw [htr, catchBlock_calls, hcalls]
      simp
    · intro T p hmem hp
      have hmem2 : Call.mk c T (Outcome.returned p) ∈ tr := by
        rcases List.mem_cons.mp hmem with h | h
        · simp at h
        · exact h
      obtain ⟨h1, h2, h3⟩ := hprop T p hmem2 hp
      exact ⟨h1, h2, by rw [h3, hsame.2.2.1]⟩

/-! ## The stores agree in every reachable state -/

theorem storesAgree_of_same {s t : Service} (h : SameStores s t) (hs : StoresAgree s) :
    StoresAgree t := by
  intro c cached hl
  rw [h.2.1] at hl
  rw [h.1]
  exact hs c cached hl

theorem retryLoop_storesAgree (env : Env) (c : String) (fuel r : Nat) (s : Service) :
    StoresAgree s → StoresAgree (retryLoop env c fuel r s) := by
  refine retryLoop_induct env c (fun _ s t => StoresAgree s → StoresAgree t) ?_ ?_ ?_ fuel r s
  · intro _ s h; exact h
  · intro _ s p _ hp hs
    have h1 : StoresAgree (dispatch env c s).2 := storesAgree_of_same (dispatch_same env c s) hs
    split
    · rename_i ht
      intro d cached hl
      by_cases hd : d = c
      · subst hd
        have hl2 : lookup d (assign d (CacheEntry.mk p (dispatch env d s).2.now)
            (dispatch env d s).2.cache) = some cached := hl
        rw [lookup_assign_self] at hl2
        have hc : cached = CacheEntry.mk p (dispatch env d s).2.now := (Option.some.inj hl2).symm
        subst hc
        exact ⟨ht, dataGet_dataSet_self d p _ (dispatch_returned_ne_proto env d s p hp)⟩
      · have hl2 : lookup d (assign c (CacheEntry.mk p (dispatch env c s).2.now)
            (dispatch env c s).2.cache) = some cached := hl
        rw [lookup_assign_of_ne c d _ _ hd] at hl2
        obtain ⟨a, b⟩ := h1 d cached hl2
        refine ⟨a, ?_⟩
        show dataGet d (dataSet c p (dispatch env c s).2.data) = _
        rw [dataGet_dataSet_of_ne c d p _ hd]
        exact b
    · exact h1
  · intro r s m t _ _ ht hs
    exact ht (storesAgree_of_same
      ((dispatch_same env c s).trans (catchBlock_same c (r + 1) m _)) hs)

theorem fetchAllData_snd (env : Env) (s : Service) :
    (fetchAllData env s).2 = getCategories.foldl (sweepStep env) s := by
  simp only [fetchAllData]

theorem sweep_storesAgree (env : Env) :
    ∀ (cats : List String) (s : Service), StoresAgree s →
      StoresAgree (cats.foldl (sweepStep env) s) := by
  intro cats
  induction cats with
  | nil => intro s h; exact h
  | cons c rest ih =>
    intro s h
    exact ih _ (retryLoop_storesAgree env c s.maxRetries 0 s h)

/-- The state after `getData` is the state before it, or the state after the refresh it
ran, or that state with one more generator call made. -/
theorem getData_state (env : Env) (c : String) (s : Service) :
    (getData env c s).2 = s ∨
    SameStores (fetchCategoryData env c s).2 (getData env c s).2 ∧
      (getData env c s).2.calls = (fetchCategoryData env c s).2.calls := by
  have hslow : (getDataSlow env c s).2 = s ∨
      SameStores (fetchCategoryData env c s).2 (getDataSlow env c s).2 ∧
        (getDataSlow env c s).2.calls = (fetchCategoryData env c s).2.calls := by
    unfold getDataSlow
    split
    · exact Or.inl rfl
    · right
      simp only [fetchCategoryData]
      split
      · exact ⟨SameStores.refl _, rfl⟩
      · have h := generateMockData_same env c (retryLoop env c s.maxRetries 0 s)
        rcases hg : generateMockData env c (retryLoop env c s.maxRetries 0 s) with ⟨o, s2⟩
        rw [hg] at h
        cases o <;> exact ⟨h.1, h.2.2.1⟩
  unfold getData
  split
  · split
    · exact Or.inl rfl
    · exact hslow
  · exact hslow

theorem reachable_storesAgree {s : Service} (h : Reachable s) : StoresAgree s := by
  induction h with
  | init t => intro c cached hl; simp [constructor, lookup] at hl
  | idle ms _ ih => exact storesAgree_of_same ⟨rfl, rfl, rfl, rfl, rfl, rfl⟩ ih
  | @fetch env c s0 _ ih =>
    show StoresAgree (retryLoop env c s0.maxRetries 0 s0)
    exact retryLoop_storesAgree env c _ 0 _ ih
  | @sweep env s0 _ ih =>
    rw [fetchAllData_snd]
    exact sweep_storesAgree env _ _ ih
  | @read env c s0 _ ih =>
    rcases getData_state env c s0 with h | h
    · rw [h]; exact ih
    · exact storesAgree_of_same h.1 (retryLoop_storesAgree env c _ 0 _ ih)

/-- For a registered category the slow path of `getData` always resolves with a truthy
payload. -/
theorem getDataSlow_registered (env : Env) (c : String) (s : Service)
    (hc : c ∈ getCategories) :
    ∃ p, (getDataSlow env c s).1 = Completion.resolved p ∧ truthy p = true := by
  unfold getDataSlow
  split
  · rename_i h; exact ⟨_, rfl, h⟩
  · simp only [fetchCategoryData]
    split
    · rename_i h; exact ⟨_, rfl, h⟩
    · obtain ⟨p, hp, ht⟩ :=
        generateMockData_registered env c (retryLoop env c s.maxRetries 0 s) hc
      rcases hg : generateMockData env c (retryLoop env c s.maxRetries 0 s) with ⟨o, s2⟩
      rw [hg] at hp
      simp only at hp
      subst hp
      exact ⟨p, rfl, ht⟩

theorem switchCases_registered : ∀ c ∈ switchCases, c ∈ getCategories := by decide

theorem generatorKeys_registered : ∀ c ∈ generatorKeys, c ∈ getCategories := by decide

/-- An id outside the registry that is not an inherited property name goes through the
default branch and gets the generic record, in one attempt. -/
theorem dispatch_unknown (env : Env) (c : String) (s : Service) (hc : c ∉ getCategories)
    (hproto : c ∉ objectPrototypeKeys) :
    dispatch env c s =
      (Outcome.returned (generateGenericMockData c s.now),
        { s with calls := s.calls ++
          [Call.mk c s.now (Outcome.returned (generateGenericMockData c s.now))] }) := by
  have h1 : c ∉ switchCases := fun h => hc (switchCases_registered c h)
  have h2 : c ∉ generatorKeys := fun h => hc (generatorKeys_registered c h)
  simp only [dispatch, generateMockData, if_neg h1, if_neg h2, if_neg hproto]

/-! ## Keys of the stores -/

theorem assign_keys {α : Type} (k : String) (v : α) (m : List (String × α)) :
    (assign k v m).map Prod.fst =
      if k ∈ m.map Prod.fst then m.map Prod.fst else m.map Prod.fst ++ [k] := by
  induction m with
  | nil => simp [assign]
  | cons x rest ih =>
    obtain ⟨k', v'⟩ := x
    simp only [assign]
    by_cases hk : k' = k
    · subst hk
      simp
    · have hk2 : ¬ k = k' := fun e => hk e.symm
      simp only [if_neg hk, List.map_cons, ih, List.mem_cons, hk2, false_or]
      split <;> simp

theorem assign_keys_nodup {α : Type} (k : String) (v : α) (m : List (String × α))
    (h : (m.map Prod.fst).Nodup) : ((assign k v m).map Prod.fst).Nodup := by
  rw [assign_keys]
  split
  · exact h
  · rename_i hk
    exact List.Nodup.append h (List.nodup_singleton k) (by
      intro x hx hx2
      rw [List.mem_singleton] at hx2
      subst hx2
      exact hk hx)

/-- No run of the loop gives the cache two entries under one key. -/
theorem retryLoop_cache_nodup (env : Env) (c : String) (fuel r : Nat) (s : Service) :
    (s.cache.map Prod.fst).Nodup → ((retryLoop env c fuel r s).cache.map Prod.fst).Nodup := by
  refine retryLoop_induct env c
    (fun _ s t => (s.cache.map Prod.fst).Nodup → (t.cache.map Prod.fst).Nodup) ?_ ?_ ?_ fuel r s
  · intro _ s h; exact h
  · intro _ s p _ _ hs
    have h := dispatch_same env c s
    split
    · show ((assign c _ (dispatch env c s).2.cache).map Prod.fst).Nodup
      apply assign_keys_nodup
      rw [h.2.1]; exact hs
    · rw [h.2.1]; exact hs
  · intro r s m t _ _ ht hs
    have h := (dispatch_same env c s).trans (catchBlock_same c (r + 1) m _)
    apply ht
    rw [h.2.1]; exact hs

theorem sweep_cache_nodup (env : Env) :
    ∀ (cats : List String) (s : Service), (s.cache.map Prod.fst).Nodup →
      ((cats.foldl (sweepStep env) s).cache.map Prod.fst).Nodup := by
  intro cats
  induction cats with
  | nil => intro s h; exact h
  | cons c rest ih =>
    intro s h
    exact ih _ (retryLoop_cache_nodup env c s.maxRetries 0 s h)

theorem reachable_cache_nodup {s : Service} (h : Reachable s) :
    (s.cache.map Prod.fst).Nodup := by
  induction h with
  | init t => simp [constructor]
  | idle ms _ ih => exact ih
  | @fetch env c s0 _ ih =>
    show ((retryLoop env c s0.maxRetries 0 s0).cache.map Prod.fst).Nodup
    exact retryLoop_cache_nodup env c _ 0 _ ih
  | @sweep env s0 _ ih =>
    rw [fetchAllData_snd]
    exact sweep_cache_nodup env _ _ ih
  | @read env c s0 _ ih =>
    rcases getData_state env c s0 with h | h
    · rw [h]; exact ih
    · rw [h.1.2.1]
      exact retryLoop_cache_nodup env c _ 0 _ ih

/-! ## The attempts of one call, and of the sweep -/

/-- The attempts that a run of the loop adds to the history, when its iteration bound
is large enough: what `OneRun` says, for a loop entered with `r` failures behind it. -/
theorem retryLoop_run (env : Env) (c : String) :
    ∀ (fuel r : Nat) (s : Service), s.maxRetries ≤ fuel + r →
      ∃ tr, (retryLoop env c fuel r s).calls = s.calls ++ tr ∧
        tr.length ≤ s.maxRetries - r ∧ (r < s.maxRetries → tr ≠ []) ∧
        (∀ x ∈ tr, x.category = c) ∧
        (∀ x ∈ tr.dropLast, ∃ m, x.outcome = Outcome.threw m) ∧
        (tr.length < s.maxRetries - r →
          ∃ x p, tr.getLast? = some x ∧ x.outcome = Outcome.returned p) := by
  intro fuel
  induction fuel with
  | zero =>
    intro r s h
    refine ⟨[], by simp [retryLoop], by simp, ?_, by simp, by simp, ?_⟩
    · intro hr; omega
    · intro hlt; simp at hlt; omega
  | succ n ih =>
    intro r s h
    by_cases hr : r < s.maxRetries
    · have hcalls := dispatch_calls env c s
      rcases ho : (dispatch env c s).1 with m | p
      · rw [retryLoop_threw env c n r s m hr ho]
        rw [ho] at hcalls
        have hsame := (dispatch_same env c s).trans (catchBlock_same c (r + 1) m _)
        have hmax : (catchBlock c (r + 1) m (dispatch env c s).2).maxRetries = s.maxRetries :=
          hsame.2.2.2.2.1
        obtain ⟨tr, h1, h2, h3, h4, h5, h6⟩ :=
          ih (r + 1) (catchBlock c (r + 1) m (dispatch env c s).2) (by rw [hmax]; omega)
        rw [hmax] at h2 h3 h6
        refine ⟨Call.mk c (dispatch env c s).2.now (Outcome.threw m) :: tr, ?_, ?_, ?_, ?_, ?_, ?_⟩
        · rw [h1, catchBlock_calls, hcalls]; simp
        · simp only [List.length_cons]; omega
        · intro _; simp
        · intro x hx
          rcases List.mem_cons.mp hx with rfl | hx
          · rfl
          · exact h4 x hx
        · intro x hx
          cases tr with
          | nil => simp at hx
          | cons y rest =>
            rw [List.dropLast_cons₂] at hx
            rcases List.mem_cons.mp hx with rfl | hx
            · exact ⟨m, rfl⟩
            · exact h5 x hx
        · intro hlt
          simp only [List.length_cons] at hlt
          obtain ⟨x, p, hx, hp⟩ := h6 (by omega)
          refine ⟨x, p, ?_, hp⟩
          cases tr with
          | nil => simp at hx
          | cons y rest => rw [List.getLast?_cons_cons]; exact hx
      · rw [retryLoop_returned env c n r s p hr ho]
        rw [ho] at hcalls
        refine ⟨[Call.mk c (dispatch env c s).2.now (Outcome.returned p)], ?_, ?_, ?_, ?_, ?_, ?_⟩
        · split
          · exact hcalls
          · exact hcalls
        · simp only [List.length_singleton]; omega
        · intro _; simp
        · intro x hx
          rw [List.mem_singleton] at hx
          rw [hx]
        · intro x hx; simp at hx
        · intro _
          exact ⟨_, p, rfl, rfl⟩
    · rw [retryLoop_exit env c (n + 1) r s hr]
      refine ⟨[], by simp, by simp, fun h => absurd h hr, by simp, by simp, ?_⟩
      intro hlt; simp at hlt; omega

/-- One call of `fetchCategoryData` with a positive budget adds the attempts of one
run. -/
theorem fetch_oneRun (env : Env) (c : String) (s : Service) (h0 : 0 < s.maxRetries) :
    ∃ b, (fetchCategoryData env c s).2.calls = s.calls ++ b ∧ OneRun s.maxRetries c b := by
  obtain ⟨tr, h1, h2, h3, h4, h5, h6⟩ := retryLoop_run env c s.maxRetries 0 s (by omega)
  exact ⟨tr, h1, h3 h0, by omega, h4, h5, fun hlt => h6 (by omega)⟩

/-- The sweep over a list of categories adds, for each category of the list and in the
order of the list, the attempts of one run. -/
theorem sweep_runs (env : Env) :
    ∀ (cats : List String) (s : Service), 0 < s.maxRetries →
      ∃ blocks, (cats.foldl (sweepStep env) s).calls = s.calls ++ blocks.flatten ∧
        List.Forall₂ (OneRun s.maxRetries) cats blocks := by
  intro cats
  induction cats with
  | nil =>
    intro s _
    exact ⟨[], by simp, List.Forall₂.nil⟩
  | cons c rest ih =>
    intro s h0
    have hmax : (sweepStep env s c).maxRetries = s.maxRetries :=
      (retryLoop_config env c s.maxRetries 0 s).2.1
    obtain ⟨b, hb, hrun⟩ := fetch_oneRun env c s h0
    obtain ⟨blocks, hblocks, hall⟩ := ih (sweepStep env s c) (by rw [hmax]; exact h0)
    rw [hmax] at hall
    refine ⟨b :: blocks, ?_, List.Forall₂.cons hrun hall⟩
    rw [List.foldl_cons, hblocks, sweepStep_eq, hb]
    simp

theorem sweep_is_sequence (env : Env) :
    ∀ (cats : List String) (s : Service),
      cats.foldl (sweepStep env) s
        = cats.foldl (fun st c => (fetchCategoryData env c st).2) s := by
  intro cats
  induction cats with
  | nil => intro s; rfl
  | cons c rest ih => intro s; exact ih _

/-! ## A read right after a refresh -/

/-- When an attempt of the run returns, the clock does not move any more: the call ends
at the time that attempt ended. -/
theorem retryLoop_returned_now (env : Env) (c : String) (fuel r : Nat) (s : Service) :
    ∃ tr, (retryLoop env c fuel r s).calls = s.calls ++ tr ∧
      ∀ T p, Call.mk c T (Outcome.returned p) ∈ tr → (retryLoop env c fuel r s).now = T := by
  refine retryLoop_induct env c
    (fun _ s t => ∃ tr, t.calls = s.calls ++ tr ∧
      ∀ T p, Call.mk c T (Outcome.returned p) ∈ tr → t.now = T) ?_ ?_ ?_ fuel r s
  · intro _ s
    exact ⟨[], by simp, fun _ _ h => by simp at h⟩
  · intro _ s q _ hq
    have hcalls := dispatch_calls env c s
    rw [hq] at hcalls
    refine ⟨[Call.mk c (dispatch env c s).2.now (Outcome.returned q)], ?_, ?_⟩
    · split
      · exact hcalls
      · exact hcalls
    · intro T p hmem
      simp only [List.mem_singleton, Call.mk.injEq, Outcome.returned.injEq, true_and] at hmem
      rw [hmem.1]
      split <;> rfl
  · intro r s m t _ hm ht
    obtain ⟨tr, htr, hprop⟩ := ht
    have hcalls := dispatch_calls env c s
    rw [hm] at hcalls
    refine ⟨Call.mk c (dispatch env c s).2.now (Outcome.threw m) :: tr, ?_, ?_⟩
    · rw [htr, catchBlock_calls, hcalls]
      simp
    · intro T p hmem
      rcases List.mem_cons.mp hmem with h | h
      · simp at h
      · exact hprop T p h

theorem getData_fresh (env : Env) (c : String) (s : Service) (cached : CacheEntry)
    (hl : lookup c s.cache = some cached)
    (hf : (s.now : Int) - (cached.timestamp : Int) < (s.updateInterval : Int)) :
    getData env c s = (Completion.resolved cached.data, s) := by
  simp only [getData, hl, if_pos hf]

/-- After a call in which an attempt returned the truthy payload `p` at time `T`, the
cache entry is `p` stamped `T` and the clock still shows `T`. -/
theorem fetch_returned_entry (env : Env) (c : String) (s : Service) (T : Nat) (p : Payload)
    (hcall : Call.mk c T (Outcome.returned p) ∈
      (fetchCategoryData env c s).2.calls.drop s.calls.length)
    (hp : truthy p = true) :
    lookup c (fetchCategoryData env c s).2.cache = some (CacheEntry.mk p T) ∧
    (fetchCategoryData env c s).2.now = T ∧
    (fetchCategoryData env c s).2.emitted = s.emitted ++ [Event.mk c p] := by
  obtain ⟨tr, htr, hprop⟩ := retryLoop_history env c s.maxRetries 0 s
  obtain ⟨tr2, htr2, hnow⟩ := retryLoop_returned_now env c s.maxRetries 0 s
  have e : tr2 = tr := List.append_cancel_left (htr2.symm.trans htr)
  subst e
  have hdrop : (fetchCategoryData env c s).2.calls.drop s.calls.length = tr2 := by
    simp only [fetchCategoryData]
    rw [htr]
    simp
  rw [hdrop] at hcall
  exact ⟨(hprop T p hcall hp).1, hnow T p hcall, (hprop T p hcall hp).2.2⟩

/-! ## Delivery of events to the sockets -/

/-- Every event a run of the loop emits carries the category of the call. -/
theorem retryLoop_events (env : Env) (c : String) (fuel r : Nat) (s : Service) :
    ∃ evs, (retryLoop env c fuel r s).emitted = s.emitted ++ evs ∧
      ∀ e ∈ evs, e.category = c := by
  refine retryLoop_induct env c
    (fun _ s t => ∃ evs, t.emitted = s.emitted ++ evs ∧ ∀ e ∈ evs, e.category = c)
    ?_ ?_ ?_ fuel r s
  · intro _ s
    exact ⟨[], by simp, fun _ h => by simp at h⟩
  · intro _ s p _ _
    have h := dispatch_same env c s
    split
    · refine ⟨[Event.mk c p], ?_, ?_⟩
      · show (dispatch env c s).2.emitted ++ _ = _
        rw [h.2.2.1]
      · intro e he
        rw [List.mem_singleton] at he
        rw [he]
    · exact ⟨[], by rw [h.2.2.1]; simp, fun _ h => by simp at h⟩
  · intro r s m t _ _ ht
    obtain ⟨evs, h1, h2⟩ := ht
    have h := (dispatch_same env c s).trans (catchBlock_same c (r + 1) m _)
    exact ⟨evs, by rw [h1, h.2.2.1], h2⟩

theorem onDataUpdate_getElem (clients : List Client) (e : Event) (i : Nat) :
    (onDataUpdate clients e)[i]? = (clients[i]?).map (fun client =>
      if client.readyState = ReadyState.OPEN ∧ client.category = some e.category then
        { client with received := client.received ++ [WsMessage.update e.category e.data] }
      else client) := by
  simp only [onDataUpdate, List.getElem?_map]

/-- What the listener has sent to an open socket subscribed to `c` once a list of events
has gone through it: one update per event of category `c`, in order. -/
theorem listener_delivers (c : String) (i : Nat) :
    ∀ (evs : List Event) (clients : List Client) (client : Client),
      clients[i]? = some client → client.readyState = ReadyState.OPEN →
      client.category = some c →
      (evs.foldl onDataUpdate clients)[i]? =
        some { client with received := client.received ++ updatesFor c evs } := by
  intro evs
  induction evs with
  | nil =>
    intro clients client hi _ _
    simp [hi, updatesFor]
  | cons e rest ih =>
    intro clients client hi hopen hcat
    rw [List.foldl_cons]
    by_cases he : e.category = c
    · have hstep : (onDataUpdate clients e)[i]? = some { client with
          received := client.received ++ [WsMessage.update e.category e.data] } := by
        rw [onDataUpdate_getElem, hi]
        simp [hopen, hcat, he]
      rw [ih _ _ hstep hopen hcat]
      simp [he, updatesFor]
    · have hstep : (onDataUpdate clients e)[i]? = some client := by
        rw [onDataUpdate_getElem, hi]
        have : ¬ (some c = some e.category) := fun h => he (Option.some.inj h).symm
        simp [hcat, this]
      rw [ih _ _ hstep hopen hcat]
      simp [he, updatesFor]

/-! ## The `data` object and its keys -/

theorem assign_mem {α : Type} (k : String) (v : α) (m : List (String × α))
    (kv : String × α) (h : kv ∈ assign k v m) : kv = (k, v) ∨ kv ∈ m := by
  induction m with
  | nil =>
    simp only [assign, List.mem_singleton] at h
    exact Or.inl h
  | cons x rest ih =>
    obtain ⟨k', v'⟩ := x
    simp only [assign] at h
    split at h
    · rename_i hk
      rcases List.mem_cons.mp h with h1 | h1
      · left; rw [h1, hk]
      · right; exact List.mem_cons_of_mem _ h1
    · rcases List.mem_cons.mp h with h1 | h1
      · right; rw [h1]; exact List.mem_cons_self _ _
      · rcases ih h1 with h2 | h2
        · exact Or.inl h2
        · exact Or.inr (List.mem_cons_of_mem _ h2)

theorem lookup_of_mem {α : Type} (k : String) (v : α) :
    ∀ (m : List (String × α)), (m.map Prod.fst).Nodup → (k, v) ∈ m → lookup k m = some v := by
  intro m
  induction m with
  | nil => intro _ h; simp at h
  | cons x rest ih =>
    intro hn hm
    obtain ⟨k', v'⟩ := x
    simp only [List.map_cons, List.nodup_cons] at hn
    rcases List.mem_cons.mp hm with h1 | h1
    · simp only [Prod.mk.injEq] at h1
      simp only [lookup, h1.1, h1.2, if_true]
    · have hne : ¬ k' = k := by
        intro e
        apply hn.1
        rw [e]
        exact List.mem_map_of_mem Prod.fst h1
      simp only [lookup, if_neg hne]
      exact ih hn.2 h1

theorem lookup_isSome_iff {α : Type} (k : String) (m : List (String × α)) :
    (lookup k m).isSome = true ↔ k ∈ m.map Prod.fst := by
  induction m with
  | nil => simp [lookup]
  | cons x rest ih =>
    obtain ⟨k', v'⟩ := x
    by_cases hk : k' = k
    · simp [lookup, hk]
    · have hk2 : ¬ k = k' := fun e => hk e.symm
      simp [lookup, hk, hk2, ih]

theorem dataSet_clean (c : String) (p : Payload) (data : List (String × Payload))
    (hp : truthy p = true)
    (h : (data.map Prod.fst).Nodup ∧ "__proto__" ∉ data.map Prod.fst ∧
      ∀ kv ∈ data, truthy kv.2 = true) :
    ((dataSet c p data).map Prod.fst).Nodup ∧ "__proto__" ∉ (dataSet c p data).map Prod.fst ∧
      ∀ kv ∈ dataSet c p data, truthy kv.2 = true := by
  unfold dataSet
  split
  · exact h
  · rename_i hc
    refine ⟨assign_keys_nodup c p data h.1, ?_, ?_⟩
    · rw [assign_keys]
      split
      · exact h.2.1
      · intro hm
        rcases List.mem_append.mp hm with h1 | h1
        · exact h.2.1 h1
        · rw [List.mem_singleton] at h1
          exact hc h1.symm
    · intro kv hkv
      rcases assign_mem c p data kv hkv with h1 | h1
      · rw [h1]; exact hp
      · exact h.2.2 kv h1

theorem dataClean_of_same {s t : Service} (h : SameStores s t) (hs : DataClean s) :
    DataClean t := by
  unfold DataClean
  rw [h.1]
  exact hs

theorem retryLoop_dataClean (env : Env) (c : String) (fuel r : Nat) (s : Service) :
    DataClean s → DataClean (retryLoop env c fuel r s) := by
  refine retryLoop_induct env c (fun _ s t => DataClean s → DataClean t) ?_ ?_ ?_ fuel r s
  · intro _ s h; exact h
  · intro _ s p _ _ hs
    have h1 : DataClean (dispatch env c s).2 := dataClean_of_same (dispatch_same env c s) hs
    split
    · rename_i ht
      exact dataSet_clean c p _ ht h1
    · exact h1
  · intro r s m t _ _ ht hs
    exact ht (dataClean_of_same
      ((dispatch_same env c s).trans (catchBlock_same c (r + 1) m _)) hs)

theorem sweep_dataClean (env : Env) :
    ∀ (cats : List String) (s : Service), DataClean s →
      DataClean (cats.foldl (sweepStep env) s) := by
  intro cats
  induction cats with
  | nil => intro s h; exact h
  | cons c rest ih =>
    intro s h
    exact ih _ (retryLoop_dataClean env c s.maxRetries 0 s h)

theorem reachable_dataClean {s : Service} (h : Reachable s) : DataClean s := by
  induction h with
  | init t => exact ⟨by simp [constructor], by simp [constructor], by simp [constructor]⟩
  | idle ms _ ih => exact ih
  | @fetch env c s0 _ ih =>
    show DataClean (retryLoop env c s0.maxRetries 0 s0)
    exact retryLoop_dataClean env c _ 0 _ ih
  | @sweep env s0 _ ih =>
    rw [fetchAllData_snd]
    exact sweep_dataClean env _ _ ih
  | @read env c s0 _ ih =>
    rcases getData_state env c s0 with h | h
    · rw [h]; exact ih
    · exact dataClean_of_same h.1 (retryLoop_dataClean env c _ 0 _ ih)

theorem insertIndexKey_perm (k : String × Nat) (l : List (String × Nat)) :
    (insertIndexKey k l).Perm (k :: l) := by
  induction l with
  | nil => exact List.Perm.refl _
  | cons x rest ih =>
    simp only [insertIndexKey]
    split
    · exact List.Perm.refl _
    · exact (List.Perm.cons x ih).trans (List.Perm.swap k x rest)

theorem sortIndexKeys_perm (l : List (String × Nat)) :
    (l.foldr insertIndexKey []).Perm l := by
  induction l with
  | nil => exact List.Perm.refl _
  | cons x rest ih =>
    rw [List.foldr_cons]
    exact (insertIndexKey_perm x _).trans (List.Perm.cons x ih)

theorem indexed_keys (obj : List (String × Payload)) :
    (obj.filterMap (fun kv => (arrayIndex kv.1).map (fun n => (kv.1, n)))).map Prod.fst
      = (obj.filter (fun kv => (arrayIndex kv.1).isSome)).map Prod.fst := by
  induction obj with
  | nil => rfl
  | cons x rest ih =>
    cases hx : arrayIndex x.1 with
    | none => simp [List.filterMap_cons, List.filter_cons, hx, ih]
    | some n => simp [List.filterMap_cons, List.filter_cons, hx, ih]

/-- `Object.keys` enumerates exactly the own keys, each as often as it is there. -/
theorem objectKeys_perm (obj : List (String × Payload)) :
    (objectKeys obj).Perm (obj.map Prod.fst) := by
  unfold objectKeys
  have h1 := (sortIndexKeys_perm
    (obj.filterMap (fun kv => (arrayIndex kv.1).map (fun n => (kv.1, n))))).map Prod.fst
  rw [indexed_keys] at h1
  have h2 : ((obj.filter (fun kv => (arrayIndex kv.1).isSome)).map Prod.fst ++
      (obj.filter (fun kv => (arrayIndex kv.1).isNone)).map Prod.fst).Perm
      (obj.map Prod.fst) := by
    rw [← List.map_append]
    apply List.Perm.map
    have h3 := List.filter_append_perm (fun kv : String × Payload => (arrayIndex kv.1).isSome) obj
    have e : (fun kv : String × Payload => (arrayIndex kv.1).isNone)
        = (fun kv => !(arrayIndex kv.1).isSome) := by
      funext kv
      cases arrayIndex kv.1 <;> rfl
    rw [e]
    exact h3
  exact (List.Perm.append_right _ h1).trans h2

/-! ## Bulk read -/

/-- In a reachable state a read of a registered category resolves with a truthy
payload. -/
theorem getData_registered (env : Env) (c : String) (s : Service) (hs : Reachable s)
    (hc : c ∈ getCategories) :
    ∃ p, (getData env c s).1 = Completion.resolved p ∧ truthy p = true := by
  unfold getData
  split
  · rename_i cached hl
    split
    · exact ⟨cached.data, rfl, (reachable_storesAgree hs c cached hl).1⟩
    · exact getDataSlow_registered env c s hc
  · exact getDataSlow_registered env c s hc

theorem multiStep_registered (env : Env) (acc : List (String × MultiEntry)) (s : Service)
    (c : String) (hs : Reachable s) (hc : c ∈ getCategories) :
    ∃ e, Succeeded e ∧
      multiStep env (acc, s) c = (assign c e acc, (getData env c s).2) := by
  obtain ⟨p, hp, ht⟩ := getData_registered env c s hs hc
  rcases hg : getData env c s with ⟨o, s1⟩
  rw [hg] at hp
  simp only at hp
  subst hp
  refine ⟨MultiEntry.mk true (some p) (some s1.now) (some (dataCount p)) none, ?_, ?_⟩
  · exact ⟨rfl, rfl, p, rfl, ht, rfl⟩
  · simp only [multiStep, hg]

/-- The loop of `POST /multi` over registered categories, from a reachable state: every
result reports success, and the keys of the results are those already there and the
categories of the list, each once. -/
theorem multi_loop (env : Env) :
    ∀ (cats : List String) (acc : List (String × MultiEntry)) (s : Service),
      Reachable s → (∀ c ∈ cats, c ∈ getCategories) → (acc.map Prod.fst).Nodup →
      (∀ kv ∈ acc, Succeeded kv.2) →
      Reachable (cats.foldl (multiStep env) (acc, s)).2 ∧
      ((cats.foldl (multiStep env) (acc, s)).1.map Prod.fst).Nodup ∧
      (∀ kv ∈ (cats.foldl (multiStep env) (acc, s)).1, Succeeded kv.2) ∧
      (∀ c, c ∈ (cats.foldl (multiStep env) (acc, s)).1.map Prod.fst ↔
        c ∈ acc.map Prod.fst ∨ c ∈ cats) := by
  intro cats
  induction cats with
  | nil =>
    intro acc s hs _ hn hg
    exact ⟨hs, hn, hg, fun c => by simp⟩
  | cons c rest ih =>
    intro acc s hs hreg hn hg
    obtain ⟨e, he, hstep⟩ := multiStep_registered env acc s c hs (hreg c (List.mem_cons_self _ _))
    rw [List.foldl_cons, hstep]
    obtain ⟨i1, i2, i3, i4⟩ := ih (assign c e acc) (getData env c s).2
      (Reachable.read env c hs) (fun d hd => hreg d (List.mem_cons_of_mem _ hd))
      (assign_keys_nodup c e acc hn)
      (by
        intro kv hkv
        rcases assign_mem c e acc kv hkv with h | h
        · rw [h]; exact he
        · exact hg kv h)
    refine ⟨i1, i2, i3, ?_⟩
    intro d
    rw [i4 d, assign_keys]
    split
    · rename_i hmem
      constructor
      · rintro (h | h)
        · exact Or.inl h
        · exact Or.inr (List.mem_cons_of_mem _ h)
      · rintro (h | h)
        · exact Or.inl h
        · rcases List.mem_cons.mp h with rfl | h
          · exact Or.inl hmem
          · exact Or.inr h
    · constructor
      · rintro (h | h)
        · rcases List.mem_append.mp h with h | h
          · exact Or.inl h
          · rw [List.mem_singleton] at h
            exact Or.inr (h ▸ List.mem_cons_self _ _)
        · exact Or.inr (List.mem_cons_of_mem _ h)
      · rintro (h | h)
        · exact Or.inl (List.mem_append_left _ h)
        · rcases List.mem_cons.mp h with rfl | h
          · exact Or.inl (List.mem_append_right _ (List.mem_singleton_self _))
          · exact Or.inr h

/-! ## Writes and notifications as one history -/

theorem effectsOf_append (ws : List Write) (w : Write) :
    effectsOf (ws ++ [w]) = effectsOf ws ++
      [Effect.dataSet w.category w.data,
       Effect.cacheSet w.category (CacheEntry.mk w.data w.time),
       Effect.emit w.category w.data] := by
  simp [effectsOf]

theorem eventsOf_append (ws : List Write) (w : Write) :
    eventsOf (ws ++ [w]) = eventsOf ws ++ [Event.mk w.category w.data] := by
  simp [eventsOf]

theorem paired_of_same {s t : Service} (h : SameStores s t) (he : t.effects = s.effects)
    (hs : Paired s) : Paired t := by
  obtain ⟨ws, h1, h2⟩ := hs
  exact ⟨ws, by rw [he, h1], by rw [h.2.2.1, h2]⟩

theorem generateMockData_effects (env : Env) (c : String) (s : Service) :
    (generateMockData env c s).2.effects = s.effects := by
  unfold generateMockData
  split
  · rfl
  · split <;> rfl

theorem dispatch_effects (env : Env) (c : String) (s : Service) :
    (dispatch env c s).2.effects = s.effects := by
  unfold dispatch
  split
  · rfl
  · exact generateMockData_effects env c s

theorem catchBlock_effects (c : String) (r : Nat) (m : String) (s : Service) :
    (catchBlock c r m s).effects = s.effects := by
  unfold catchBlock
  dsimp only
  split <;> rfl

theorem retryLoop_paired (env : Env) (c : String) (fuel r : Nat) (s : Service) :
    Paired s → Paired (retryLoop env c fuel r s) := by
  refine retryLoop_induct env c (fun _ s t => Paired s → Paired t) ?_ ?_ ?_ fuel r s
  · intro _ s h; exact h
  · intro _ s p _ _ hs
    have h1 : Paired (dispatch env c s).2 :=
      paired_of_same (dispatch_same env c s) (dispatch_effects env c s) hs
    split
    · obtain ⟨ws, e1, e2⟩ := h1
      refine ⟨ws ++ [Write.mk c p (dispatch env c s).2.now], ?_, ?_⟩
      · rw [effectsOf_append]
        show (dispatch env c s).2.effects ++ _ = _
        rw [e1]
      · rw [eventsOf_append]
        show (dispatch env c s).2.emitted ++ _ = _
        rw [e2]
    · exact h1
  · intro r s m t _ _ ht hs
    apply ht
    exact paired_of_same ((dispatch_same env c s).trans (catchBlock_same c (r + 1) m _))
      ((catchBlock_effects c (r + 1) m _).trans (dispatch_effects env c s)) hs

theorem sweep_paired (env : Env) :
    ∀ (cats : List String) (s : Service), Paired s → Paired (cats.foldl (sweepStep env) s) := by
  intro cats
  induction cats with
  | nil => intro s h; exact h
  | cons c rest ih =>
    intro s h
    exact ih _ (retryLoop_paired env c s.maxRetries 0 s h)

/-- The effects of the state after `getData` are those of the state after the refresh
it ran, if it ran one. -/
theorem getData_effects (env : Env) (c : String) (s : Service) :
    (getData env c s).2 = s ∨
    (getData env c s).2.effects = (fetchCategoryData env c s).2.effects := by
  have hslow : (getDataSlow env c s).2 = s ∨
      (getDataSlow env c s).2.effects = (fetchCategoryData env c s).2.effects := by
    unfold getDataSlow
    split
    · exact Or.inl rfl
    · right
      simp only [fetchCategoryData]
      split
      · rfl
      · have h := generateMockData_effects env c (retryLoop env c s.maxRetries 0 s)
        rcases hg : generateMockData env c (retryLoop env c s.maxRetries 0 s) with ⟨o, s2⟩
        rw [hg] at h
        cases o <;> exact h
  unfold getData
  split
  · split
    · exact Or.inl rfl
    · exact hslow
  · exact hslow

theorem reachable_paired {s : Service} (h : Reachable s) : Paired s := by
  induction h with
  | init t => exact ⟨[], rfl, rfl⟩
  | idle ms _ ih => exact paired_of_same ⟨rfl, rfl, rfl, rfl, rfl, rfl⟩ rfl ih
  | @fetch env c s0 _ ih =>
    show Paired (retryLoop env c s0.maxRetries 0 s0)
    exact retryLoop_paired env c _ 0 _ ih
  | @sweep env s0 _ ih =>
    rw [fetchAllData_snd]
    exact sweep_paired env _ _ ih
  | @read env c s0 _ ih =>
    rcases getData_state env c s0 with h | h
    · rw [h]; exact ih
    · rcases getData_effects env c s0 with h2 | h2
      · rw [h2]; exact ih
      · exact paired_of_same h.1 h2 (retryLoop_paired env c _ 0 _ ih)

theorem cacheWritesFor_effectsOf (c : String) (ws : List Write) :
    cacheWritesFor c (effectsOf ws) = eventPayloadsFor c (eventsOf ws) ∧
    notificationsFor c (effectsOf ws) = eventPayloadsFor c (eventsOf ws) := by
  induction ws with
  | nil => exact ⟨rfl, rfl⟩
  | cons w rest ih =>
    have e1 : effectsOf (w :: rest) =
        [Effect.dataSet w.category w.data,
         Effect.cacheSet w.category (CacheEntry.mk w.data w.time),
         Effect.emit w.category w.data] ++ effectsOf rest := by
      simp [effectsOf]
    have e2 : eventsOf (w :: rest) = Event.mk w.category w.data :: eventsOf rest := rfl
    rw [e1, e2]
    unfold cacheWritesFor notificationsFor eventPayloadsFor at ih ⊢
    by_cases hc : w.category = c
    · simp [hc, ih.1, ih.2]
    · simp [hc, ih.1, ih.2]

/-! ## The two stores hold the same keys -/

theorem lookup_assign {α : Type} (k d : String) (v : α) (m : List (String × α)) :
    lookup d (assign k v m) = if d = k then some v else lookup d m := by
  by_cases h : d = k
  · rw [if_pos h, h, lookup_assign_self]
  · rw [if_neg h, lookup_assign_of_ne k d v m h]

theorem storesMatch_of_same {s t : Service} (h : SameStores s t) (hs : StoresMatch s) :
    StoresMatch t := by
  intro c
  rw [h.1, h.2.1]
  exact hs c

theorem retryLoop_storesMatch (env : Env) (c : String) (fuel r : Nat) (s : Service) :
    StoresMatch s → StoresMatch (retryLoop env c fuel r s) := by
  refine retryLoop_induct env c (fun _ s t => StoresMatch s → StoresMatch t) ?_ ?_ ?_ fuel r s
  · intro _ s h; exact h
  · intro _ s p _ hp hs
    have h1 : StoresMatch (dispatch env c s).2 := storesMatch_of_same (dispatch_same env c s) hs
    split
    · intro d
      have hne : c ≠ "__proto__" := dispatch_returned_ne_proto env c s p hp
      show (lookup d (assign c (CacheEntry.mk p (dispatch env c s).2.now)
          (dispatch env c s).2.cache)).map CacheEntry.data
        = lookup d (dataSet c p (dispatch env c s).2.data)
      simp only [dataSet, if_neg hne, lookup_assign]
      split
      · rfl
      · exact h1 d
    · exact h1
  · intro r s m t _ _ ht hs
    exact ht (storesMatch_of_same
      ((dispatch_same env c s).trans (catchBlock_same c (r + 1) m _)) hs)

theorem sweep_storesMatch (env : Env) :
    ∀ (cats : List String) (s : Service), StoresMatch s →
      StoresMatch (cats.foldl (sweepStep env) s) := by
  intro cats
  induction cats with
  | nil => intro s h; exact h
  | cons c rest ih =>
    intro s h
    exact ih _ (retryLoop_storesMatch env c s.maxRetries 0 s h)

theorem reachable_storesMatch {s : Service} (h : Reachable s) : StoresMatch s := by
  induction h with
  | init t => intro c; rfl
  | idle ms _ ih => exact ih
  | @fetch env c s0 _ ih =>
    show StoresMatch (retryLoop env c s0.maxRetries 0 s0)
    exact retryLoop_storesMatch env c _ 0 _ ih
  | @sweep env s0 _ ih =>
    rw [fetchAllData_snd]
    exact sweep_storesMatch env _ _ ih
  | @read env c s0 _ ih =>
    rcases getData_state env c s0 with h | h
    · rw [h]; exact ih
    · exact storesMatch_of_same h.1 (retryLoop_storesMatch env c _ 0 _ ih)

theorem sweep_keeps (env : Env) (d : String) :
    ∀ (cats : List String) (s : Service), (lookup d s.cache).isSome = true →
      (lookup d (cats.foldl (sweepStep env) s).cache).isSome = true := by
  intro cats
  induction cats with
  | nil => intro s h; exact h
  | cons c rest ih =>
    intro s h
    exact ih _ (retryLoop_keeps env c d s.maxRetries 0 s h)

theorem getData_keeps (env : Env) (c d : String) (s : Service)
    (h : (lookup d s.cache).isSome = true) :
    (lookup d (getData env c s).2.cache).isSome = true := by
  rcases getData_state env c s with h1 | h1
  · rw [h1]; exact h
  · rw [h1.1.2.1]
    exact retryLoop_keeps env c d s.maxRetries 0 s h

/-- A read of a category that has an entry, in a state where the stores agree, returns
the stored payload and changes nothing, whatever the clock shows. -/
theorem getData_entry (env : Env) (c : String) (s : Service) (cached : CacheEntry)
    (hs : StoresAgree s) (hl : lookup c s.cache = some cached) :
    getData env c s = (Completion.resolved cached.data, s) := by
  obtain ⟨h1, h2⟩ := hs c cached hl
  simp only [getData, hl]
  split
  · rfl
  · simp only [getDataSlow, h2, h1, if_true]

/-! ## Reads after an exhausted refresh, falsy payloads, and the dispatch -/

theorem switchCases_not_generated : ∀ c ∈ switchCases, c ∉ generatorKeys := by decide

theorem switchCases_not_inherited : ∀ c ∈ switchCases, c ∉ objectPrototypeKeys := by decide

/-- For a switch case the synthesizer returns the generic record and changes nothing. -/
theorem generateMockData_switchCase (env : Env) (c : String) (s : Service)
    (hc : c ∈ switchCases) :
    generateMockData env c s = (Outcome.returned (generateGenericMockData c s.now), s) := by
  simp only [generateMockData, if_neg (switchCases_not_generated c hc),
    if_neg (switchCases_not_inherited c hc)]

/-- A read of a category without entry and without data, all of whose fetch attempts
fail: the refresh runs to exhaustion and the result is what `generateMockData` gives in
the state the refresh has left. -/
theorem getData_exhausted (env : Env) (c : String) (s : Service)
    (hnoentry : lookup c s.cache = none) (hnodata : truthy (dataGet c s.data) = false)
    (hfail : ∀ i, i < s.maxRetries → FailsAt env c (s.attempts + i)) :
    getData env c s =
      match generateMockData env c (retryLoop env c s.maxRetries 0 s) with
      | (Outcome.returned v, s2) => (Completion.resolved v, s2)
      | (Outcome.threw message, s2) => (Completion.rejected message, s2) := by
  have hsame := (retryLoop_all_fail env c s hfail).1
  have h1 : ¬ (truthy (dataGet c s.data) = true) := by rw [hnodata]; decide
  have h2 : ¬ (truthy (dataGet c (retryLoop env c s.maxRetries 0 s).data) = true) := by
    rw [hsame.1]; exact h1
  simp only [getData, hnoentry, getDataSlow, if_neg h1, fetchCategoryData, if_neg h2]

/-- What the state after such a read shares with the state before it. -/
theorem getData_exhausted_state (env : Env) (c : String) (s : Service)
    (hnoentry : lookup c s.cache = none) (hnodata : truthy (dataGet c s.data) = false)
    (hfail : ∀ i, i < s.maxRetries → FailsAt env c (s.attempts + i)) :
    SameStores s (getData env c s).2 ∧
    (getData env c s).2.attempts = s.attempts + s.maxRetries ∧
    (getData env c s).1 =
      (match (generateMockData env c (fetchCategoryData env c s).2).1 with
      | Outcome.returned v => Completion.resolved v
      | Outcome.threw message => Completion.rejected message) := by
  have hall := retryLoop_all_fail env c s hfail
  have hg := generateMockData_same env c (retryLoop env c s.maxRetries 0 s)
  rw [getData_exhausted env c s hnoentry hnodata hfail]
  simp only [fetchCategoryData]
  rcases hgm : generateMockData env c (retryLoop env c s.maxRetries 0 s) with ⟨o, s2⟩
  rw [hgm] at hg
  simp only at hg
  cases o with
  | threw m =>
    refine ⟨hall.1.trans hg.1, ?_, rfl⟩
    show s2.calls.length = _
    rw [hg.2.2.1]
    exact hall.2.1
  | returned v =>
    refine ⟨hall.1.trans hg.1, ?_, rfl⟩
    show s2.calls.length = _
    rw [hg.2.2.1]
    exact hall.2.1

/-- What a run of the loop leaves behind when one of its attempts returned a falsy
value: that attempt is the last one, and the stores and the history of writes are as
before. -/
theorem retryLoop_falsy (env : Env) (c : String) (fuel r : Nat) (s : Service) :
    ∃ tr, (retryLoop env c fuel r s).calls = s.calls ++ tr ∧
      ∀ T p, Call.mk c T (Outcome.returned p) ∈ tr → truthy p = false →
        SameStores s (retryLoop env c fuel r s) ∧
        (retryLoop env c fuel r s).effects = s.effects ∧
        tr.getLast? = some (Call.mk c T (Outcome.returned p)) := by
  refine retryLoop_induct env c
    (fun _ s t => ∃ tr, t.calls = s.calls ++ tr ∧
      ∀ T p, Call.mk c T (Outcome.returned p) ∈ tr → truthy p = false →
        SameStores s t ∧ t.effects = s.effects ∧
        tr.getLast? = some (Call.mk c T (Outcome.returned p))) ?_ ?_ ?_ fuel r s
  · intro _ s
    exact ⟨[], by simp, fun _ _ h => by simp at h⟩
  · intro _ s q _ hq
    have hcalls := dispatch_calls env c s
    rw [hq] at hcalls
    refine ⟨[Call.mk c (dispatch env c s).2.now (Outcome.returned q)], ?_, ?_⟩
    · split
      · exact hcalls
      · exact hcalls
    · intro T p hmem hp
      simp only [List.mem_singleton, Call.mk.injEq, Outcome.returned.injEq, true_and] at hmem
      obtain ⟨hT, hpq⟩ := hmem
      subst hT
      subst hpq
      have hne : ¬ (truthy p = true) := by rw [hp]; decide
      rw [if_neg hne]
      exact ⟨dispatch_same env c s, dispatch_effects env c s, rfl⟩
  · intro r s m t _ hm ht
    obtain ⟨tr, htr, hprop⟩ := ht
    have hsame := (dispatch_same env c s).trans (catchBlock_same c (r + 1) m _)
    have heff := (catchBlock_effects c (r + 1) m _).trans (dispatch_effects env c s)
    have hcalls := dispatch_calls env c s
    rw [hm] at hcalls
    refine ⟨Call.mk c (dispatch env c s).2.now (Outcome.threw m) :: tr, ?_, ?_⟩
    · rw [htr, catchBlock_calls, hcalls]
      simp
    · intro T p hmem hp
      have hmem2 : Call.mk c T (Outcome.returned p) ∈ tr := by
        rcases List.mem_cons.mp hmem with h | h
        · simp at h
        · exact h
      obtain ⟨h1, h2, h3⟩ := hprop T p hmem2 hp
      refine ⟨hsame.trans h1, h2.trans heff, ?_⟩
      cases tr with
      | nil => simp at hmem2
      | cons y rest => rw [List.getLast?_cons_cons]; exact h3

/-- An id that is neither a switch case, nor a table key, nor an inherited property name
gets the generic record from the default branch, in one attempt. -/
theorem dispatch_generic (env : Env) (c : String) (s : Service) (h1 : c ∉ switchCases)
    (h2 : c ∉ generatorKeys) (h3 : c ∉ objectPrototypeKeys) :
    dispatch env c s =
      (Outcome.returned (generateGenericMockData c s.now),
        { s with calls := s.calls ++
          [Call.mk c s.now (Outcome.returned (generateGenericMockData c s.now))] }) := by
  simp only [dispatch, generateMockData, if_neg h1, if_neg h2, if_neg h3]

/-- A table key gets the result of its generator from the default branch. -/
theorem dispatch_generated (env : Env) (c : String) (s : Service) (h1 : c ∉ switchCases)
    (h2 : c ∈ generatorKeys) :
    (dispatch env c s).1 = Outcome.returned (env.generator c s.draws).toPayload ∧
    (dispatch env c s).2.now = s.now := by
  simp only [dispatch, generateMockData, if_neg h1, if_pos h2, and_self]

/-- A switch case gets what its fetcher does. -/
theorem dispatch_switchCase (env : Env) (c : String) (s : Service) (h1 : c ∈ switchCases) :
    (dispatch env c s).1 = (env.fetcher c s.attempts).outcome := by
  simp only [dispatch, if_pos h1]

theorem toPayload_truthy (o : MockObj) : truthy o.toPayload = true := by
  cases o <;> rfl

/-- With a positive budget, a call whose first attempt returns a truthy value stores it,
stamped with the time the attempt ended. -/
theorem fetch_first_returned (env : Env) (c : String) (s : Service) (p : Payload)
    (h0 : 0 < s.maxRetries) (hp : (dispatch env c s).1 = Outcome.returned p)
    (ht : truthy p = true) :
    lookup c (fetchCategoryData env c s).2.cache
      = some (CacheEntry.mk p (dispatch env c s).2.now) := by
  obtain ⟨n, hn⟩ : ∃ n, s.maxRetries = n + 1 := ⟨s.maxRetries - 1, by omega⟩
  simp only [fetchCategoryData]
  rw [hn, retryLoop_returned env c n 0 s p h0 hp, if_pos ht]
  show lookup c (assign c _ _) = _
  rw [lookup_assign_self]

/-- In a reachable state a category without cache entry, other than an inherited
property name, has no value in `data` either. -/
theorem reachable_no_entry_no_data {s : Service} (hr : Reachable s) (c : String)
    (hc : c ∉ objectPrototypeKeys) (hl : lookup c s.cache = none) :
    dataGet c s.data = Payload.undefined := by
  have hm := reachable_storesMatch hr c
  rw [hl] at hm
  have hne : c ≠ "__proto__" := by
    intro h
    apply hc
    rw [h]
    decide
  simp only [dataGet, if_neg hne, ← hm, Option.map_none', if_neg hc]

/-- The new calls of `fetchCategoryData`, cut out of the history. -/
theorem fetch_new_calls (env : Env) (c : String) (s : Service) (tr : List Call)
    (h : (retryLoop env c s.maxRetries 0 s).calls = s.calls ++ tr) :
    (fetchCategoryData env c s).2.calls.drop s.calls.length = tr := by
  simp only [fetchCategoryData]
  rw [h]
  simp

/-! ## Double arithmetic and the option indexes -/

theorem roundHalfEven_le (y : ℚ) : (roundHalfEven y : ℚ) ≤ y + 1 / 2 := by
  have h1 := Int.floor_le y
  unfold roundHalfEven
  split
  · linarith
  · split
    · have := Int.lt_floor_add_one y
      push_cast
      linarith
    · rename_i h2 h3
      have h4 : y - ⌊y⌋ = 1 / 2 := le_antisymm (not_lt.mp h3) (not_lt.mp h2)
      split
      · linarith
      · push_cast
        linarith

theorem roundHalfEven_nonneg (y : ℚ) (hy : 0 ≤ y) : 0 ≤ roundHalfEven y := by
  have h0 : 0 ≤ ⌊y⌋ := Int.floor_nonneg.mpr hy
  unfold roundHalfEven
  split
  · exact h0
  · split
    · omega
    · split
      · exact h0
      · omega

theorem roundDouble_nonneg (q : ℚ) (hq : 0 ≤ q) : 0 ≤ roundDouble q := by
  unfold roundDouble
  have hu : (0 : ℚ) < 2 ^ (binade q - 52) := zpow_pos (by norm_num) _
  have hk := roundHalfEven_nonneg (q / 2 ^ (binade q - 52)) (div_nonneg hq hu.le)
  have hk2 : (0 : ℚ) ≤ (roundHalfEven (q / 2 ^ (binade q - 52)) : ℚ) := by exact_mod_cast hk
  exact mul_nonneg hk2 hu.le

theorem lt_zpow_binade (q : ℚ) (hq : 0 ≤ q) : q < 2 ^ (binade q + 1) := by
  have h1 : q < (2 : ℚ) ^ (Int.log 2 q + 1) := by
    have := Int.lt_zpow_succ_log_self (b := 2) (by norm_num) q
    exact_mod_cast this
  have h2 : Int.log 2 q + 1 ≤ binade q + 1 := by
    unfold binade
    rw [abs_of_nonneg hq]
    have := le_max_left (Int.log 2 q) (-1022)
    omega
  exact lt_of_lt_of_le h1 (zpow_le_zpow_right₀ (by norm_num) h2)

theorem roundDouble_le_add (q : ℚ) :
    roundDouble q ≤ q + 2 ^ (binade q - 52) / 2 := by
  have hu : (0 : ℚ) < 2 ^ (binade q - 52) := zpow_pos (by norm_num) _
  have hk := roundHalfEven_le (q / 2 ^ (binade q - 52))
  have h := mul_le_mul_of_nonneg_right hk hu.le
  have e : (q / 2 ^ (binade q - 52) + 1 / 2) * 2 ^ (binade q - 52)
      = q + 2 ^ (binade q - 52) / 2 := by
    field_simp
    ring
  unfold roundDouble
  linarith

theorem binade_le (q : ℚ) (hq : 0 < q) (E : ℤ) (hE1 : -1022 ≤ E)
    (h : q < 2 ^ (E + 1)) : binade q ≤ E := by
  have h1 : (2 : ℚ) ^ Int.log 2 q ≤ q := by
    have := Int.zpow_log_le_self (b := 2) (by norm_num) hq
    exact_mod_cast this
  have h2 : (2 : ℚ) ^ Int.log 2 q < 2 ^ (E + 1) := lt_of_le_of_lt h1 h
  have h3 : Int.log 2 q < E + 1 := (zpow_lt_zpow_iff_right₀ (by norm_num)).mp h2
  unfold binade
  rw [abs_of_pos hq]
  exact max_le (by omega) hE1

/-- Rounding cannot reach `n`: if `2^E < n ≤ 2^(E+1)` and `0 ≤ q ≤ n * (1 - 2^(-53))`
then the double nearest to `q` is below `n`. -/
theorem roundDouble_lt (n : ℕ) (E : ℤ) (hE1 : -1022 ≤ E)
    (hlo : (2 : ℚ) ^ E < n) (hhi : (n : ℚ) ≤ 2 ^ (E + 1)) (q : ℚ) (hq0 : 0 ≤ q)
    (hq : q ≤ n * (1 - 2 ^ (-53 : ℤ))) : roundDouble q < n := by
  have hnpos : (0 : ℚ) < n := lt_trans (zpow_pos (by norm_num) E) hlo
  have hc : (0 : ℚ) < 2 ^ (-53 : ℤ) := zpow_pos (by norm_num) _
  rcases eq_or_lt_of_le hq0 with h0 | hpos
  · rw [← h0]
    have : roundDouble 0 = 0 := by simp [roundDouble, roundHalfEven]
    rw [this]
    exact hnpos
  have hqn : q < n := by nlinarith
  have hb : binade q ≤ E := binade_le q hpos E hE1 (lt_of_lt_of_le hqn hhi)
  rcases eq_or_lt_of_le hb with hbe | hblt
  · have h1 := roundDouble_le_add q
    rw [hbe] at h1
    have e : (2 : ℚ) ^ (E - 52) / 2 = 2 ^ E * 2 ^ (-53 : ℤ) := by
      rw [show E - 52 = E + (-52) by ring, zpow_add₀ (by norm_num : (2 : ℚ) ≠ 0)]
      norm_num
      ring
    rw [e] at h1
    nlinarith
  · have hu : (0 : ℚ) < 2 ^ (binade q - 52) := zpow_pos (by norm_num) _
    have hk := roundHalfEven_le (q / 2 ^ (binade q - 52))
    have hq2 := lt_zpow_binade q hq0
    have e : (2 : ℚ) ^ (binade q + 1) = 2 ^ (binade q - 52) * 2 ^ (53 : ℤ) := by
      rw [← zpow_add₀ (by norm_num : (2 : ℚ) ≠ 0)]
      congr 1
      ring
    have hy : q / 2 ^ (binade q - 52) < 2 ^ (53 : ℤ) := by
      rw [div_lt_iff₀ hu, mul_comm, ← e]
      exact hq2
    have hk2 : roundHalfEven (q / 2 ^ (binade q - 52)) ≤ 2 ^ 53 := by
      by_contra hcon
      push_neg at hcon
      have h3 : (2 ^ 53 + 1 : ℤ) ≤ roundHalfEven (q / 2 ^ (binade q - 52)) := hcon
      have h4 : ((2 ^ 53 + 1 : ℤ) : ℚ) ≤ (roundHalfEven (q / 2 ^ (binade q - 52)) : ℚ) := by
        exact_mod_cast h3
      push_cast at h4
      norm_num at hy
      linarith
    have hk3 : (roundHalfEven (q / 2 ^ (binade q - 52)) : ℚ) ≤ 2 ^ (53 : ℤ) := by
      have : (roundHalfEven (q / 2 ^ (binade q - 52)) : ℚ) ≤ ((2 ^ 53 : ℤ) : ℚ) := by
        exact_mod_cast hk2
      norm_num at this ⊢
      exact this
    have h5 : roundDouble q ≤ 2 ^ (binade q + 1) := by
      unfold roundDouble
      rw [e, mul_comm ((2 : ℚ) ^ (binade q - 52))]
      exact mul_le_mul_of_nonneg_right hk3 hu.le
    have h6 : (2 : ℚ) ^ (binade q + 1) ≤ 2 ^ E :=
      zpow_le_zpow_right₀ (by norm_num) (by omega)
    linarith

theorem draw_value_nonneg (r : Draw) : 0 ≤ r.value := by
  unfold Draw.value
  positivity

theorem draw_value_le (r : Draw) : r.value ≤ 1 - 2 ^ (-53 : ℤ) := by
  have hm : (r.mantissa : ℚ) ≤ 2 ^ 53 - 1 := by
    have h := r.mantissa_lt
    have h2 : r.mantissa + 1 ≤ 2 ^ 53 := h
    have h3 : ((r.mantissa + 1 : ℕ) : ℚ) ≤ ((2 ^ 53 : ℕ) : ℚ) := by exact_mod_cast h2
    push_cast at h3
    linarith
  have hm0 : (0 : ℚ) ≤ r.mantissa := by positivity
  have hp : (2 : ℚ) ^ 53 ≤ 2 ^ (53 + r.shift) :=
    pow_le_pow_right₀ (by norm_num) (by omega)
  have hpos : (0 : ℚ) < 2 ^ (53 + r.shift) := by positivity
  unfold Draw.value
  rw [div_le_iff₀ hpos]
  have e : (1 - (2 : ℚ) ^ (-53 : ℤ)) = (2 ^ 53 - 1) / 2 ^ 53 := by norm_num
  rw [e]
  have h53 : (0 : ℚ) < 2 ^ 53 := by positivity
  rw [div_mul_eq_mul_div, le_div_iff₀ h53]
  nlinarith

theorem draw_value_lt_one (r : Draw) : r.value < 1 := by
  have h := draw_value_le r
  have hc : (0 : ℚ) < 2 ^ (-53 : ℤ) := zpow_pos (by norm_num) _
  linarith

/-- The index `Math.floor(Math.random() * n)` computed in doubles is below `n`. -/
theorem floor_times_lt (r : Draw) (n : ℕ) (E : ℤ) (hE1 : -1022 ≤ E)
    (hlo : (2 : ℚ) ^ E < n) (hhi : (n : ℚ) ≤ 2 ^ (E + 1)) :
    0 ≤ ⌊times r.value n⌋ ∧ ⌊times r.value n⌋ < (n : ℤ) := by
  have hn : (0 : ℚ) < n := lt_trans (zpow_pos (by norm_num) E) hlo
  have h0 : 0 ≤ r.value * n := mul_nonneg (draw_value_nonneg r) hn.le
  refine ⟨Int.floor_nonneg.mpr (roundDouble_nonneg _ h0), ?_⟩
  rw [Int.floor_lt]
  have h := roundDouble_lt n E hE1 hlo hhi (r.value * n) h0 (by
    rw [mul_comm]
    exact mul_le_mul_of_nonneg_left (draw_value_le r) hn.le)
  exact_mod_cast h


theorem floor_times_bounds (r : Draw) (n : ℕ) (hn : 0 < n) :
    0 ≤ ⌊times r.value n⌋ ∧ ⌊times r.value n⌋ < (n : ℤ) := by
  have hn0 : (0 : ℚ) < n := by exact_mod_cast hn
  have h1 : (n : ℚ) ≤ 2 ^ Int.clog 2 (n : ℚ) := by
    have := Int.self_le_zpow_clog (b := 2) (by norm_num) (n : ℚ)
    exact_mod_cast this
  have h2 : (2 : ℚ) ^ (Int.clog 2 (n : ℚ) - 1) < n := by
    have := Int.zpow_pred_clog_lt_self (b := 2) (by norm_num) hn0
    exact_mod_cast this
  have h3 : 0 ≤ Int.clog 2 (n : ℚ) := by
    rw [Int.clog_natCast]
    exact Int.natCast_nonneg _
  refine floor_times_lt r n (Int.clog 2 (n : ℚ) - 1) (by omega) h2 ?_
  rw [sub_add_cancel]
  exact h1

/-- The binade of a positive number located between two powers of two. -/
theorem binade_eq (q : ℚ) (e : ℤ) (he : -1022 ≤ e) (h1 : 2 ^ e ≤ q) (h2 : q < 2 ^ (e + 1)) :
    binade q = e := by
  have hq : 0 < q := lt_of_lt_of_le (zpow_pos (by norm_num) e) h1
  have h3 : e ≤ Int.log 2 q := by
    rw [← Int.zpow_le_iff_le_log (by norm_num) hq]
    exact_mod_cast h1
  have h4 : Int.log 2 q < e + 1 := by
    rw [← Int.lt_zpow_iff_log_lt (by norm_num) hq]
    exact_mod_cast h2
  unfold binade
  rw [abs_of_pos hq]
  have : Int.log 2 q = e := by omega
  rw [this]
  exact max_eq_left he

/-- Rounding to the nearest integer, when the nearest integer is known. -/
theorem roundHalfEven_eq (y : ℚ) (k : ℤ) (h1 : (k : ℚ) - 1 / 2 < y) (h2 : y < k + 1 / 2) :
    roundHalfEven y = k := by
  have hfl : ⌊y⌋ = k ∨ ⌊y⌋ = k - 1 := by
    have a : k - 1 ≤ ⌊y⌋ := by
      rw [Int.le_floor]
      push_cast
      linarith
    have b : ⌊y⌋ < k + 1 := by
      rw [Int.floor_lt]
      push_cast
      linarith
    omega
  have hf1 := Int.floor_le y
  have hf2 := Int.lt_floor_add_one y
  unfold roundHalfEven
  rcases hfl with h | h
  · rw [h] at hf1 hf2 ⊢
    rw [if_pos (by linarith)]
  · rw [h] at hf1 hf2 ⊢
    push_cast at hf1 hf2 ⊢
    rw [if_neg (by linarith), if_pos (by linarith)]
    ring

/-- Rounding a tie: the even neighbour is taken. -/
theorem roundHalfEven_tie (k : ℤ) (hk : k % 2 = 0) :
    roundHalfEven ((k : ℚ) - 1 / 2) = k := by
  have hfl : ⌊(k : ℚ) - 1 / 2⌋ = k - 1 := by
    rw [Int.floor_eq_iff]
    push_cast
    constructor <;> linarith
  unfold roundHalfEven
  rw [hfl]
  push_cast
  rw [if_neg (by linarith), if_neg (by linarith), if_neg (by omega)]
  ring

theorem times_pointSix_five : ⌊times pointSixDraw.value 5⌋ = 3 := by
  have hb : binade (pointSixDraw.value * 5) = 1 :=
    binade_eq _ 1 (by norm_num) (by norm_num [pointSixDraw, Draw.value])
      (by norm_num [pointSixDraw, Draw.value])
  have hr : roundHalfEven (pointSixDraw.value * 5 / 2 ^ ((1 : ℤ) - 52)) = 6755399441055744 :=
    roundHalfEven_eq _ _ (by norm_num [pointSixDraw, Draw.value])
      (by norm_num [pointSixDraw, Draw.value])
  have ht : times pointSixDraw.value 5 = 3 := by
    unfold times roundDouble
    rw [hb, hr]
    norm_num
  rw [ht]
  norm_num

theorem salary_at_maxDraw : ⌊plus (times maxDraw.value 100000) 50000⌋ = 150000 := by
  have hb : binade (maxDraw.value * 100000) = 16 :=
    binade_eq _ 16 (by norm_num) (by norm_num [maxDraw, Draw.value])
      (by norm_num [maxDraw, Draw.value])
  have hr : roundHalfEven (maxDraw.value * 100000 / 2 ^ ((16 : ℤ) - 52))
      = 6871947673599999 :=
    roundHalfEven_eq _ _ (by norm_num [maxDraw, Draw.value])
      (by norm_num [maxDraw, Draw.value])
  have ht : times maxDraw.value 100000 = 100000 - 2 ^ (-36 : ℤ) := by
    unfold times roundDouble
    rw [hb, hr]
    norm_num
  have hb2 : binade ((100000 : ℚ) - 2 ^ (-36 : ℤ) + 50000) = 17 :=
    binade_eq _ 17 (by norm_num) (by norm_num) (by norm_num)
  have hr2 : roundHalfEven (((100000 : ℚ) - 2 ^ (-36 : ℤ) + 50000) / 2 ^ ((17 : ℤ) - 52))
      = 5153960755200000 := by
    have e : ((100000 : ℚ) - 2 ^ (-36 : ℤ) + 50000) / 2 ^ ((17 : ℤ) - 52)
        = ((5153960755200000 : ℤ) : ℚ) - 1 / 2 := by norm_num
    rw [e]
    exact roundHalfEven_tie _ (by norm_num)
  have hp : plus (times maxDraw.value 100000) 50000 = 150000 := by
    rw [ht]
    unfold plus roundDouble
    rw [hb2, hr2]
    norm_num
  rw [hp]
  norm_num


/-- Indexing a non-empty list of options with `Math.floor(Math.random() * n)`, where `n`
is the length of the list and the product is the rounded one, yields one of the
options. -/
theorem pick_in_bounds (options : List String) (r : Draw) (h : options ≠ []) :
    ∃ s ∈ options, pick options ⌊times r.value (options.length : ℚ)⌋ = Leaf.text s := by
  have hlen : 0 < options.length := List.length_pos.mpr h
  obtain ⟨h0, h1⟩ := floor_times_bounds r options.length hlen
  obtain ⟨k, hk⟩ := Int.eq_ofNat_of_zero_le h0
  rw [hk] at h1 ⊢
  have hk2 : k < options.length := by exact_mod_cast h1
  refine ⟨options.get ⟨k, hk2⟩, List.get_mem _ _ _, ?_⟩
  have hneg : ¬ ((k : Int) < 0) := by omega
  simp only [pick, if_neg hneg, Int.toNat_ofNat]
  rw [List.get?_eq_get hk2]

theorem pick_four (a b c d : String) (r : Draw) :
    pick [a, b, c, d] ⌊times r.value 4⌋ = Leaf.text a ∨
    pick [a, b, c, d] ⌊times r.value 4⌋ = Leaf.text b ∨
    pick [a, b, c, d] ⌊times r.value 4⌋ = Leaf.text c ∨
    pick [a, b, c, d] ⌊times r.value 4⌋ = Leaf.text d := by
  obtain ⟨s, hs, h⟩ := pick_in_bounds [a, b, c, d] r (by simp)
  have e : (([a, b, c, d] : List String).length : ℚ) = 4 := by norm_num
  rw [e] at h
  rw [h]
  simpa using hs

theorem pick_five (a b c d e : String) (r : Draw) :
    pick [a, b, c, d, e] ⌊times r.value 5⌋ = Leaf.text a ∨
    pick [a, b, c, d, e] ⌊times r.value 5⌋ = Leaf.text b ∨
    pick [a, b, c, d, e] ⌊times r.value 5⌋ = Leaf.text c ∨
    pick [a, b, c, d, e] ⌊times r.value 5⌋ = Leaf.text d ∨
    pick [a, b, c, d, e] ⌊times r.value 5⌋ = Leaf.text e := by
  obtain ⟨s, hs, h⟩ := pick_in_bounds [a, b, c, d, e] r (by simp)
  have e5 : (([a, b, c, d, e] : List String).length : ℚ) = 5 := by norm_num
  rw [e5] at h
  rw [h]
  simpa using hs

@[simp]
theorem pick_four_defined (a b c d : String) (r : Draw) :
    (pick [a, b, c, d] ⌊times r.value 4⌋).defined = true := by
  rcases pick_four a b c d r with h | h | h | h <;> rw [h] <;> rfl

@[simp]
theorem pick_five_defined (a b c d e : String) (r : Draw) :
    (pick [a, b, c, d, e] ⌊times r.value 5⌋).defined = true := by
  rcases pick_five a b c d e r with h | h | h | h | h <;> rw [h] <;> rfl

@[simp]
theorem defined_text (s : String) : (Leaf.text s).defined = true := rfl

@[simp]
theorem defined_int (n : Int) : (Leaf.int n).defined = true := rfl

@[simp]
theorem defined_real (q : ℚ) : (Leaf.real q).defined = true := rfl

@[simp]
theorem defined_fixed (q : ℚ) (d : Nat) : (Leaf.fixed q d).defined = true := rfl

@[simp]
theorem defined_template (ps : List Piece) : (Leaf.template ps).defined = true := rfl

@[simp]
theorem defined_isoTime (ms : Int) : (Leaf.isoTime ms).defined = true := rfl

@[simp]
theorem defined_isoDay (y m d : Int) : (Leaf.isoDay y m d).defined = true := rfl

@[simp]
theorem defined_flag (b : Bool) : (Leaf.flag b).defined = true := rfl

@[simp]
theorem defined_texts (items : List String) : (Leaf.texts items).defined = true := rfl

/-- Whatever the draws and the clock, no generator of the table returns an object with
an `undefined` field. -/
theorem generators_defined :
    ∀ kv ∈ generators, ∀ (random : Nat → Draw) (now : Nat),
      (kv.2 random now).toPayload.defined = true := by
  simp [generators, generateMockGDPData, generateMockTradeBalance, generateMockOilPrices,
    generateMockGoldPrices, generateMockSilverPrices, generateMockNFTTrends,
    generateMockAppStoreTrending, generateMockGooglePlayTrending, generateMockEpicGames,
    generateMockEbayTrending, generateMockTravelAdvisories, generateMockVisaRequirements,
    generateMockBankInterestRates, generateMockCreditCardOffers, generateMockLoanRates,
    generateMockInsuranceRates, generateMockRealEstatePrices, generateMockRentalPrices,
    generateMockMortgageRates, generateMockSalaryData, generateMockSkillTrends,
    generateMockCertificationTrends, generateMockWebinars, generateMockConferences,
    generateMockResearchPapers, generateMockPatentFilings, generateMockInflationData,
    generateMockUnemploymentData, MockObj.toPayload, Payload.defined, Atom.defined,
    fieldsDefined, List.enum, List.enumFrom]

theorem lookup_some_mem {α : Type} (k : String) (v : α) :
    ∀ (m : List (String × α)), lookup k m = some v → (k, v) ∈ m := by
  intro m
  induction m with
  | nil => intro h; simp [lookup] at h
  | cons x rest ih =>
    obtain ⟨k', v'⟩ := x
    intro h
    by_cases hk : k' = k
    · simp only [lookup, if_pos hk, Option.some.injEq] at h
      rw [hk, h]
      exact List.mem_cons_self _ _
    · simp only [lookup, if_neg hk] at h
      exact List.mem_cons_of_mem _ (ih h)

theorem generators_keys : generators.map Prod.fst = generatorKeys := rfl

/-- The synthesizer with the table spelled out returns, for a table key, the result of
the generator found in the table. -/
theorem generateMockDataAt_generated (random : Nat → Draw) (now : Nat) (c : String)
    (hc : c ∈ generatorKeys) :
    ∃ g, (c, g) ∈ generators ∧ lookup c generators = some g ∧
      generateMockDataAt random now c = Outcome.returned (g random now).toPayload := by
  have h : (lookup c generators).isSome = true := by
    rw [lookup_isSome_iff, generators_keys]
    exact hc
  obtain ⟨g, hg⟩ := Option.isSome_iff_exists.mp h
  exact ⟨g, lookup_some_mem c g generators hg, hg, by simp only [generateMockDataAt, hg]⟩

/-- For an id that is neither a table key nor an inherited property name it returns the
generic record. -/
theorem generateMockDataAt_generic (random : Nat → Draw) (now : Nat) (c : String)
    (h1 : c ∉ generatorKeys) (h2 : c ∉ objectPrototypeKeys) :
    generateMockDataAt random now c = Outcome.returned (generateGenericMockData c now) := by
  have h : lookup c generators = none := by
    cases hl : lookup c generators with
    | none => rfl
    | some g =>
      exfalso
      apply h1
      rw [← generators_keys, ← lookup_isSome_iff, hl]
      rfl
  simp only [generateMockDataAt, h, if_neg h2]

/-- In a world whose generator oracle runs the generator of the table on the draws
`random` at the clock of the calling state, `generateMockData` is `generateMockDataAt`. -/
theorem generateMockData_eq_at (env : Env) (c : String) (s : Service) (random : Nat → Draw)
    (hworld : ∀ g, lookup c generators = some g → env.generator c s.draws = g random s.now) :
    (generateMockData env c s).1 = generateMockDataAt random s.now c := by
  by_cases hc : c ∈ generatorKeys
  · obtain ⟨g, _, hl, hg⟩ := generateMockDataAt_generated random s.now c hc
    rw [hg, ← hworld g hl]
    simp only [generateMockData, if_pos hc]
  · have h : lookup c generators = none := by
      cases hl : lookup c generators with
      | none => rfl
      | some g =>
        exfalso
        apply hc
        rw [← generators_keys, ← lookup_isSome_iff, hl]
        rfl
    simp only [generateMockData, if_neg hc, generateMockDataAt, h]
    split <;> rfl

/-- The synthesizer returns a defined, truthy payload for every registered id. -/
theorem generateMockDataAt_registered (random : Nat → Draw) (now : Nat) (c : String)
    (hc : c ∈ getCategories) :
    ∃ p, generateMockDataAt random now c = Outcome.returned p ∧ truthy p = true ∧
      p.defined = true := by
  by_cases hg : c ∈ generatorKeys
  · obtain ⟨g, hmem, _, heq⟩ := generateMockDataAt_generated random now c hg
    exact ⟨_, heq, toPayload_truthy _, generators_defined (c, g) hmem random now⟩
  · exact ⟨_, generateMockDataAt_generic random now c hg (registered_not_inherited c hc),
      rfl, rfl⟩

/-- A registered category all of whose fetch attempts fail has a switch case. -/
theorem failing_is_switchCase (env : Env) (c : String) (hc : c ∈ getCategories)
    (hfail : ∀ i, FailsAt env c i) : c ∈ switchCases := by
  by_contra hs
  obtain ⟨m, hm⟩ := hfail (constructor 0).attempts (constructor 0) rfl
  obtain ⟨p, hp, _⟩ := generateMockData_registered env c (constructor 0) hc
  have hd : (dispatch env c (constructor 0)).1 = (generateMockData env c (constructor 0)).1 := by
    simp only [dispatch, if_neg hs]
  rw [hd, hp] at hm
  exact Outcome.noConfusion hm

/-- No payload of the table carries a `status` field, except the rows of
`patent_filings`, whose status is one of four filing states. -/
theorem generators_status :
    ∀ kv ∈ generators, ∀ (random : Nat → Draw) (now : Nat),
      (kv.1 ≠ "patent_filings" → Payload.valuesAt "status" (kv.2 random now).toPayload = []) ∧
      ∀ v ∈ Payload.valuesAt "status" (kv.2 random now).toPayload,
        v ∈ [Atom.leaf (Leaf.text "Pending"), Atom.leaf (Leaf.text "Granted"),
          Atom.leaf (Leaf.text "Published"), Atom.leaf (Leaf.text "Abandoned")] := by
  simp [generators, generateMockGDPData, generateMockTradeBalance, generateMockOilPrices,
    generateMockGoldPrices, generateMockSilverPrices, generateMockNFTTrends,
    generateMockAppStoreTrending, generateMockGooglePlayTrending, generateMockEpicGames,
    generateMockEbayTrending, generateMockTravelAdvisories, generateMockVisaRequirements,
    generateMockBankInterestRates, generateMockCreditCardOffers, generateMockLoanRates,
    generateMockInsuranceRates, generateMockRealEstatePrices, generateMockRentalPrices,
    generateMockMortgageRates, generateMockSalaryData, generateMockSkillTrends,
    generateMockCertificationTrends, generateMockWebinars, generateMockConferences,
    generateMockResearchPapers, generateMockPatentFilings, generateMockInflationData,
    generateMockUnemploymentData, MockObj.toPayload, Payload.valuesAt, Atom.valuesAt,
    fieldValues, List.enum, List.enumFrom]
  intro random v leaf i _ hleaf hv
  subst hv
  subst hleaf
  have h := pick_four "Pending" "Granted" "Published" "Abandoned" (random (4 * i + 2))
  simpa using h

/-! ## The claims -/

set_option maxRecDepth 100000 in
/-- C1 as stated fails: with the weather fetcher failing on every attempt and every
other registered fetcher succeeding, a refresh of weather on a fresh service leaves no
cache entry for weather, and after the full sweep over the 62 registered categories the
cache holds 61 entries, none of them for weather. -/
theorem C1_counterexample :
    "weather" ∈ getCategories ∧ (∀ i, FailsAt envWeatherDown "weather" i) ∧
    lookup "weather" (fetchCategoryData envWeatherDown "weather" (constructor 0)).2.cache = none ∧
    lookup "weather" (fetchAllData envWeatherDown (constructor 0)).2.cache = none ∧
    (fetchAllData envWeatherDown (constructor 0)).2.cache.length = 61 ∧
    getCategories.length = 62 :=
  ⟨by decide, envWeatherDown_fails, by decide, by decide, by decide, by decide⟩

/-- C1 (amended): if all `maxRetries` attempts of `fetchCategoryData(c)` fail, the call
stores nothing: cache, data and emitted events are exactly as before, so `c` has an
entry afterwards only if it had one before. Consequently, after `fetchAllData` (with a
positive retry budget) in a world where the fetcher of one registered category `c`
always fails and every other registered fetcher succeeds, every other registered
category has a cache entry and `c` has exactly the entry it had before the sweep. -/
theorem C1_exhaustion_stores_nothing (env : Env) (c : String) (s : Service) :
    ((∀ i, i < s.maxRetries → FailsAt env c (s.attempts + i)) →
      (fetchCategoryData env c s).2.cache = s.cache ∧
      (fetchCategoryData env c s).2.data = s.data ∧
      (fetchCategoryData env c s).2.emitted = s.emitted) ∧
    (c ∈ getCategories → 0 < s.maxRetries → (∀ i, FailsAt env c i) →
      (∀ d ∈ getCategories, d ≠ c → AlwaysSucceeds env d) →
      lookup c (fetchAllData env s).2.cache = lookup c s.cache ∧
      ∀ d ∈ getCategories, d ≠ c → (lookup d (fetchAllData env s).2.cache).isSome = true) := by
  refine ⟨?_, ?_⟩
  · intro hfail
    have h := (retryLoop_all_fail env c s hfail).1
    exact ⟨h.2.1, h.1, h.2.2.1⟩
  · intro _ h0 hfail hok
    have h := sweep_one_down env c hfail getCategories s h0 hok
    exact ⟨h.2.1, h.2.2.2⟩

/-- Witness for the amended C1: the weather provider is down, the service is fresh. -/
theorem C1_exhaustion_witness :
    ((fetchCategoryData envWeatherDown "weather" (constructor 0)).2.cache = (constructor 0).cache ∧
      (fetchCategoryData envWeatherDown "weather" (constructor 0)).2.data = (constructor 0).data ∧
      (fetchCategoryData envWeatherDown "weather" (constructor 0)).2.emitted
        = (constructor 0).emitted) ∧
    (lookup "weather" (fetchAllData envWeatherDown (constructor 0)).2.cache
        = lookup "weather" (constructor 0).cache ∧
      ∀ d ∈ getCategories, d ≠ "weather" →
        (lookup d (fetchAllData envWeatherDown (constructor 0)).2.cache).isSome = true) :=
  ⟨(C1_exhaustion_stores_nothing envWeatherDown "weather" (constructor 0)).1
      (fun _ _ => envWeatherDown_fails _),
   (C1_exhaustion_stores_nothing envWeatherDown "weather" (constructor 0)).2
      (by decide) (by decide) envWeatherDown_fails envWeatherDown_others⟩

/-- C2 as stated fails: news was refreshed at time 10 and is read at time 300010, when
its entry is stale, in a world where a refresh would bring newer content; `getData`
makes no fetch attempt and resolves with the old payload. -/
theorem C2_counterexample :
    Reachable newsStale ∧
    lookup "news" newsStale.cache = some (CacheEntry.mk (Payload.list [Atom.json "item"]) 10) ∧
    newsStale.now - 10 ≥ newsStale.updateInterval ∧
    isFresh "news" newsStale = false ∧
    (getData envUpdated "news" newsStale).2.attempts = newsStale.attempts ∧
    (getData envUpdated "news" newsStale).1
      = Completion.resolved (Payload.list [Atom.json "item"]) ∧
    dataGet "news" (fetchCategoryData envUpdated "news" newsStale).2.data
      = Payload.list [Atom.json "newer item"] :=
  ⟨Reachable.idle 300000 (Reachable.fetch envWeatherDown "news" (Reachable.init 0)),
   by decide, by decide, by decide, by decide, by decide, by decide⟩

/-- C2 (amended): when `c` has an entry that is stale, `getData(c)` takes the same path
as for an absent entry, and on that path it first looks at `data[c]`: if `data[c]` is
truthy, which is the case in every reachable state where `c` has an entry, it resolves
with that stored payload, makes no fetch attempt and leaves the state unchanged; only
if `data[c]` is falsy does it run `fetchCategoryData(c)`, and the attempts it makes are
those of that call. -/
theorem C2_stale_read_serves_stored (env : Env) (c : String) (s : Service)
    (cached : CacheEntry) (hentry : lookup c s.cache = some cached)
    (hstale : (s.updateInterval : Int) ≤ (s.now : Int) - (cached.timestamp : Int)) :
    isFresh c s = false ∧
    getData env c s = getDataSlow env c s ∧
    (truthy (dataGet c s.data) = true →
      getData env c s = (Completion.resolved (dataGet c s.data), s)) ∧
    (Reachable s → getData env c s = (Completion.resolved cached.data, s)) ∧
    (truthy (dataGet c s.data) = false →
      (getData env c s).2.calls = (fetchCategoryData env c s).2.calls) := by
  have hnot : ¬ ((s.now : Int) - (cached.timestamp : Int) < (s.updateInterval : Int)) := by
    omega
  have hslow : getData env c s = getDataSlow env c s := by
    simp only [getData, hentry, if_neg hnot]
  have htruthy : truthy (dataGet c s.data) = true →
      getData env c s = (Completion.resolved (dataGet c s.data), s) := by
    intro h
    rw [hslow]
    simp only [getDataSlow, if_pos h]
  refine ⟨?_, hslow, htruthy, ?_, ?_⟩
  · simp only [isFresh, hentry, decide_eq_false_iff_not]
    exact hnot
  · intro hr
    obtain ⟨h1, h2⟩ := reachable_storesAgree hr c cached hentry
    rw [← h2]
    exact htruthy (by rw [h2]; exact h1)
  · intro h
    rcases getData_state env c s with hs | hs
    · have hne : ¬ (truthy (dataGet c s.data) = true) := by simp [h]
      have h3 : (getDataSlow env c s).2.calls = (fetchCategoryData env c s).2.calls := by
        simp only [getDataSlow, if_neg hne, fetchCategoryData]
        split
        · rfl
        · have hg := generateMockData_same env c (retryLoop env c s.maxRetries 0 s)
          rcases hgm : generateMockData env c (retryLoop env c s.maxRetries 0 s) with ⟨o, s2⟩
          rw [hgm] at hg
          cases o <;> exact hg.2.2.1
      rw [hslow]
      exact h3
    · exact hs.2

/-- Witness for the amended C2: the stale news entry of `newsStale`, in a world where a
refresh would bring newer content, is served as it is. -/
theorem C2_stale_read_witness :
    isFresh "news" newsStale = false ∧
    getData envUpdated "news" newsStale = getDataSlow envUpdated "news" newsStale ∧
    getData envUpdated "news" newsStale
      = (Completion.resolved (dataGet "news" newsStale.data), newsStale) ∧
    getData envUpdated "news" newsStale
      = (Completion.resolved (CacheEntry.mk (Payload.list [Atom.json "item"]) 10).data,
          newsStale) :=
  ⟨(C2_stale_read_serves_stored envUpdated "news" newsStale
      (CacheEntry.mk (Payload.list [Atom.json "item"]) 10) (by decide) (by decide)).1,
   (C2_stale_read_serves_stored envUpdated "news" newsStale
      (CacheEntry.mk (Payload.list [Atom.json "item"]) 10) (by decide) (by decide)).2.1,
   (C2_stale_read_serves_stored envUpdated "news" newsStale
      (CacheEntry.mk (Payload.list [Atom.json "item"]) 10) (by decide) (by decide)).2.2.1
      (by decide),
   (C2_stale_read_serves_stored envUpdated "news" newsStale
      (CacheEntry.mk (Payload.list [Atom.json "item"]) 10) (by decide) (by decide)).2.2.2.1
      (Reachable.idle 300000 (Reachable.fetch envWeatherDown "news" (Reachable.init 0)))⟩

/-- C3: `fetchCategoryData` makes at most `maxRetries` fetch attempts; when the first
`k - 1` attempts fail and the `k`-th does not (`1 ≤ k ≤ maxRetries`) it makes exactly
`k` attempts, so it stops at the first attempt that does not fail; when all attempts
fail it makes exactly `maxRetries` attempts; and the constructor sets `maxRetries` to
3. -/
theorem C3_attempts_bounded_and_exact (env : Env) (c : String) (s : Service) :
    (fetchCategoryData env c s).2.attempts ≤ s.attempts + s.maxRetries ∧
    (∀ k, 1 ≤ k → k ≤ s.maxRetries →
      (∀ i, i < k - 1 → FailsAt env c (s.attempts + i)) →
      ReturnsAt env c (s.attempts + (k - 1)) →
      (fetchCategoryData env c s).2.attempts = s.attempts + k) ∧
    ((∀ i, i < s.maxRetries → FailsAt env c (s.attempts + i)) →
      (fetchCategoryData env c s).2.attempts = s.attempts + s.maxRetries) ∧
    (∀ t, (constructor t).maxRetries = 3) := by
  refine ⟨?_, ?_, ?_, fun _ => rfl⟩
  · have h := retryLoop_attempts_le env c s.maxRetries 0 s
    simpa [fetchCategoryData] using h
  · intro k hk1 hk2 hfail hret
    have h := (retryLoop_fail_then_return env c s (k - 1) (by omega) hfail hret).1
    simp only [fetchCategoryData]
    rw [h]
    omega
  · intro hfail
    exact (retryLoop_all_fail env c s hfail).2.1

/-- Witness for C3: with the weather provider failing twice and then answering, the call
makes exactly 3 attempts; with the provider down for good it makes exactly 3 as
well. -/
theorem C3_attempts_witness :
    (fetchCategoryData envWeatherFlaky "weather" (constructor 0)).2.attempts = 0 + 3 ∧
    (fetchCategoryData envWeatherDown "weather" (constructor 0)).2.attempts = 0 + 3 :=
  ⟨(C3_attempts_bounded_and_exact envWeatherFlaky "weather" (constructor 0)).2.1 3
      (by decide) (by decide) (fun i hi => envWeatherFlaky_fails _ (by simpa [Service.attempts, constructor] using hi))
      (envWeatherFlaky_returns _ (by decide)),
   (C3_attempts_bounded_and_exact envWeatherDown "weather" (constructor 0)).2.2.1
      (fun i _ => envWeatherDown_fails _)⟩

/-- C4: on a run in which the first `k - 1` attempts fail and the `k`-th returns, and on
a run in which all `maxRetries` attempts fail, the waits inserted by `fetchCategoryData`
are exactly one wait of `retryDelay * n` ms after the `n`-th failure for
`n = 1, ..., k - 1` (respectively `n = 1, ..., maxRetries - 1`), with no wait after the
last failure of an exhausted run; with the constructor's values the waits of an
exhausted run are 1000 ms and 2000 ms, 3000 ms in total. -/
theorem C4_linear_backoff (env : Env) (c : String) (s : Service) :
    (∀ k, 1 ≤ k → k ≤ s.maxRetries →
      (∀ i, i < k - 1 → FailsAt env c (s.attempts + i)) →
      ReturnsAt env c (s.attempts + (k - 1)) →
      (fetchCategoryData env c s).2.delays =
        s.delays ++ (List.range' 1 (k - 1)).map (fun n => Wait.mk n (s.retryDelay * n))) ∧
    ((∀ i, i < s.maxRetries → FailsAt env c (s.attempts + i)) →
      (fetchCategoryData env c s).2.delays =
        s.delays ++
          (List.range' 1 (s.maxRetries - 1)).map (fun n => Wait.mk n (s.retryDelay * n))) ∧
    (∀ t, (∀ i, i < 3 → FailsAt env c i) →
      (fetchCategoryData env c (constructor t)).2.delays = [Wait.mk 1 1000, Wait.mk 2 2000] ∧
      ((fetchCategoryData env c (constructor t)).2.delays.map Wait.ms).sum = 3000) := by
  refine ⟨?_, ?_, ?_⟩
  · intro k hk1 hk2 hfail hret
    exact (retryLoop_fail_then_return env c s (k - 1) (by omega) hfail hret).2
  · intro hfail
    exact (retryLoop_all_fail env c s hfail).2.2.1
  · intro t hfail
    have h := (retryLoop_all_fail env c (constructor t)
      (fun i hi => by simpa [Service.attempts, constructor] using hfail i hi)).2.2.1
    have e : (fetchCategoryData env c (constructor t)).2.delays =
        [Wait.mk 1 1000, Wait.mk 2 2000] := by
      simp only [fetchCategoryData]
      rw [h]
      rfl
    exact ⟨e, by rw [e]; rfl⟩

/-- Witness for C4: the waits of a call whose first two attempts fail, and of an
exhausted call, both from a fresh service. -/
theorem C4_backoff_witness :
    (fetchCategoryData envWeatherFlaky "weather" (constructor 0)).2.delays =
      (constructor 0).delays ++
        (List.range' 1 (3 - 1)).map (fun n => Wait.mk n ((constructor 0).retryDelay * n)) ∧
    ((fetchCategoryData envWeatherDown "weather" (constructor 7)).2.delays =
        [Wait.mk 1 1000, Wait.mk 2 2000] ∧
      ((fetchCategoryData envWeatherDown "weather" (constructor 7)).2.delays.map Wait.ms).sum
        = 3000) :=
  ⟨(C4_linear_backoff envWeatherFlaky "weather" (constructor 0)).1 3
      (by decide) (by decide) (fun i hi => envWeatherFlaky_fails _ (by simpa [Service.attempts, constructor] using hi))
      (envWeatherFlaky_returns _ (by decide)),
   (C4_linear_backoff envWeatherDown "weather" (constructor 0)).2.2 7
      (fun i _ => envWeatherDown_fails _)⟩

/-- C5 as stated fails: the exhausted refresh of weather completes exactly like the
successful refresh of news, with a promise resolved to `undefined`. -/
theorem C5_counterexample :
    (∀ i, i < (constructor 0).maxRetries →
      FailsAt envWeatherDown "weather" ((constructor 0).attempts + i)) ∧
    AlwaysSucceeds envWeatherDown "news" ∧
    (fetchCategoryData envWeatherDown "weather" (constructor 0)).1
      = Completion.resolved Payload.undefined ∧
    (fetchCategoryData envWeatherDown "weather" (constructor 0)).1
      = (fetchCategoryData envWeatherDown "news" (constructor 0)).1 :=
  ⟨fun _ _ => envWeatherDown_fails _, envWeatherDown_others "news" (by decide) (by decide),
   rfl, rfl⟩

/-- C5 (amended): when every one of the `maxRetries` attempts fails, `fetchCategoryData`
reports nothing to its caller: its promise resolves with `undefined`, which is how every
call of it completes, and data, cache and emitted events are left as they were. -/
theorem C5_exhaustion_resolves (env : Env) (c : String) (s : Service)
    (hfail : ∀ i, i < s.maxRetries → FailsAt env c (s.attempts + i)) :
    (fetchCategoryData env c s).1 = Completion.resolved Payload.undefined ∧
    (∀ (env2 : Env) (c2 : String) (s2 : Service),
      (fetchCategoryData env2 c2 s2).1 = (fetchCategoryData env c s).1) ∧
    (fetchCategoryData env c s).2.data = s.data ∧
    (fetchCategoryData env c s).2.cache = s.cache ∧
    (fetchCategoryData env c s).2.emitted = s.emitted := by
  have h := (retryLoop_all_fail env c s hfail).1
  exact ⟨rfl, fun _ _ _ => rfl, h.1, h.2.1, h.2.2.1⟩

/-- Witness for the amended C5: the weather provider is down, the service is fresh. -/
theorem C5_exhaustion_witness :
    (fetchCategoryData envWeatherDown "weather" (constructor 0)).1
      = Completion.resolved Payload.undefined ∧
    (∀ (env2 : Env) (c2 : String) (s2 : Service),
      (fetchCategoryData env2 c2 s2).1
        = (fetchCategoryData envWeatherDown "weather" (constructor 0)).1) ∧
    (fetchCategoryData envWeatherDown "weather" (constructor 0)).2.data = (constructor 0).data ∧
    (fetchCategoryData envWeatherDown "weather" (constructor 0)).2.cache = (constructor 0).cache ∧
    (fetchCategoryData envWeatherDown "weather" (constructor 0)).2.emitted
      = (constructor 0).emitted :=
  C5_exhaustion_resolves envWeatherDown "weather" (constructor 0)
    (fun _ _ => envWeatherDown_fails _)

/-- C6: if one of the attempts made by `fetchCategoryData(c)` returns, at clock time `T`,
a truthy payload `p`, then afterwards the cache entry of `c` is exactly
`{data: p, timestamp: T}` (whatever entry was there before), `data[c]` is `p`, and the
call has emitted exactly one event, `dataUpdate(c, p)`. -/
theorem C6_success_writes_and_publishes (env : Env) (c : String) (s : Service) (T : Nat)
    (p : Payload)
    (hcall : Call.mk c T (Outcome.returned p) ∈
      (fetchCategoryData env c s).2.calls.drop s.calls.length)
    (hp : truthy p = true) :
    lookup c (fetchCategoryData env c s).2.cache = some (CacheEntry.mk p T) ∧
    dataGet c (fetchCategoryData env c s).2.data = p ∧
    (fetchCategoryData env c s).2.emitted = s.emitted ++ [Event.mk c p] := by
  obtain ⟨tr, htr, hprop⟩ := retryLoop_history env c s.maxRetries 0 s
  have hdrop : (fetchCategoryData env c s).2.calls.drop s.calls.length = tr := by
    simp only [fetchCategoryData]
    rw [htr]
    simp
  rw [hdrop] at hcall
  exact hprop T p hcall hp

set_option maxRecDepth 100000 in
/-- Witness for C6: weather fails twice and answers at time 3030 (three 10 ms calls and
waits of 1000 ms and 2000 ms); the entry written is stamped 3030. -/
theorem C6_success_witness :
    lookup "weather" (fetchCategoryData envWeatherFlaky "weather" (constructor 0)).2.cache
      = some (CacheEntry.mk (Payload.list [Atom.json "item"]) 3030) ∧
    dataGet "weather" (fetchCategoryData envWeatherFlaky "weather" (constructor 0)).2.data
      = Payload.list [Atom.json "item"] ∧
    (fetchCategoryData envWeatherFlaky "weather" (constructor 0)).2.emitted
      = (constructor 0).emitted ++ [Event.mk "weather" (Payload.list [Atom.json "item"])] :=
  C6_success_writes_and_publishes envWeatherFlaky "weather" (constructor 0) 3030
    (Payload.list [Atom.json "item"]) (by decide) (by decide)

/-- C7: the freshness test of `getData` is the one named `isFresh`; for a category whose
entry was stamped `T`, with the constructor's `updateInterval` of 300000 ms, it is true
at every clock value `now` with `T ≤ now < T + 300000` and false at every
`now ≥ T + 300000`, so exactly at `T + 300000` the entry is stale; a category without an
entry is never fresh. -/
theorem C7_freshness_window (c : String) (s : Service) :
    (∀ t, (constructor t).updateInterval = 300000) ∧
    (∀ env, getData env c s =
      match lookup c s.cache with
      | some cached => if isFresh c s = true then (Completion.resolved cached.data, s)
                       else getDataSlow env c s
      | none => getDataSlow env c s) ∧
    (lookup c s.cache = none → isFresh c s = false) ∧
    (∀ p T, lookup c s.cache = some (CacheEntry.mk p T) → s.updateInterval = 300000 →
      (T ≤ s.now → s.now < T + 300000 → isFresh c s = true) ∧
      (T + 300000 ≤ s.now → isFresh c s = false) ∧
      (s.now = T + 300000 → isFresh c s = false)) := by
  refine ⟨fun _ => rfl, ?_, ?_, ?_⟩
  · intro env
    unfold getData isFresh
    cases lookup c s.cache with
    | none => rfl
    | some cached => simp only [decide_eq_true_eq]
  · intro h
    simp only [isFresh, h]
  · intro p T h hint
    simp only [isFresh, h, hint]
    refine ⟨?_, ?_, ?_⟩
    · intro h1 h2
      simp only [decide_eq_true_eq]
      omega
    · intro h1
      simp only [decide_eq_false_iff_not]
      omega
    · intro h1
      simp only [decide_eq_false_iff_not]
      omega

/-- Witness for C7: news was refreshed at time 10; weather, which has no entry, is not
fresh, and news is fresh at 300009, stale exactly at 300010 and stale at 500010. -/
theorem C7_freshness_witness :
    isFresh "weather" newsRefreshed = false ∧
    isFresh "news" (advance 299999 newsRefreshed) = true ∧
    isFresh "news" (advance 500000 newsRefreshed) = false ∧
    isFresh "news" (advance 300000 newsRefreshed) = false :=
  ⟨(C7_freshness_window "weather" newsRefreshed).2.2.1 (by decide),
   ((C7_freshness_window "news" (advance 299999 newsRefreshed)).2.2.2
      (Payload.list [Atom.json "item"]) 10 (by decide) (by decide)).1 (by decide) (by decide),
   ((C7_freshness_window "news" (advance 500000 newsRefreshed)).2.2.2
      (Payload.list [Atom.json "item"]) 10 (by decide) (by decide)).2.1 (by decide),
   ((C7_freshness_window "news" (advance 300000 newsRefreshed)).2.2.2
      (Payload.list [Atom.json "item"]) 10 (by decide) (by decide)).2.2 (by decide)⟩

/-- C8: when category `c` has a fresh cache entry, `getData(c)` resolves with that
entry's payload and leaves the whole service state as it was: no fetch attempt is made,
no event is emitted, data and cache are unchanged. -/
theorem C8_fresh_read_is_pure (env : Env) (c : String) (s : Service)
    (hfresh : isFresh c s = true) :
    ∃ cached, lookup c s.cache = some cached ∧
      (getData env c s).1 = Completion.resolved cached.data ∧
      (getData env c s).2 = s ∧
      (getData env c s).2.attempts = s.attempts ∧
      (getData env c s).2.emitted = s.emitted ∧
      (getData env c s).2.data = s.data ∧
      (getData env c s).2.cache = s.cache := by
  unfold isFresh at hfresh
  cases hl : lookup c s.cache with
  | none => rw [hl] at hfresh; simp at hfresh
  | some cached =>
    rw [hl] at hfresh
    simp only [decide_eq_true_eq] at hfresh
    have hg : getData env c s = (Completion.resolved cached.data, s) := by
      simp only [getData, hl, if_pos hfresh]
    exact ⟨cached, rfl, by rw [hg], by rw [hg], by rw [hg], by rw [hg], by rw [hg], by rw [hg]⟩

/-- Witness for C8: news was refreshed at time 10 and is read at the same instant, in a
world where another fetch would have been answered. -/
theorem C8_fresh_read_witness :
    ∃ cached, lookup "news" newsRefreshed.cache = some cached ∧
      (getData envUpdated "news" newsRefreshed).1 = Completion.resolved cached.data ∧
      (getData envUpdated "news" newsRefreshed).2 = newsRefreshed ∧
      (getData envUpdated "news" newsRefreshed).2.attempts = newsRefreshed.attempts ∧
      (getData envUpdated "news" newsRefreshed).2.emitted = newsRefreshed.emitted ∧
      (getData envUpdated "news" newsRefreshed).2.data = newsRefreshed.data ∧
      (getData envUpdated "news" newsRefreshed).2.cache = newsRefreshed.cache :=
  C8_fresh_read_is_pure envUpdated "news" newsRefreshed (by decide)

/-- C9: in every reachable state, for every registered category and every world (so
whatever its fetcher does, all attempts failing included, and whether or not an entry
exists), `getData(c)` resolves, and with a truthy payload, never `undefined`. -/
theorem C9_read_always_yields_payload (env : Env) (c : String) (s : Service)
    (hs : Reachable s) (hc : c ∈ getCategories) :
    ∃ p, (getData env c s).1 = Completion.resolved p ∧ truthy p = true ∧
      p ≠ Payload.undefined := by
  have key : ∃ p, (getData env c s).1 = Completion.resolved p ∧ truthy p = true := by
    unfold getData
    split
    · rename_i cached hl
      split
      · exact ⟨cached.data, rfl, (reachable_storesAgree hs c cached hl).1⟩
      · exact getDataSlow_registered env c s hc
    · exact getDataSlow_registered env c s hc
  obtain ⟨p, h1, h2⟩ := key
  refine ⟨p, h1, h2, ?_⟩
  intro hp
  rw [hp] at h2
  exact absurd h2 (by decide)

/-- Witness for C9: weather is read on a fresh service while its provider is down. -/
theorem C9_read_witness :
    ∃ p, (getData envWeatherDown "weather" (constructor 0)).1 = Completion.resolved p ∧
      truthy p = true ∧ p ≠ Payload.undefined :=
  C9_read_always_yields_payload envWeatherDown "weather" (constructor 0)
    (Reachable.init 0) (by decide)

/-- C10 as stated fails: `"not_a_category"` is not registered, yet on a fresh service
`fetchCategoryData` resolves normally, having synthesized the generic record, written it
to the cache and emitted one event, and `getData` resolves with that record. -/
theorem C10_counterexample :
    "not_a_category" ∉ getCategories ∧
    (fetchCategoryData envWeatherDown "not_a_category" (constructor 0)).1
      = Completion.resolved Payload.undefined ∧
    lookup "not_a_category"
        (fetchCategoryData envWeatherDown "not_a_category" (constructor 0)).2.cache
      = some (CacheEntry.mk (generateGenericMockData "not_a_category" 0) 0) ∧
    (fetchCategoryData envWeatherDown "not_a_category" (constructor 0)).2.emitted
      = [Event.mk "not_a_category" (generateGenericMockData "not_a_category" 0)] ∧
    (getData envWeatherDown "not_a_category" (constructor 0)).1
      = Completion.resolved (generateGenericMockData "not_a_category" 0) ∧
    (lookup "not_a_category"
        (getData envWeatherDown "not_a_category" (constructor 0)).2.cache).isSome = true :=
  ⟨by decide, by decide, by decide, by decide, by decide, by decide⟩

/-- C10 (amended): for an id that is neither registered nor a property name inherited
from `Object.prototype`, and with a positive retry budget, `fetchCategoryData(id)` does
not fail: it resolves after one attempt, in which the default branch synthesizes the generic record, writes it to
`data` and to the cache stamped with the current time and emits one `dataUpdate`; and
`getData(id)`, when the id has neither a cache entry nor a data value yet, runs that
refresh and resolves with the record. -/
theorem C10_unknown_id_is_synthesized (env : Env) (id : String) (s : Service)
    (hid : id ∉ getCategories) (hproto : id ∉ objectPrototypeKeys)
    (h0 : 0 < s.maxRetries) :
    (fetchCategoryData env id s).1 = Completion.resolved Payload.undefined ∧
    lookup id (fetchCategoryData env id s).2.cache
      = some (CacheEntry.mk (generateGenericMockData id s.now) s.now) ∧
    dataGet id (fetchCategoryData env id s).2.data = generateGenericMockData id s.now ∧
    (fetchCategoryData env id s).2.emitted
      = s.emitted ++ [Event.mk id (generateGenericMockData id s.now)] ∧
    (fetchCategoryData env id s).2.attempts = s.attempts + 1 ∧
    (lookup id s.cache = none → lookup id s.data = none →
      getData env id s
        = (Completion.resolved (generateGenericMockData id s.now),
            (fetchCategoryData env id s).2)) := by
  have hd := dispatch_unknown env id s hid hproto
  have hne : id ≠ "__proto__" := fun h => hproto (by rw [h]; decide)
  obtain ⟨n, hn⟩ : ∃ n, s.maxRetries = n + 1 := ⟨s.maxRetries - 1, by omega⟩
  have ht : truthy (generateGenericMockData id s.now) = true := rfl
  have hrun : (fetchCategoryData env id s).2 =
      store id (generateGenericMockData id s.now) (dispatch env id s).2 := by
    simp only [fetchCategoryData]
    rw [hn, retryLoop_returned env id n 0 s (generateGenericMockData id s.now) h0
      (by rw [hd]), if_pos ht]
  have hnow : (dispatch env id s).2.now = s.now := by rw [hd]
  have hcache : lookup id (fetchCategoryData env id s).2.cache
      = some (CacheEntry.mk (generateGenericMockData id s.now) s.now) := by
    rw [hrun]
    show lookup id (assign id _ _) = _
    rw [lookup_assign_self, hnow]
  have hdata : dataGet id (fetchCategoryData env id s).2.data
      = generateGenericMockData id s.now := by
    rw [hrun]
    exact dataGet_dataSet_self id _ _ hne
  refine ⟨rfl, hcache, hdata, ?_, ?_, ?_⟩
  · rw [hrun]
    show (dispatch env id s).2.emitted ++ _ = _
    rw [(dispatch_same env id s).2.2.1]
  · rw [hrun]
    show (dispatch env id s).2.calls.length = _
    rw [hd]
    simp [Service.attempts]
  · intro hc hdat
    have hund : dataGet id s.data = Payload.undefined := by
      simp only [dataGet, if_neg hne, hdat, if_neg hproto]
    have hfalse : ¬ (truthy (dataGet id s.data) = true) := by rw [hund]; decide
    have htrue : truthy (dataGet id (fetchCategoryData env id s).2.data) = true := by
      rw [hdata]; rfl
    simp only [getData, hc, getDataSlow, if_neg hfalse]
    have hpair : fetchCategoryData env id s
        = (Completion.resolved Payload.undefined, (fetchCategoryData env id s).2) := rfl
    rw [hpair]
    simp only [if_pos htrue, hdata]
    rw [if_pos ht]

/-- Witness for the amended C10: the id `"not_a_category"` on a fresh service. -/
theorem C10_unknown_id_witness :
    (fetchCategoryData envWeatherDown "not_a_category" (constructor 0)).1
      = Completion.resolved Payload.undefined ∧
    lookup "not_a_category"
        (fetchCategoryData envWeatherDown "not_a_category" (constructor 0)).2.cache
      = some (CacheEntry.mk (generateGenericMockData "not_a_category" (constructor 0).now)
          (constructor 0).now) ∧
    getData envWeatherDown "not_a_category" (constructor 0)
      = (Completion.resolved (generateGenericMockData "not_a_category" (constructor 0).now),
          (fetchCategoryData envWeatherDown "not_a_category" (constructor 0)).2) :=
  ⟨(C10_unknown_id_is_synthesized envWeatherDown "not_a_category" (constructor 0)
      (by decide) (by decide) (by decide)).1,
   (C10_unknown_id_is_synthesized envWeatherDown "not_a_category" (constructor 0)
      (by decide) (by decide) (by decide)).2.1,
   (C10_unknown_id_is_synthesized envWeatherDown "not_a_category" (constructor 0)
      (by decide) (by decide) (by decide)).2.2.2.2.2 (by decide) (by decide)⟩

/-- C11: for a category path parameter outside `getAvailableCategories()`, the handler
of `GET /:category` (whatever the `refresh` query parameter) and the handler of
`POST /:category/refresh` answer with status 400, `success: false` and
`available_categories` equal to the complete registry list, and leave the service
state untouched: neither `fetchCategoryData` nor `getData` runs. -/
theorem C11_invalid_category_rejected (env : Env) (category : String)
    (refresh : Option String) (s : Service) (h : category ∉ getAvailableCategories s) :
    (readRoute env category refresh s).2 = s ∧
    (refreshRoute env category s).2 = s ∧
    (readRoute env category refresh s).1 = invalidCategoryReply getCategories ∧
    (refreshRoute env category s).1 = invalidCategoryReply getCategories ∧
    (invalidCategoryReply getCategories).status = 400 ∧
    (invalidCategoryReply getCategories).success = false ∧
    (invalidCategoryReply getCategories).available_categories = some getCategories ∧
    (invalidCategoryReply getCategories).data = none := by
  have h1 : readRoute env category refresh s = (invalidCategoryReply getCategories, s) := by
    simp only [readRoute, if_pos h]
    rfl
  have h2 : refreshRoute env category s = (invalidCategoryReply getCategories, s) := by
    simp only [refreshRoute, if_pos h]
    rfl
  exact ⟨by rw [h1], by rw [h2], by rw [h1], by rw [h2], rfl, rfl, rfl, rfl⟩

/-- Witness for C11: the path parameter `"not_a_category"`, with `refresh=true`, on a
service that holds news. -/
theorem C11_invalid_category_witness :
    (readRoute envUpdated "not_a_category" (some "true") newsRefreshed).2 = newsRefreshed ∧
    (refreshRoute envUpdated "not_a_category" newsRefreshed).2 = newsRefreshed ∧
    (readRoute envUpdated "not_a_category" (some "true") newsRefreshed).1
      = invalidCategoryReply getCategories ∧
    (refreshRoute envUpdated "not_a_category" newsRefreshed).1
      = invalidCategoryReply getCategories ∧
    (invalidCategoryReply getCategories).status = 400 ∧
    (invalidCategoryReply getCategories).success = false ∧
    (invalidCategoryReply getCategories).available_categories = some getCategories ∧
    (invalidCategoryReply getCategories).data = none :=
  C11_invalid_category_rejected envUpdated "not_a_category" (some "true") newsRefreshed
    (by decide)

/-- C12 as stated fails: the bulk read of `["weather", "not_a_category", "news"]` is
answered with status 400 and `success: false`; the body names the invalid id and has no
per-category results and no total, and no category has been read. -/
theorem C12_counterexample :
    (multiRoute envUpdated (some ["weather", "not_a_category", "news"]) (constructor 0)).1.status
      = 400 ∧
    (multiRoute envUpdated (some ["weather", "not_a_category", "news"]) (constructor 0)).1.success
      = false ∧
    (multiRoute envUpdated (some ["weather", "not_a_category", "news"])
        (constructor 0)).1.invalid_categories = some ["not_a_category"] ∧
    (multiRoute envUpdated (some ["weather", "not_a_category", "news"])
        (constructor 0)).1.categories = none ∧
    (multiRoute envUpdated (some ["weather", "not_a_category", "news"])
        (constructor 0)).1.total_categories = none ∧
    (multiRoute envUpdated (some ["weather", "not_a_category", "news"]) (constructor 0)).2
      = constructor 0 :=
  ⟨by decide, by decide, by decide, by decide, by decide, by decide⟩

/-- C12 (amended): a bulk read whose list holds at least one invalid id is rejected as a
whole: status 400, `success: false`, `invalid_categories` the invalid ids in request
order, `available_categories` the registry, no per-category result, and no category is
read. A bulk read (in a reachable state) whose ids are all valid answers 200 with one
result per distinct requested id, each reporting success with its payload, and
`total_categories` is the number of distinct requested ids. -/
theorem C12_bulk_read_all_or_nothing (env : Env) (cats : List String) (s : Service)
    (hne : cats ≠ []) :
    ((∃ c ∈ cats, c ∉ getCategories) →
      multiRoute env (some cats) s =
        (MultiReply.mk 400 false (some "Invalid categories")
          (some (cats.filter (fun cat => decide (cat ∉ getCategories))))
          (some getCategories) none none, s)) ∧
    ((∀ c ∈ cats, c ∈ getCategories) → Reachable s →
      ∃ results,
        (multiRoute env (some cats) s).1.status = 200 ∧
        (multiRoute env (some cats) s).1.success = true ∧
        (multiRoute env (some cats) s).1.categories = some results ∧
        (multiRoute env (some cats) s).1.total_categories = some results.length ∧
        results.length = cats.dedup.length ∧
        ∀ c ∈ cats, ∃ e, lookup c results = some e ∧ Succeeded e) := by
  cases cats with
  | nil => exact absurd rfl hne
  | cons c0 cs =>
    refine ⟨?_, ?_⟩
    · rintro ⟨c, hc, hbad⟩
      have hpos : ((c0 :: cs).filter
          (fun cat => decide (cat ∉ getAvailableCategories s))).length > 0 := by
        exact List.length_pos_of_mem
          (List.mem_filter.mpr ⟨hc, by simpa [getAvailableCategories] using hbad⟩)
      simp only [multiRoute, if_pos hpos]
      rfl
    · intro hall hr
      have hzero : ¬ ((c0 :: cs).filter
          (fun cat => decide (cat ∉ getAvailableCategories s))).length > 0 := by
        have hnil : (c0 :: cs).filter
            (fun cat => decide (cat ∉ getAvailableCategories s)) = [] := by
          rw [List.filter_eq_nil_iff]
          intro c hc
          simpa [getAvailableCategories] using hall c hc
        rw [hnil]
        simp
      obtain ⟨_, h2, h3, h4⟩ := multi_loop env (c0 :: cs) [] s hr hall (by simp)
        (fun _ h => by simp at h)
      refine ⟨((c0 :: cs).foldl (multiStep env) ([], s)).1, ?_, ?_, ?_, ?_, ?_, ?_⟩
      · simp only [multiRoute, if_neg hzero]
      · simp only [multiRoute, if_neg hzero]
      · simp only [multiRoute, if_neg hzero]
      · simp only [multiRoute, if_neg hzero]
      · have hperm : (((c0 :: cs).foldl (multiStep env) ([], s)).1.map Prod.fst).Perm
            (c0 :: cs).dedup := by
          rw [List.perm_ext_iff_of_nodup h2 (List.nodup_dedup _)]
          intro a
          rw [h4 a, List.mem_dedup]
          simp
        have := hperm.length_eq
        rw [List.length_map] at this
        exact this
      · intro c hc
        have hkey : c ∈ ((c0 :: cs).foldl (multiStep env) ([], s)).1.map Prod.fst :=
          (h4 c).mpr (Or.inr hc)
        obtain ⟨kv, hkv, hk⟩ := List.mem_map.mp hkey
        obtain ⟨k, e⟩ := kv
        simp only at hk
        subst hk
        exact ⟨e, lookup_of_mem k e _ h2 hkv, h3 _ hkv⟩

/-- Witness for the amended C12: one request with an invalid id, and one with valid ids
only (weather twice), both on a fresh service. -/
theorem C12_bulk_read_witness :
    multiRoute envUpdated (some ["weather", "not_a_category", "news"]) (constructor 0) =
      (MultiReply.mk 400 false (some "Invalid categories")
        (some (["weather", "not_a_category", "news"].filter
          (fun cat => decide (cat ∉ getCategories))))
        (some getCategories) none none, constructor 0) ∧
    (∃ results,
      (multiRoute envUpdated (some ["weather", "news", "weather"]) (constructor 0)).1.status
        = 200 ∧
      (multiRoute envUpdated (some ["weather", "news", "weather"]) (constructor 0)).1.success
        = true ∧
      (multiRoute envUpdated (some ["weather", "news", "weather"])
          (constructor 0)).1.categories = some results ∧
      (multiRoute envUpdated (some ["weather", "news", "weather"])
          (constructor 0)).1.total_categories = some results.length ∧
      results.length = ["weather", "news", "weather"].dedup.length ∧
      ∀ c ∈ ["weather", "news", "weather"], ∃ e, lookup c results = some e ∧ Succeeded e) :=
  ⟨(C12_bulk_read_all_or_nothing envUpdated ["weather", "not_a_category", "news"]
      (constructor 0) (by decide)).1 ⟨"not_a_category", by decide, by decide⟩,
   (C12_bulk_read_all_or_nothing envUpdated ["weather", "news", "weather"]
      (constructor 0) (by decide)).2 (by decide) (Reachable.init 0)⟩

/-- C13: if all attempts of `fetchCategoryData(c)` fail, the cache and `data` are
exactly what they were before the call, so an existing entry of `c` keeps its payload
and its timestamp and is not removed, `data[c]` is unchanged, and no `dataUpdate` event
is emitted. -/
theorem C13_failed_refresh_keeps_entry (env : Env) (c : String) (s : Service)
    (hfail : ∀ i, i < s.maxRetries → FailsAt env c (s.attempts + i)) :
    lookup c (fetchCategoryData env c s).2.cache = lookup c s.cache ∧
    (∀ p T, lookup c s.cache = some (CacheEntry.mk p T) →
      lookup c (fetchCategoryData env c s).2.cache = some (CacheEntry.mk p T)) ∧
    (fetchCategoryData env c s).2.cache = s.cache ∧
    dataGet c (fetchCategoryData env c s).2.data = dataGet c s.data ∧
    (fetchCategoryData env c s).2.data = s.data ∧
    (fetchCategoryData env c s).2.emitted = s.emitted := by
  have h := (retryLoop_all_fail env c s hfail).1
  have hc : (fetchCategoryData env c s).2.cache = s.cache := h.2.1
  have hd : (fetchCategoryData env c s).2.data = s.data := h.1
  exact ⟨by rw [hc], fun p T hl => by rw [hc]; exact hl, hc, by rw [hd], hd, h.2.2.1⟩

/-- Witness for C13: weather holds an entry stamped 10; then its provider is down for a
whole refresh, and the entry is still the one stamped 10. -/
theorem C13_failed_refresh_witness :
    lookup "weather" (fetchCategoryData envWeatherDown "weather"
        (fetchCategoryData envUpdated "weather" (constructor 0)).2).2.cache
      = some (CacheEntry.mk (Payload.list [Atom.json "newer item"]) 10) :=
  (C13_failed_refresh_keeps_entry envWeatherDown "weather"
      (fetchCategoryData envUpdated "weather" (constructor 0)).2
      (fun _ _ => envWeatherDown_fails _)).2.1
    (Payload.list [Atom.json "newer item"]) 10 (by decide)

/-- C14: for every other category `d ≠ c`, a call `fetchCategoryData(c)`, however its
attempts end, leaves the cache entry and the data value of `d` unchanged; and the cache
holds at most one entry per category id, before and after the call, in every reachable
state. -/
theorem C14_other_categories_untouched (env : Env) (c d : String) (s : Service)
    (hd : d ≠ c) :
    lookup d (fetchCategoryData env c s).2.cache = lookup d s.cache ∧
    dataGet d (fetchCategoryData env c s).2.data = dataGet d s.data ∧
    ((s.cache.map Prod.fst).Nodup →
      ((fetchCategoryData env c s).2.cache.map Prod.fst).Nodup) ∧
    (Reachable s → (s.cache.map Prod.fst).Nodup ∧
      ((fetchCategoryData env c s).2.cache.map Prod.fst).Nodup) := by
  have h := retryLoop_other env c d hd s.maxRetries 0 s
  refine ⟨h.1, h.2, retryLoop_cache_nodup env c s.maxRetries 0 s, ?_⟩
  intro hr
  exact ⟨reachable_cache_nodup hr, reachable_cache_nodup (Reachable.fetch env c hr)⟩

/-- Witness for C14: a refresh of weather, with its provider down or up, on a service
that holds news. -/
theorem C14_other_categories_witness :
    lookup "news" (fetchCategoryData envWeatherDown "weather" newsRefreshed).2.cache
      = lookup "news" newsRefreshed.cache ∧
    dataGet "news" (fetchCategoryData envUpdated "weather" newsRefreshed).2.data
      = dataGet "news" newsRefreshed.data ∧
    ((fetchCategoryData envUpdated "weather" newsRefreshed).2.cache.map Prod.fst).Nodup :=
  ⟨(C14_other_categories_untouched envWeatherDown "weather" "news" newsRefreshed
      (by decide)).1,
   (C14_other_categories_untouched envUpdated "weather" "news" newsRefreshed
      (by decide)).2.1,
   ((C14_other_categories_untouched envUpdated "weather" "news" newsRefreshed
      (by decide)).2.2.2
      (Reachable.fetch envWeatherDown "news" (Reachable.init 0))).2⟩

/-- C15: `fetchAllData` resolves without raising, and it is the sequence of one
`fetchCategoryData` call per element of `getCategories()`, in list order: its final
state is the state after those calls, and (with a positive retry budget) the fetch
attempts it makes are, category after category in list order, the attempts of exactly
one run for that category, whatever the fetchers do; so every category after a failing
one is still processed. -/
theorem C15_sweep_visits_every_category (env : Env) (s : Service) :
    (fetchAllData env s).1 = Completion.resolved Payload.undefined ∧
    (fetchAllData env s).2
      = getCategories.foldl (fun st c => (fetchCategoryData env c st).2) s ∧
    (0 < s.maxRetries →
      ∃ blocks, (fetchAllData env s).2.calls = s.calls ++ blocks.flatten ∧
        List.Forall₂ (OneRun s.maxRetries) getCategories blocks) := by
  refine ⟨by simp only [fetchAllData], ?_, ?_⟩
  · rw [fetchAllData_snd]
    exact sweep_is_sequence env getCategories s
  · intro h0
    rw [fetchAllData_snd]
    exact sweep_runs env getCategories s h0

/-- Witness for C15: the sweep of a fresh service while the weather provider, first in
the list, is down. -/
theorem C15_sweep_witness :
    ∃ blocks, (fetchAllData envWeatherDown (constructor 0)).2.calls
        = (constructor 0).calls ++ blocks.flatten ∧
      List.Forall₂ (OneRun (constructor 0).maxRetries) getCategories blocks :=
  (C15_sweep_visits_every_category envWeatherDown (constructor 0)).2.2 (by decide)

/-- C16 as stated fails: weather is registered, its provider is down and the service is
fresh; the refresh command makes the 3 attempts of the forced refresh, then `getData`
makes 3 more, and what it returns is the generic record made up by `getData`, although
the whole command ends within the freshness window. -/
theorem C16_counterexample :
    "weather" ∈ getCategories ∧
    (fetchCategoryData envWeatherDown "weather" (constructor 0)).2.attempts = 3 ∧
    (refreshRoute envWeatherDown "weather" (constructor 0)).2.attempts = 6 ∧
    (refreshRoute envWeatherDown "weather" (constructor 0)).2.now < 300000 ∧
    (refreshRoute envWeatherDown "weather" (constructor 0)).1.data
      = some (generateGenericMockData "weather" 6060) ∧
    lookup "weather" (refreshRoute envWeatherDown "weather" (constructor 0)).2.cache = none :=
  ⟨by decide, by decide, by decide, by decide, by decide, by decide⟩

/-- C16 (amended): if one of the attempts of the forced refresh `fetchCategoryData(c)`
returns a truthy payload `p`, then `getData(c)`, called less than `updateInterval`
after the refresh ended, resolves with `p` and leaves the state as it is, so it makes no
fetch attempt; in particular, for a registered category and a positive
`updateInterval`, the refresh command answers 200 with `p` and makes no attempt beyond
those of the forced refresh. -/
theorem C16_refresh_then_read (env env2 : Env) (c : String) (s : Service) (T : Nat)
    (p : Payload) (ms : Nat)
    (hcall : Call.mk c T (Outcome.returned p) ∈
      (fetchCategoryData env c s).2.calls.drop s.calls.length)
    (hp : truthy p = true) (hms : ms < s.updateInterval) :
    getData env2 c (advance ms (fetchCategoryData env c s).2)
      = (Completion.resolved p, advance ms (fetchCategoryData env c s).2) ∧
    (getData env2 c (advance ms (fetchCategoryData env c s).2)).2.attempts
      = (fetchCategoryData env c s).2.attempts ∧
    (c ∈ getCategories →
      refreshRoute env c s
        = (dataReply (some ("Data refreshed for " ++ c)) c T p,
            (fetchCategoryData env c s).2)) := by
  obtain ⟨hentry, hnow, _⟩ := fetch_returned_entry env c s T p hcall hp
  have hint : (fetchCategoryData env c s).2.updateInterval = s.updateInterval :=
    (retryLoop_config env c s.maxRetries 0 s).1
  have hread : ∀ (e : Env) (k : Nat), k < s.updateInterval →
      getData e c (advance k (fetchCategoryData env c s).2)
        = (Completion.resolved p, advance k (fetchCategoryData env c s).2) := by
    intro e k hk
    have hl : lookup c (advance k (fetchCategoryData env c s).2).cache
        = some (CacheEntry.mk p T) := hentry
    have hn : (advance k (fetchCategoryData env c s).2).now = T + k := by
      show (fetchCategoryData env c s).2.now + k = T + k
      rw [hnow]
    have hi : (advance k (fetchCategoryData env c s).2).updateInterval = s.updateInterval :=
      hint
    exact getData_fresh e c _ (CacheEntry.mk p T) hl (by
      rw [hn, hi]
      show ((T + k : Nat) : Int) - (T : Int) < (s.updateInterval : Int)
      omega)
  refine ⟨hread env2 ms hms, ?_, ?_⟩
  · rw [hread env2 ms hms]
    rfl
  · intro hc
    have h0 := hread env 0 (by omega)
    have hadv : advance 0 (fetchCategoryData env c s).2 = (fetchCategoryData env c s).2 := rfl
    rw [hadv] at h0
    have hmem : ¬ c ∉ getAvailableCategories s := fun h => h hc
    have hpair : fetchCategoryData env c s
        = (Completion.resolved Payload.undefined, (fetchCategoryData env c s).2) := rfl
    simp only [refreshRoute, if_neg hmem]
    rw [hpair]
    simp only [h0, hnow]

set_option maxRecDepth 100000 in
/-- Witness for the amended C16: weather answers on its third attempt, at time 3030; a
read 299999 ms later returns that answer without a fetch, and so does the refresh
command. -/
theorem C16_refresh_then_read_witness :
    getData envWeatherDown "weather"
        (advance 299999 (fetchCategoryData envWeatherFlaky "weather" (constructor 0)).2)
      = (Completion.resolved (Payload.list [Atom.json "item"]),
          advance 299999 (fetchCategoryData envWeatherFlaky "weather" (constructor 0)).2) ∧
    refreshRoute envWeatherFlaky "weather" (constructor 0)
      = (dataReply (some ("Data refreshed for " ++ "weather")) "weather" 3030
            (Payload.list [Atom.json "item"]),
          (fetchCategoryData envWeatherFlaky "weather" (constructor 0)).2) :=
  ⟨(C16_refresh_then_read envWeatherFlaky envWeatherDown "weather" (constructor 0) 3030
      (Payload.list [Atom.json "item"]) 299999 (by decide) (by decide) (by decide)).1,
   (C16_refresh_then_read envWeatherFlaky envWeatherDown "weather" (constructor 0) 3030
      (Payload.list [Atom.json "item"]) 299999 (by decide) (by decide) (by decide)).2.2
      (by decide)⟩

/-- C17: for an open socket subscribed to `c`, a refresh `fetchCategoryData(c)` on the
server's instance in which an attempt returns a truthy payload `p` delivers exactly one
message to that socket, the update `(c, p)`; a refresh of any other category `d`,
successful or not, delivers nothing to it. -/
theorem C17_subscriber_gets_own_updates (env : Env) (c : String) (sys : Server) (i : Nat)
    (client : Client) (hi : sys.clients[i]? = some client)
    (hopen : client.readyState = ReadyState.OPEN) (hcat : client.category = some c) :
    (∀ T p,
      Call.mk c T (Outcome.returned p) ∈
        (fetchCategoryData env c sys.liveDataService).2.calls.drop
          sys.liveDataService.calls.length →
      truthy p = true →
      (serverRefresh env c sys).clients[i]? =
        some { client with received := client.received ++ [WsMessage.update c p] }) ∧
    (∀ d, d ≠ c → (serverRefresh env d sys).clients[i]? = some client) := by
  refine ⟨?_, ?_⟩
  · intro T p hcall hp
    have hem := (fetch_returned_entry env c sys.liveDataService T p hcall hp).2.2
    have hb : (serverRefresh env c sys).clients
        = [Event.mk c p].foldl onDataUpdate sys.clients := by
      simp only [serverRefresh, broadcast]
      rw [hem]
      simp
    rw [hb, listener_delivers c i _ _ client hi hopen hcat]
    simp [updatesFor]
  · intro d hd
    obtain ⟨evs, h1, h2⟩ := retryLoop_events env d sys.liveDataService.maxRetries 0
      sys.liveDataService
    have hb : (serverRefresh env d sys).clients = evs.foldl onDataUpdate sys.clients := by
      simp only [serverRefresh, broadcast, fetchCategoryData]
      rw [h1]
      simp
    rw [hb, listener_delivers c i _ _ client hi hopen hcat]
    have hnone : updatesFor c evs = [] := by
      have hf : evs.filter (fun e => decide (e.category = c)) = [] := by
        rw [List.filter_eq_nil_iff]
        intro e he
        rw [h2 e he]
        simpa using hd
      simp only [updatesFor, hf, List.map_nil]
    rw [hnone]
    simp

/-- Witness for C17: the socket of `subscribedServer`, subscribed to news, when the
server's instance refreshes news successfully and when it refreshes stocks. -/
theorem C17_subscriber_witness :
    (serverRefresh envUpdated "news" subscribedServer).clients[0]? =
      some { (Client.mk ReadyState.OPEN (some "news")
                [WsMessage.update "news" (Payload.list [Atom.json "item"]),
                 WsMessage.initial "news" (Payload.list [Atom.json "item"])]) with
        received :=
          [WsMessage.update "news" (Payload.list [Atom.json "item"]),
           WsMessage.initial "news" (Payload.list [Atom.json "item"])] ++
          [WsMessage.update "news" (Payload.list [Atom.json "newer item"])] } ∧
    (serverRefresh envUpdated "stocks" subscribedServer).clients[0]? =
      some (Client.mk ReadyState.OPEN (some "news")
        [WsMessage.update "news" (Payload.list [Atom.json "item"]),
         WsMessage.initial "news" (Payload.list [Atom.json "item"])]) :=
  ⟨(C17_subscriber_gets_own_updates envUpdated "news" subscribedServer 0
      (Client.mk ReadyState.OPEN (some "news")
        [WsMessage.update "news" (Payload.list [Atom.json "item"]),
         WsMessage.initial "news" (Payload.list [Atom.json "item"])])
      (by decide) (by decide) (by decide)).1 20
      (Payload.list [Atom.json "newer item"]) (by decide) (by decide),
   (C17_subscriber_gets_own_updates envUpdated "news" subscribedServer 0
      (Client.mk ReadyState.OPEN (some "news")
        [WsMessage.update "news" (Payload.list [Atom.json "item"]),
         WsMessage.initial "news" (Payload.list [Atom.json "item"])])
      (by decide) (by decide) (by decide)).2 "stocks" (by decide)⟩

/-- C18, evaluated on the code: the HTTP handlers run on the router's own instance and
never touch the sockets or the server's instance. With a socket subscribed to news, the
refresh command and the read with `refresh=true` both fetch newer news and emit
`dataUpdate` on the router's instance, and the socket receives nothing, while the same
refresh on the server's instance sends it the update. -/
theorem C18_http_refresh_reaches_no_subscriber :
    (∀ (env : Env) (c : String) (sys : Server),
      (httpRefresh env c sys).2.clients = sys.clients ∧
      (httpRefresh env c sys).2.liveDataService = sys.liveDataService) ∧
    (∀ (env : Env) (c : String) (refresh : Option String) (sys : Server),
      (httpRead env c refresh sys).2.clients = sys.clients ∧
      (httpRead env c refresh sys).2.liveDataService = sys.liveDataService) ∧
    subscribedServer.clients =
      [Client.mk ReadyState.OPEN (some "news")
        [WsMessage.update "news" (Payload.list [Atom.json "item"]),
         WsMessage.initial "news" (Payload.list [Atom.json "item"])]] ∧
    (httpRefresh envUpdated "news" subscribedServer).1.data
      = some (Payload.list [Atom.json "newer item"]) ∧
    (httpRefresh envUpdated "news" subscribedServer).2.routerLiveDataService.emitted
      = [Event.mk "news" (Payload.list [Atom.json "newer item"])] ∧
    (httpRefresh envUpdated "news" subscribedServer).2.clients = subscribedServer.clients ∧
    (httpRead envUpdated "news" (some "true") subscribedServer).2.routerLiveDataService.emitted
      = [Event.mk "news" (Payload.list [Atom.json "newer item"])] ∧
    (httpRead envUpdated "news" (some "true") subscribedServer).2.clients
      = subscribedServer.clients ∧
    (serverRefresh envUpdated "news" subscribedServer).clients =
      [Client.mk ReadyState.OPEN (some "news")
        [WsMessage.update "news" (Payload.list [Atom.json "item"]),
         WsMessage.initial "news" (Payload.list [Atom.json "item"]),
         WsMessage.update "news" (Payload.list [Atom.json "newer item"])]] :=
  ⟨fun _ _ _ => ⟨rfl, rfl⟩, fun _ _ _ _ => ⟨rfl, rfl⟩, by decide, by decide, by decide,
   by decide, by decide, by decide, by decide⟩

/-- C19 as stated fails: on a service with nothing fetched the summary lists no
category at all, although 62 are registered; and after one refresh of news it lists news
only. -/
theorem C19_counterexample :
    Reachable (constructor 0) ∧ getCategories.length = 62 ∧
    (summaryRoute (constructor 0)).categories_summary = [] ∧
    (summaryRoute (constructor 0)).total_categories = 0 ∧
    Reachable newsRefreshed ∧
    (summaryRoute newsRefreshed).categories_summary = [SummaryItem.mk "news" true 1] :=
  ⟨Reachable.init 0, by decide, by decide, by decide,
   Reachable.fetch envWeatherDown "news" (Reachable.init 0), by decide⟩

/-- C19 (amended): in every reachable service state the summary lists exactly the
categories that have a value in `data` (the own keys of that object), each exactly once,
so none on a service with nothing fetched; every listed category has `has_data` true and
a `data_count` equal to the payload's length if the payload is a sequence and to 1
otherwise; `total_categories` and `active_categories` both count the listed ones. -/
theorem C19_summary_lists_stored_categories (s : Service) (hr : Reachable s) :
    ((summaryRoute s).categories_summary.map SummaryItem.name).Nodup ∧
    (∀ c, c ∈ (summaryRoute s).categories_summary.map SummaryItem.name ↔
      (lookup c s.data).isSome = true) ∧
    (∀ item ∈ (summaryRoute s).categories_summary,
      item.has_data = true ∧
      ∃ p, lookup item.name s.data = some p ∧ truthy p = true ∧
        (∀ items, p = Payload.list items → item.data_count = items.length) ∧
        ((∀ items, p ≠ Payload.list items) → item.data_count = 1)) ∧
    (summaryRoute s).total_categories = s.data.length ∧
    (summaryRoute s).active_categories = s.data.length ∧
    (∀ t, (summaryRoute (constructor t)).categories_summary = []) := by
  obtain ⟨hnodup, hproto, htruthy⟩ := reachable_dataClean hr
  have hperm := objectKeys_perm s.data
  have hnames : (summaryRoute s).categories_summary.map SummaryItem.name
      = objectKeys s.data := by
    simp only [summaryRoute, getAllData, List.map_map]
    have : (SummaryItem.name ∘ summaryItem s.data) = id := by
      funext c; rfl
    rw [this, List.map_id]
  have hkey : ∀ c, c ∈ objectKeys s.data →
      ∃ p, lookup c s.data = some p ∧ truthy p = true ∧ dataGet c s.data = p := by
    intro c hc
    have hc2 : c ∈ s.data.map Prod.fst := hperm.mem_iff.mp hc
    obtain ⟨kv, hkv, hk⟩ := List.mem_map.mp hc2
    obtain ⟨k, v⟩ := kv
    simp only at hk
    subst hk
    have hl := lookup_of_mem k v s.data hnodup hkv
    have hne : k ≠ "__proto__" := fun e => hproto (e ▸ hc2)
    refine ⟨v, hl, htruthy _ hkv, ?_⟩
    simp only [dataGet, if_neg hne, hl]
  have hactive : (objectKeys s.data).filter (fun cat => truthy (dataGet cat s.data))
      = objectKeys s.data := by
    rw [List.filter_eq_self]
    intro c hc
    obtain ⟨p, _, hp, hd⟩ := hkey c hc
    rw [hd]; exact hp
  refine ⟨?_, ?_, ?_, ?_, ?_, ?_⟩
  · rw [hnames]
    exact hperm.nodup_iff.mpr hnodup
  · intro c
    rw [hnames, hperm.mem_iff, lookup_isSome_iff]
  · intro item hitem
    simp only [summaryRoute, getAllData, List.mem_map] at hitem
    obtain ⟨c, hc, hi⟩ := hitem
    obtain ⟨p, hl, hp, hd⟩ := hkey c hc
    subst hi
    have hhas : (summaryItem s.data c).has_data = true := by
      simp only [summaryItem, hd, hp]
    have hcount : (summaryItem s.data c).data_count = dataCount p := by
      simp only [summaryItem, hd, hp, if_true]
    refine ⟨hhas, p, hl, hp, ?_, ?_⟩
    · intro items hitems
      rw [hcount, hitems]; rfl
    · intro hnot
      rw [hcount]
      cases p with
      | list items => exact absurd rfl (hnot items)
      | _ => rfl
  · show (objectKeys s.data).length = s.data.length
    rw [hperm.length_eq, List.length_map]
  · show ((objectKeys s.data).filter (fun cat => truthy (dataGet cat s.data))).length
      = s.data.length
    rw [hactive, hperm.length_eq, List.length_map]
  · intro t; rfl

/-- Witness for the amended C19: the service that has refreshed news only. -/
theorem C19_summary_witness :
    ((summaryRoute newsRefreshed).categories_summary.map SummaryItem.name).Nodup ∧
    (∀ c, c ∈ (summaryRoute newsRefreshed).categories_summary.map SummaryItem.name ↔
      (lookup c newsRefreshed.data).isSome = true) ∧
    (summaryRoute newsRefreshed).total_categories = newsRefreshed.data.length :=
  ⟨(C19_summary_lists_stored_categories newsRefreshed
      (Reachable.fetch envWeatherDown "news" (Reachable.init 0))).1,
   (C19_summary_lists_stored_categories newsRefreshed
      (Reachable.fetch envWeatherDown "news" (Reachable.init 0))).2.1,
   (C19_summary_lists_stored_categories newsRefreshed
      (Reachable.fetch envWeatherDown "news" (Reachable.init 0))).2.2.2.1⟩

/-- C20: the list returned by `getCategories()` has no duplicate id and has 62
elements, more than 50; `getAvailableCategories()` returns that same list whatever the
service state. -/
theorem C20_registry_is_fixed_and_duplicate_free :
    getCategories.Nodup ∧ 50 < getCategories.length ∧ getCategories.length = 62 ∧
    (∀ s : Service, getAvailableCategories s = getCategories) ∧
    (∀ s t : Service, getAvailableCategories s = getAvailableCategories t) :=
  ⟨by decide, by decide, by decide, fun _ => rfl, fun _ _ => rfl⟩

/-- C21: for every registered category id, every sequence of draws (doubles in `[0, 1)`)
and every clock value, `generateMockData(id)` returns a payload (it does not raise), the
payload is truthy and nothing in it is `undefined`. The arithmetic is that of the
program: every product, sum and difference is rounded to the nearest double, ties to
even, before `Math.floor` is taken. The index `Math.floor(Math.random() * n)` so
computed lies in `0 .. n-1` for every `n ≥ 1`, so a non-empty option list indexed with
it, `n` its length, always yields one of its elements. The call makes no fetch attempt
and leaves the stores alone: in the engine's state only the count of generator calls can
change, and its result is the function `generateMockDataAt` of the draws and the clock
alone. Dates are kept as the arguments they are built from. -/
theorem C21_synthesizer_total (c : String) (hc : c ∈ getCategories)
    (random : Nat → Draw) (now : Nat) :
    (∃ p, generateMockDataAt random now c = Outcome.returned p ∧ truthy p = true ∧
      p.defined = true) ∧
    (∀ r : Draw, 0 ≤ r.value ∧ r.value < 1) ∧
    (∀ (r : Draw) (n : ℕ), 0 < n →
      0 ≤ ⌊times r.value (n : ℚ)⌋ ∧ ⌊times r.value (n : ℚ)⌋ < (n : ℤ)) ∧
    (∀ (options : List String) (r : Draw), options ≠ [] →
      ∃ o ∈ options, pick options ⌊times r.value (options.length : ℚ)⌋ = Leaf.text o) ∧
    (∀ (env : Env) (s : Service),
      (∃ p, (generateMockData env c s).1 = Outcome.returned p ∧ truthy p = true) ∧
      (generateMockData env c s).2.calls = s.calls ∧
      (generateMockData env c s).2.now = s.now ∧
      SameStores s (generateMockData env c s).2) ∧
    (∀ (env : Env) (s : Service), s.now = now →
      (∀ g, lookup c generators = some g → env.generator c s.draws = g random s.now) →
      (generateMockData env c s).1 = generateMockDataAt random now c) := by
  refine ⟨generateMockDataAt_registered random now c hc,
    fun r => ⟨draw_value_nonneg r, draw_value_lt_one r⟩, floor_times_bounds,
    pick_in_bounds, ?_, ?_⟩
  · intro env s
    have h := generateMockData_same env c s
    exact ⟨generateMockData_registered env c s hc, h.2.2.1, h.2.1, h.1⟩
  · intro env s hnow hworld
    rw [← hnow]
    exact generateMockData_eq_at env c s random hworld

/-- Witness for C21: `travel_advisories` with every draw equal to 3/4 at clock 1000, and
the four advisories indexed with that draw. Two evaluations of the rounded arithmetic:
with the draw `0.6` the index into a five-option list is `Math.floor(0.6 * 5) = 3`, the
product rounding up to 3; with the largest draw `1 - 2^(-53)` the value
`Math.floor(r * 100000 + 50000)` is 150000, the sum rounding up on a tie. -/
theorem C21_synthesizer_witness :
    (∃ p, generateMockDataAt (fun _ => highDraw) 1000 "travel_advisories"
        = Outcome.returned p ∧ truthy p = true ∧ p.defined = true) ∧
    (∃ o ∈ ["Exercise normal precautions", "Exercise increased caution",
          "Reconsider travel", "Do not travel"],
      pick ["Exercise normal precautions", "Exercise increased caution",
          "Reconsider travel", "Do not travel"]
        ⌊times highDraw.value ((["Exercise normal precautions",
          "Exercise increased caution", "Reconsider travel",
          "Do not travel"] : List String).length : ℚ)⌋ = Leaf.text o) ∧
    ⌊times pointSixDraw.value 5⌋ = 3 ∧
    ⌊plus (times maxDraw.value 100000) 50000⌋ = 150000 :=
  ⟨(C21_synthesizer_total "travel_advisories" (by decide) (fun _ => highDraw) 1000).1,
   (C21_synthesizer_total "travel_advisories" (by decide) (fun _ => highDraw) 1000).2.2.2.1
     _ highDraw (by decide),
   times_pointSix_five, salary_at_maxDraw⟩

set_option maxRecDepth 100000 in
/-- C22, counterexample: with the weather provider down, `getData('weather')` on a fresh
service returns the generic record, whose `status` is `'active'`: nothing in it marks it
as demo or fallback data. The object that `generateMockData` builds for `gold_prices`
has no `status` field at all. -/
theorem C22_counterexample :
    (getData envWeatherDown "weather" (constructor 0)).1 = Completion.resolved
      (Payload.record [("category", Atom.text "weather"),
        ("data", Atom.text "Mock data for weather"),
        ("timestamp", Atom.instant 3030), ("status", Atom.text "active")]) ∧
    Payload.valuesAt "status"
      (Payload.record [("category", Atom.text "weather"),
        ("data", Atom.text "Mock data for weather"),
        ("timestamp", Atom.instant 3030), ("status", Atom.text "active")])
      = [Atom.text "active"] ∧
    Payload.valuesAt "status" (generateMockGoldPrices (fun _ => highDraw) 0).toPayload = [] :=
  ⟨by decide, by decide, by decide⟩

/-- C22, amended: the payload that `getData(c)` returns as a fallback, for a registered
category without entry all of whose fetch attempts fail, is the generic record of
`generateGenericMockData`: its `status` is the constant `'active'`, its `data` is the
text `'Mock data for ' + c`, and it is not cached. The objects of the table generators
carry no `status` field, except the rows of `patent_filings`, whose `status` is one of
`'Pending'`, `'Granted'`, `'Published'`, `'Abandoned'`. -/
theorem C22_fallback_status_is_active (env : Env) (c : String) (s : Service)
    (hr : Reachable s) (hc : c ∈ getCategories) (hnoentry : lookup c s.cache = none)
    (hfail : ∀ i, FailsAt env c i) :
    (∃ p, (getData env c s).1 = Completion.resolved p ∧
      p = generateGenericMockData c (getData env c s).2.now ∧
      Payload.valuesAt "status" p = [Atom.text "active"] ∧
      Payload.valuesAt "data" p = [Atom.text ("Mock data for " ++ c)]) ∧
    lookup c (getData env c s).2.cache = none ∧
    (∀ k ∈ generatorKeys, ∀ (random : Nat → Draw) (now : Nat),
      ∃ p, generateMockDataAt random now k = Outcome.returned p ∧
        (k ≠ "patent_filings" → Payload.valuesAt "status" p = []) ∧
        ∀ v ∈ Payload.valuesAt "status" p,
          v ∈ [Atom.leaf (Leaf.text "Pending"), Atom.leaf (Leaf.text "Granted"),
            Atom.leaf (Leaf.text "Published"), Atom.leaf (Leaf.text "Abandoned")]) := by
  have hsw := failing_is_switchCase env c hc hfail
  have hni := registered_not_inherited c hc
  have hund := reachable_no_entry_no_data hr c hni hnoentry
  have hnodata : truthy (dataGet c s.data) = false := by rw [hund]; rfl
  obtain ⟨hsame, _, _⟩ :=
    getData_exhausted_state env c s hnoentry hnodata (fun i _ => hfail _)
  refine ⟨⟨generateGenericMockData c (getData env c s).2.now, ?_, rfl, ?_, ?_⟩, ?_, ?_⟩
  · rw [getData_exhausted env c s hnoentry hnodata (fun i _ => hfail _),
      generateMockData_switchCase env c _ hsw]
  · simp [generateGenericMockData, Payload.valuesAt, Atom.valuesAt]
  · simp [generateGenericMockData, Payload.valuesAt, Atom.valuesAt]
  · rw [hsame.2.1]; exact hnoentry
  · intro k hk random now
    obtain ⟨g, hmem, _, heq⟩ := generateMockDataAt_generated random now k hk
    have h := generators_status (k, g) hmem random now
    exact ⟨_, heq, h.1, h.2⟩

/-- Witness for C22: weather read on a fresh service while its provider is down. -/
theorem C22_fallback_status_witness :
    (∃ p, (getData envWeatherDown "weather" (constructor 0)).1 = Completion.resolved p ∧
      p = generateGenericMockData "weather"
        (getData envWeatherDown "weather" (constructor 0)).2.now ∧
      Payload.valuesAt "status" p = [Atom.text "active"] ∧
      Payload.valuesAt "data" p = [Atom.text ("Mock data for " ++ "weather")]) ∧
    lookup "weather" (getData envWeatherDown "weather" (constructor 0)).2.cache = none :=
  ⟨(C22_fallback_status_is_active envWeatherDown "weather" (constructor 0)
      (Reachable.init 0) (by decide) (by decide) envWeatherDown_fails).1,
   (C22_fallback_status_is_active envWeatherDown "weather" (constructor 0)
      (Reachable.init 0) (by decide) (by decide) envWeatherDown_fails).2.1⟩

set_option maxRecDepth 100000 in
/-- C23: `fetchWeatherData` with all five city requests failing returns the empty list,
not a mock list: it has no fallback. The empty list is truthy, so the engine stores and
publishes it as the weather payload. `fetchStocksData` with all five symbol requests
failing does fall back: it returns the list of `generateMockStocks`, which has five
items. -/
theorem C23_weather_has_no_fallback :
    (∀ message : String, fetchWeatherData (fun _ => Reply.failed message) = Payload.list []) ∧
    (∀ (message : String) (random : Nat → Draw) (now : Nat),
      fetchStocksData (fun _ => Reply.failed message) random now
        = (generateMockStocks random now).toPayload ∧
      ∃ items, (generateMockStocks random now).toPayload = Payload.list items ∧
        items.length = 5) ∧
    truthy (fetchWeatherData (fun _ => Reply.failed "timeout")) = true ∧
    lookup "weather"
      (fetchCategoryData (envAnswering (fetchWeatherData (fun _ => Reply.failed "timeout")))
        "weather" (constructor 0)).2.cache = some (CacheEntry.mk (Payload.list []) 10) := by
  refine ⟨fun _ => rfl, ?_, rfl, by decide⟩
  intro message random now
  refine ⟨rfl, ?_⟩
  simp [generateMockStocks, MockObj.toPayload]

/-- C24: in every reachable state the history of the service is a sequence of successful
attempts, each contributing its write to `data`, its cache write and, right after it,
its own `dataUpdate` event, with nothing in between; so for each category `c` the
payloads carried by the emitted events for `c` are, in the same order, the payloads
written to the cache entry of `c`. -/
theorem C24_notifications_follow_writes (s : Service) (hr : Reachable s) :
    (∃ ws, s.effects = effectsOf ws ∧ s.emitted = eventsOf ws) ∧
    (∀ c, eventPayloadsFor c s.emitted = cacheWritesFor c s.effects ∧
      notificationsFor c s.effects = cacheWritesFor c s.effects) := by
  obtain ⟨ws, h1, h2⟩ := reachable_paired hr
  refine ⟨⟨ws, h1, h2⟩, ?_⟩
  intro c
  have h := cacheWritesFor_effectsOf c ws
  rw [h1, h2]
  exact ⟨h.1.symm, h.2.trans h.1.symm⟩

/-- Witness for C24: news refreshed twice with different content, weather in between;
the events for news and the cache writes for news are the same two payloads. -/
theorem C24_notifications_witness :
    eventPayloadsFor "news"
        (fetchCategoryData envUpdated "news"
          (fetchCategoryData envUpdated "weather" newsRefreshed).2).2.emitted
      = cacheWritesFor "news"
        (fetchCategoryData envUpdated "news"
          (fetchCategoryData envUpdated "weather" newsRefreshed).2).2.effects ∧
    cacheWritesFor "news"
        (fetchCategoryData envUpdated "news"
          (fetchCategoryData envUpdated "weather" newsRefreshed).2).2.effects
      = [Payload.list [Atom.json "item"], Payload.list [Atom.json "newer item"]] :=
  ⟨((C24_notifications_follow_writes
      (fetchCategoryData envUpdated "news"
        (fetchCategoryData envUpdated "weather" newsRefreshed).2).2
      (Reachable.fetch envUpdated "news" (Reachable.fetch envUpdated "weather"
        (Reachable.fetch envWeatherDown "news" (Reachable.init 0))))).2 "news").1,
   by decide⟩

set_option maxRecDepth 100000 in
/-- C25: the class defines no method `generateMockNewsData`, `generateMockWeatherData`,
`generateMockRedditTrends`, `fetchRedditTrends` or `generateMockCoursesData` (it defines
`generateMockNews`, `fetchRedditTrending` and `generateMockRedditTrending`). Hence
`fetchDjangoNewsData` rejects with a `TypeError` when the key is `'demo'` and whenever
the provider call fails; `fetchDjangoTrendingData` rejects in every case;
`fetchDjangoWeatherData` rejects when a key is configured and the provider call fails.
With the `'demo'` key `fetchDjangoWeatherData` resolves, and `fetchDjangoSportsData` and
`fetchDjangoCoursesData` always resolve. -/
theorem C25_django_methods_reject :
    ("generateMockNewsData" ∉ classMethods ∧ "generateMockWeatherData" ∉ classMethods ∧
      "fetchRedditTrends" ∉ classMethods ∧ "generateMockRedditTrends" ∉ classMethods ∧
      "generateMockCoursesData" ∉ classMethods) ∧
    ("generateMockNews" ∈ classMethods ∧ "fetchRedditTrending" ∈ classMethods ∧
      "generateMockRedditTrending" ∈ classMethods) ∧
    (∀ provider : Outcome, fetchDjangoNewsData "demo" provider
      = Completion.rejected "this.generateMockNewsData is not a function") ∧
    (∀ key message : String, fetchDjangoNewsData key (Outcome.threw message)
      = Completion.rejected "this.generateMockNewsData is not a function") ∧
    (∀ (twitter youtube mockTwitter mockYoutube : List (List (String × Leaf))) (now : Nat),
      fetchDjangoTrendingData twitter youtube mockTwitter mockYoutube now
        = Completion.rejected "this.generateMockRedditTrends is not a function") ∧
    (∀ (city : Option String) (message : String) (random : Nat → Draw) (now : Nat),
      fetchDjangoWeatherData "0123456789abcdef" city (Outcome.threw message) random now
        = Completion.rejected "this.generateMockWeatherData is not a function") ∧
    (∀ (city : Option String) (provider : Outcome) (random : Nat → Draw) (now : Nat),
      ∃ p, fetchDjangoWeatherData "demo" city provider random now = Completion.resolved p) ∧
    (∀ (scoreboard : Option String) (provider : Outcome) (mockSports : Payload),
      ∃ p, fetchDjangoSportsData scoreboard provider mockSports = Completion.resolved p) ∧
    fetchDjangoCoursesData = Completion.resolved coursesLiteral := by
  have hnews : callMethod "generateMockNewsData" (Outcome.returned Payload.undefined)
      = Outcome.threw "this.generateMockNewsData is not a function" := by decide
  have hweather : callMethod "generateMockWeatherData" (Outcome.returned Payload.undefined)
      = Outcome.threw "this.generateMockWeatherData is not a function" := by decide
  have hsports : ∀ p, callMethod "generateMockSportsData" (Outcome.returned p)
      = Outcome.returned p := by
    intro p
    have h : "generateMockSportsData" ∈ classMethods := by decide
    simp only [callMethod, if_pos h]
  have hresolves : ∀ (tried : Outcome) (v : Payload),
      ∃ p, tryCatch tried (Outcome.returned v) = Completion.resolved p := by
    intro tried v
    cases tried with
    | returned w => exact ⟨w, rfl⟩
    | threw m => exact ⟨v, rfl⟩
  refine ⟨by decide, by decide, ?_, ?_, ?_, ?_, ?_, ?_, rfl⟩
  · intro provider
    have hc : configured "demo" = false := by decide
    simp [fetchDjangoNewsData, hc, hnews, tryCatch]
  · intro key message
    simp only [fetchDjangoNewsData, hnews]
    split <;> rfl
  · intro twitter youtube mockTwitter mockYoutube now
    have h1 : callList "fetchRedditTrends" []
        = Except.error "this.fetchRedditTrends is not a function" := by
      have h : "fetchRedditTrends" ∉ classMethods := by decide
      simp only [callList, if_neg h]
      rfl
    have h2 : callList "generateMockRedditTrends" []
        = Except.error "this.generateMockRedditTrends is not a function" := by
      have h : "generateMockRedditTrends" ∉ classMethods := by decide
      simp only [callList, if_neg h]
      rfl
    have h3 : ∀ rows, callList "fetchTwitterTrends" rows = Except.ok rows := by
      intro rows
      have h : "fetchTwitterTrends" ∈ classMethods := by decide
      simp only [callList, if_pos h]
    have h4 : ∀ rows, callList "fetchYouTubeTrending" rows = Except.ok rows := by
      intro rows
      have h : "fetchYouTubeTrending" ∈ classMethods := by decide
      simp only [callList, if_pos h]
    have h5 : ∀ rows, callList "generateMockTwitterTrends" rows = Except.ok rows := by
      intro rows
      have h : "generateMockTwitterTrends" ∈ classMethods := by decide
      simp only [callList, if_pos h]
    have h6 : ∀ rows, callList "generateMockYouTubeTrending" rows = Except.ok rows := by
      intro rows
      have h : "generateMockYouTubeTrending" ∈ classMethods := by decide
      simp only [callList, if_pos h]
    simp only [fetchDjangoTrendingData, h1, h2, h3, h4, h5, h6, trendingRecord, tryCatch]
  · intro city message random now
    have hc : configured "0123456789abcdef" = true := by decide
    simp only [fetchDjangoWeatherData, hc, if_true, hweather, tryCatch]
  · intro city provider random now
    have hc : configured "demo" = false := by decide
    simp only [fetchDjangoWeatherData, hc, Bool.false_eq_true, if_false, tryCatch]
    exact ⟨_, rfl⟩
  · intro scoreboard provider mockSports
    simp only [fetchDjangoSportsData, hsports]
    exact hresolves _ mockSports

/-- C26: in every reachable state `data` has an own value for `c` exactly when the cache
has an entry for `c`, and then the entry holds that very payload, which is also what
`data[c]` reads; and an entry that is present is still present after any refresh, sweep,
read or lapse of time. -/
theorem C26_stores_in_step (s : Service) (hr : Reachable s) :
    (∀ c, (lookup c s.data).isSome = true ↔ (lookup c s.cache).isSome = true) ∧
    (∀ c cached, lookup c s.cache = some cached →
      lookup c s.data = some cached.data ∧ dataGet c s.data = cached.data) ∧
    (∀ (env : Env) (c d : String), (lookup d s.cache).isSome = true →
      (lookup d (fetchCategoryData env c s).2.cache).isSome = true ∧
      (lookup d (fetchAllData env s).2.cache).isSome = true ∧
      (lookup d (getData env c s).2.cache).isSome = true) ∧
    (∀ (ms : Nat) (d : String), lookup d (advance ms s).cache = lookup d s.cache) := by
  have hm := reachable_storesMatch hr
  have ha := reachable_storesAgree hr
  refine ⟨?_, ?_, ?_, fun _ _ => rfl⟩
  · intro c
    rw [← hm c]
    cases lookup c s.cache <;> simp
  · intro c cached hl
    refine ⟨?_, (ha c cached hl).2⟩
    rw [← hm c, hl]
    rfl
  · intro env c d hd
    refine ⟨retryLoop_keeps env c d s.maxRetries 0 s hd, ?_, getData_keeps env c d s hd⟩
    rw [fetchAllData_snd]
    exact sweep_keeps env d getCategories s hd

/-- Witness for C26: the service that has refreshed news, then reads weather while the
weather provider is down. -/
theorem C26_stores_witness :
    ((lookup "news" newsRefreshed.data).isSome = true ↔
      (lookup "news" newsRefreshed.cache).isSome = true) ∧
    (lookup "news" newsRefreshed.data
        = some (CacheEntry.mk (Payload.list [Atom.json "item"]) 10).data ∧
      dataGet "news" newsRefreshed.data
        = (CacheEntry.mk (Payload.list [Atom.json "item"]) 10).data) ∧
    (lookup "news" (getData envWeatherDown "weather" newsRefreshed).2.cache).isSome = true :=
  ⟨(C26_stores_in_step newsRefreshed
      (Reachable.fetch envWeatherDown "news" (Reachable.init 0))).1 "news",
   (C26_stores_in_step newsRefreshed
      (Reachable.fetch envWeatherDown "news" (Reachable.init 0))).2.1 "news"
      (CacheEntry.mk (Payload.list [Atom.json "item"]) 10) (by decide),
   ((C26_stores_in_step newsRefreshed
      (Reachable.fetch envWeatherDown "news" (Reachable.init 0))).2.2.1
      envWeatherDown "weather" "news" (by decide)).2.2⟩

/-- C27: in a reachable state, for a category `c` that has an entry, `getData(c)` does
not depend on the clock: at every clock value, whether it makes the entry fresh or
stale, it resolves with the stored payload and leaves the state as it is, so it makes no
fetch attempt; `getData` makes a fetch attempt only when `c` has no entry at all. -/
theorem C27_read_ignores_clock (env : Env) (c : String) (s : Service) (hr : Reachable s) :
    (∀ cached, lookup c s.cache = some cached →
      ∀ t : Nat,
        getData env c { s with now := t } = (Completion.resolved cached.data, { s with now := t }) ∧
        (getData env c { s with now := t }).2.attempts = s.attempts) ∧
    ((getData env c s).2.attempts ≠ s.attempts → lookup c s.cache = none) := by
  have ha := reachable_storesAgree hr
  have key : ∀ cached, lookup c s.cache = some cached → ∀ t : Nat,
      getData env c { s with now := t } = (Completion.resolved cached.data, { s with now := t }) := by
    intro cached hl t
    exact getData_entry env c { s with now := t } cached
      (storesAgree_of_same ⟨rfl, rfl, rfl, rfl, rfl, rfl⟩ ha) hl
  refine ⟨fun cached hl t => ⟨key cached hl t, by rw [key cached hl t]; rfl⟩, ?_⟩
  intro hne
  cases hl : lookup c s.cache with
  | none => rfl
  | some cached =>
    exfalso
    apply hne
    have h := key cached hl s.now
    have hs : ({ s with now := s.now } : Service) = s := rfl
    rw [hs] at h
    rw [h]

/-- Witness for C27: the news entry stamped 10, read at time 11 (fresh) and at time
900000 (stale), in a world where a refresh would bring newer content. -/
theorem C27_read_witness :
    getData envUpdated "news" { newsRefreshed with now := 11 }
      = (Completion.resolved (CacheEntry.mk (Payload.list [Atom.json "item"]) 10).data,
          { newsRefreshed with now := 11 }) ∧
    getData envUpdated "news" { newsRefreshed with now := 900000 }
      = (Completion.resolved (CacheEntry.mk (Payload.list [Atom.json "item"]) 10).data,
          { newsRefreshed with now := 900000 }) :=
  ⟨((C27_read_ignores_clock envUpdated "news" newsRefreshed
      (Reachable.fetch envWeatherDown "news" (Reachable.init 0))).1
      (CacheEntry.mk (Payload.list [Atom.json "item"]) 10) (by decide) 11).1,
   ((C27_read_ignores_clock envUpdated "news" newsRefreshed
      (Reachable.fetch envWeatherDown "news" (Reachable.init 0))).1
      (CacheEntry.mk (Payload.list [Atom.json "item"]) 10) (by decide) 900000).1⟩

/-- C28: in a reachable state, when `getData(c)` is called for a registered category
with no entry and every fetch attempt for `c` fails, `getData` returns what
`generateMockData(c)` returns and stores nothing: `data`, the cache and the emitted
events are as before, `c` still has no entry and no data, the read has made `maxRetries`
attempts, and the next `getData(c)` makes `maxRetries` attempts again; for a category
with a switch case the value returned is the generic record
`{category: c, data: 'Mock data for ' + c, timestamp, status: 'active'}`. -/
theorem C28_fallback_is_not_stored (env : Env) (c : String) (s : Service)
    (hr : Reachable s) (hc : c ∈ getCategories) (hnoentry : lookup c s.cache = none)
    (hfail : ∀ i, FailsAt env c i) :
    (getData env c s).1 =
      (match (generateMockData env c (fetchCategoryData env c s).2).1 with
      | Outcome.returned v => Completion.resolved v
      | Outcome.threw message => Completion.rejected message) ∧
    (getData env c s).2.data = s.data ∧ (getData env c s).2.cache = s.cache ∧
    (getData env c s).2.emitted = s.emitted ∧
    lookup c (getData env c s).2.cache = none ∧
    dataGet c (getData env c s).2.data = Payload.undefined ∧
    (getData env c s).2.attempts = s.attempts + s.maxRetries ∧
    (getData env c (getData env c s).2).2.attempts
      = (getData env c s).2.attempts + s.maxRetries ∧
    (c ∈ switchCases →
      (getData env c s).1 = Completion.resolved
        (Payload.record [("category", Atom.text c),
          ("data", Atom.text ("Mock data for " ++ c)),
          ("timestamp", Atom.instant (getData env c s).2.now),
          ("status", Atom.text "active")])) := by
  have hni := registered_not_inherited c hc
  have hund := reachable_no_entry_no_data hr c hni hnoentry
  have hnodata : truthy (dataGet c s.data) = false := by rw [hund]; rfl
  obtain ⟨hsame, hatt, hval⟩ :=
    getData_exhausted_state env c s hnoentry hnodata (fun i _ => hfail _)
  have hnoentry2 : lookup c (getData env c s).2.cache = none := by
    rw [hsame.2.1]; exact hnoentry
  have hund2 : dataGet c (getData env c s).2.data = Payload.undefined := by
    rw [hsame.1]; exact hund
  have hnodata2 : truthy (dataGet c (getData env c s).2.data) = false := by
    rw [hund2]; rfl
  obtain ⟨_, hatt2, _⟩ :=
    getData_exhausted_state env c (getData env c s).2 hnoentry2 hnodata2
      (fun i _ => hfail _)
  refine ⟨hval, hsame.1, hsame.2.1, hsame.2.2.1, hnoentry2, hund2, hatt, ?_, ?_⟩
  · rw [hatt2, hsame.2.2.2.2.1]
  · intro hsw
    rw [getData_exhausted env c s hnoentry hnodata (fun i _ => hfail _),
      generateMockData_switchCase env c _ hsw]
    rfl

set_option maxRecDepth 100000 in
/-- Witness for C28: weather is read on a fresh service while its provider is down. Two
reads make three attempts each; the first returns the generic record stamped 3030 (three
10 ms calls and waits of 1000 ms and 2000 ms). -/
theorem C28_fallback_witness :
    (getData envWeatherDown "weather" (constructor 0)).1 = Completion.resolved
      (Payload.record [("category", Atom.text "weather"),
        ("data", Atom.text "Mock data for weather"),
        ("timestamp", Atom.instant 3030), ("status", Atom.text "active")]) ∧
    lookup "weather" (getData envWeatherDown "weather" (constructor 0)).2.cache = none ∧
    (getData envWeatherDown "weather" (constructor 0)).2.attempts = 3 ∧
    (getData envWeatherDown "weather"
      (getData envWeatherDown "weather" (constructor 0)).2).2.attempts = 6 :=
  ⟨(C28_fallback_is_not_stored envWeatherDown "weather" (constructor 0) (Reachable.init 0)
      (by decide) (by decide) envWeatherDown_fails).2.2.2.2.2.2.2.2 (by decide),
   (C28_fallback_is_not_stored envWeatherDown "weather" (constructor 0) (Reachable.init 0)
      (by decide) (by decide) envWeatherDown_fails).2.2.2.2.1,
   by decide, by decide⟩

/-- C29: `null`, `undefined`, the empty string and `0` are falsy and the empty list is
truthy. If an attempt of `fetchCategoryData(c)` returns a falsy value, it is the last
attempt of the call (no retry follows), and `data`, the cache, the emitted events and
the sequence of writes are exactly as before the call; when it is the first attempt, the
call has done nothing but that attempt. An attempt that returns the empty list stores
it: the entry of `c` holds `[]`, `data[c]` is `[]`, and `dataUpdate(c, [])` is emitted. -/
theorem C29_falsy_payload_ends_call (env : Env) (c : String) (s : Service) :
    (truthy Payload.null = false ∧ truthy Payload.undefined = false ∧
      truthy (Payload.str "") = false ∧ truthy (Payload.num 0) = false ∧
      truthy (Payload.list []) = true) ∧
    (∀ T p, Call.mk c T (Outcome.returned p) ∈
        (fetchCategoryData env c s).2.calls.drop s.calls.length → truthy p = false →
      ((fetchCategoryData env c s).2.calls.drop s.calls.length).getLast?
        = some (Call.mk c T (Outcome.returned p)) ∧
      (fetchCategoryData env c s).2.data = s.data ∧
      (fetchCategoryData env c s).2.cache = s.cache ∧
      (fetchCategoryData env c s).2.emitted = s.emitted ∧
      (fetchCategoryData env c s).2.effects = s.effects) ∧
    (∀ p, 0 < s.maxRetries → (dispatch env c s).1 = Outcome.returned p → truthy p = false →
      (fetchCategoryData env c s).2 = (dispatch env c s).2 ∧
      (fetchCategoryData env c s).2.attempts = s.attempts + 1 ∧
      (fetchCategoryData env c s).2.delays = s.delays) ∧
    (∀ T, Call.mk c T (Outcome.returned (Payload.list [])) ∈
        (fetchCategoryData env c s).2.calls.drop s.calls.length →
      lookup c (fetchCategoryData env c s).2.cache = some (CacheEntry.mk (Payload.list []) T) ∧
      dataGet c (fetchCategoryData env c s).2.data = Payload.list [] ∧
      (fetchCategoryData env c s).2.emitted = s.emitted ++ [Event.mk c (Payload.list [])]) := by
  refine ⟨⟨rfl, rfl, rfl, rfl, rfl⟩, ?_, ?_, ?_⟩
  · intro T p hcall hp
    obtain ⟨tr, htr, hprop⟩ := retryLoop_falsy env c s.maxRetries 0 s
    rw [fetch_new_calls env c s tr htr] at hcall ⊢
    obtain ⟨h1, h2, h3⟩ := hprop T p hcall hp
    exact ⟨h3, h1.1, h1.2.1, h1.2.2.1, h2⟩
  · intro p h0 hd hp
    obtain ⟨n, hn⟩ : ∃ n, s.maxRetries = n + 1 := ⟨s.maxRetries - 1, by omega⟩
    have hne : ¬ (truthy p = true) := by rw [hp]; decide
    have hrun : (fetchCategoryData env c s).2 = (dispatch env c s).2 := by
      simp only [fetchCategoryData]
      rw [hn, retryLoop_returned env c n 0 s p h0 hd, if_neg hne]
    rw [hrun]
    refine ⟨rfl, ?_, dispatch_delays env c s⟩
    show (dispatch env c s).2.calls.length = _
    rw [dispatch_calls env c s]
    simp [Service.attempts]
  · intro T hcall
    obtain ⟨tr, htr, hprop⟩ := retryLoop_history env c s.maxRetries 0 s
    rw [fetch_new_calls env c s tr htr] at hcall
    exact hprop T (Payload.list []) hcall rfl

/-- Witness for C29: every provider answers `null`, respectively `[]`; the refresh of
news on a fresh service makes one attempt, ending at time 10. With `null` nothing is
written; with `[]` the entry is written. -/
theorem C29_falsy_payload_witness :
    (((fetchCategoryData (envAnswering Payload.null) "news" (constructor 0)).2.calls.drop
        (constructor 0).calls.length).getLast?
        = some (Call.mk "news" 10 (Outcome.returned Payload.null)) ∧
      (fetchCategoryData (envAnswering Payload.null) "news" (constructor 0)).2.data
        = (constructor 0).data ∧
      (fetchCategoryData (envAnswering Payload.null) "news" (constructor 0)).2.cache
        = (constructor 0).cache ∧
      (fetchCategoryData (envAnswering Payload.null) "news" (constructor 0)).2.emitted
        = (constructor 0).emitted ∧
      (fetchCategoryData (envAnswering Payload.null) "news" (constructor 0)).2.effects
        = (constructor 0).effects) ∧
    (lookup "news" (fetchCategoryData (envAnswering (Payload.list [])) "news"
        (constructor 0)).2.cache = some (CacheEntry.mk (Payload.list []) 10) ∧
      dataGet "news" (fetchCategoryData (envAnswering (Payload.list [])) "news"
        (constructor 0)).2.data = Payload.list [] ∧
      (fetchCategoryData (envAnswering (Payload.list [])) "news" (constructor 0)).2.emitted
        = (constructor 0).emitted ++ [Event.mk "news" (Payload.list [])]) :=
  ⟨(C29_falsy_payload_ends_call (envAnswering Payload.null) "news" (constructor 0)).2.1
      10 Payload.null (by decide) (by decide),
   (C29_falsy_payload_ends_call (envAnswering (Payload.list [])) "news"
      (constructor 0)).2.2.2 10 (by decide)⟩

/-- C30: the switch of `fetchCategoryData` has 32 distinct case labels and the generator
table of `generateMockData` has 28 distinct keys; no id is in both, every one of them is
registered, and the registered ids that are in neither are exactly `public_transit` and
`parking_availability`. A refresh of a registered id (retry budget positive) takes its
value accordingly: for an id in neither list its one attempt stores the generic record
of `generateGenericMockData`, for a table key its one attempt stores what the generator
of that key returned, and for a case label every attempt is the call of its fetcher. -/
theorem C30_dispatch_partitions_registry :
    switchCases.length = 32 ∧ generatorKeys.length = 28 ∧
    switchCases.Nodup ∧ generatorKeys.Nodup ∧
    (∀ c ∈ switchCases, c ∉ generatorKeys) ∧
    (∀ c ∈ switchCases, c ∈ getCategories) ∧ (∀ c ∈ generatorKeys, c ∈ getCategories) ∧
    getCategories.filter (fun c => decide (c ∉ switchCases ∧ c ∉ generatorKeys))
      = ["public_transit", "parking_availability"] ∧
    (∀ (env : Env) (c : String) (s : Service), c ∈ getCategories → 0 < s.maxRetries →
      (c ∉ switchCases → c ∉ generatorKeys →
        (c = "public_transit" ∨ c = "parking_availability") ∧
        lookup c (fetchCategoryData env c s).2.cache
          = some (CacheEntry.mk (generateGenericMockData c s.now) s.now) ∧
        (fetchCategoryData env c s).2.attempts = s.attempts + 1) ∧
      (c ∈ generatorKeys →
        lookup c (fetchCategoryData env c s).2.cache
          = some (CacheEntry.mk (env.generator c s.draws).toPayload s.now)) ∧
      (c ∈ switchCases → ∀ t : Service,
        (dispatch env c t).1 = (env.fetcher c t.attempts).outcome)) := by
  refine ⟨by decide, by decide, by decide, by decide, switchCases_not_generated,
    switchCases_registered, generatorKeys_registered, by decide, ?_⟩
  intro env c s hc h0
  refine ⟨?_, ?_, ?_⟩
  · intro h1 h2
    have h3 := registered_not_inherited c hc
    have hd := dispatch_generic env c s h1 h2 h3
    have hmem : c ∈ getCategories.filter
        (fun c => decide (c ∉ switchCases ∧ c ∉ generatorKeys)) := by
      rw [List.mem_filter]
      exact ⟨hc, by simp [h1, h2]⟩
    have hlist : getCategories.filter
        (fun c => decide (c ∉ switchCases ∧ c ∉ generatorKeys))
        = ["public_transit", "parking_availability"] := by decide
    rw [hlist] at hmem
    refine ⟨by simpa using hmem, ?_, ?_⟩
    · have h := fetch_first_returned env c s (generateGenericMockData c s.now) h0
        (by rw [hd]) rfl
      rw [h, hd]
    · obtain ⟨n, hn⟩ : ∃ n, s.maxRetries = n + 1 := ⟨s.maxRetries - 1, by omega⟩
      simp only [fetchCategoryData]
      rw [hn, retryLoop_returned env c n 0 s (generateGenericMockData c s.now) h0
        (by rw [hd]), hd]
      simp [store, Service.attempts, generateGenericMockData, truthy]
  · intro h2
    have h1 : c ∉ switchCases := fun h => switchCases_not_generated c h h2
    obtain ⟨hd, hnow⟩ := dispatch_generated env c s h1 h2
    have h := fetch_first_returned env c s _ h0 hd (toPayload_truthy _)
    rw [h, hnow]
  · intro h1 t
    exact dispatch_switchCase env c t h1

/-- Witness for C30: a refresh of `public_transit` on a fresh service stores the generic
record, and a refresh of `gdp_data` stores the object its generator returned. -/
theorem C30_dispatch_witness :
    (lookup "public_transit"
        (fetchCategoryData envWeatherDown "public_transit" (constructor 0)).2.cache
      = some (CacheEntry.mk (generateGenericMockData "public_transit" 0) 0)) ∧
    (lookup "gdp_data" (fetchCategoryData envWeatherDown "gdp_data" (constructor 0)).2.cache
      = some (CacheEntry.mk (envWeatherDown.generator "gdp_data" 0).toPayload 0)) :=
  ⟨((C30_dispatch_partitions_registry.2.2.2.2.2.2.2.2 envWeatherDown "public_transit"
      (constructor 0) (by decide) (by decide)).1 (by decide) (by decide)).2.1,
   (C30_dispatch_partitions_registry.2.2.2.2.2.2.2.2 envWeatherDown "gdp_data"
      (constructor 0) (by decide) (by decide)).2.1 (by decide)⟩


end LiveDataService
